import Mathlib

/-!
# NOVA_MARKET frontend: the cart controller of `CartPage.jsx`

A shallow embedding of the cart page (`frontend/src/pages/CartPage.jsx`), of the axios
wrapper it calls (`frontend/src/utils/api.js`) and of the add-to-cart handlers of
`ProductsPage.jsx` and `ProductDetail.jsx`, which write the fallback cache the cart page
reads; and of three pure pieces of other pages: the sorted proposals of
`ManageProposals.jsx`, `handleAddImage` of `AddProduct.jsx` and `filterProducts` of
`ProductsPage.jsx`.

Modelling conventions.

* JSON payloads are represented by typed views holding exactly the fields the code reads.
  An absent (or `null`/`undefined`) field is `none`; identifiers and texts are strings;
  JSON numbers are integers.  An element of a JSON array that is `null` is `none`, because
  reading a property of `null` throws and so changes the control flow.  The `stock` of the
  detail page is compared with a number, where `null` and `undefined` behave differently,
  and has a type of its own.
* The component state (`cart`, `loading`, `processing`), `localStorage`, the list of
  requests issued, the toasts shown and the assignments to `window.location.href`
  are the fields of `World`; every handler is a function `World → World`.
* The network is a function `Net` from the requests issued so far (the current one last)
  to the outcome of the current request, so a server may answer depending on everything it
  has been asked before.
* `await` is sequential composition; `try/catch` is a case distinction on the outcome.
  The handlers of the cart page are given twice: as functions `World → World`, and with
  the exceptions of their statements as functions to `Tried`, where an exception that no
  `catch` block handles is the result of the handler.
* `Array.prototype.sort` with a consistent comparator is the stable insertion sort; it
  sorts in place, so the arrays of the proposals page live in a list of arrays and are
  referred to by index.  `String.prototype.toLowerCase` is a parameter of the functions
  that call it.
-/

namespace NovaMarket

/-! ## JavaScript helpers -/

/-- Truthiness of a string-valued field: absent and the empty string are falsy. -/
def truthy : Option String → Bool
  | some s => s != ""
  | none => false

/-- The JavaScript `a || b` on string-valued fields. -/
def jsOr (a b : Option String) : Option String :=
  if truthy a then a else b

/-- The JavaScript `a || dflt` on a string-valued field with a string literal default. -/
def orDefault (a : Option String) (dflt : String) : String :=
  match a with
  | some s => if s != "" then s else dflt
  | none => dflt

/-! ## Data model -/

/-- The client-visible cart item built by `loadCart`. -/
structure CartItem where
  id : Option String
  product_id : Option String
  title : String
  category : String
  image : String
  price : Int
  quantity : Int
deriving DecidableEq, Repr

/-- The product fields read from a product JSON object. -/
structure Product where
  id : Option String := none
  title : Option String := none
  category : Option String := none
  images : Option (List String) := none
  price : Option Int := none
deriving DecidableEq, Repr

/-- One element of `items` in the body of `GET /products/cart`. -/
structure ServerItem where
  id : Option String := none
  product : Option Product := none
  product_id : Option String := none
  quantity : Option Int := none
deriving DecidableEq, Repr

/-- The fields read from `response.data`.  `items` is `none` when `data.items` is not an
array; the product fields are those read after `GET /products/{id}`; `url` and
`checkout_url` are read after `POST /checkout/create-session`; `message` is read after
`POST /products/cart/add`. -/
structure Body where
  items : Option (List (Option ServerItem)) := none
  title : Option String := none
  category : Option String := none
  images : Option (List String) := none
  price : Option Int := none
  url : Option String := none
  checkout_url : Option String := none
  message : Option String := none
deriving DecidableEq, Repr

/-- The value of `error.response?.data?.detail`: absent (or `null`), a string, an array whose
elements are given by their `msg` field (`none` when the element is null or has no `msg`),
or some other truthy value. -/
inductive Detail
  | absent
  | str (s : String)
  | list (msgs : List (Option String))
  | other
deriving DecidableEq, Repr

/-- A caught exception, seen through the paths the handlers read:
`error.response?.status`, `error.response?.data?.detail` and `error.message`.  The detail
page reads more of a `detail` that is truthy and not a string than `Detail` holds, and
`detailText` is what lines 157-163 of `ProductDetail.jsx` make of it: for an array its
elements joined by `", "`, a string element standing for itself and any other element for
its `msg`, or for its JSON text when the `msg` is falsy; for another object its `msg`, else
its `message`, else its JSON text; for any other value the text "Failed to add to cart";
and `none` when an element of the array is `null` or `undefined`, where reading `err.msg`
throws. -/
structure JsError where
  status : Option Nat := none
  detail : Detail := Detail.absent
  message : String := ""
  detailText : Option String := some "Failed to add to cart"
deriving DecidableEq, Repr

/-- Outcome of an axios call: resolved with `response.data` (`none` when it is falsy) or
rejected with an error. -/
inductive Response
  | ok (data : Option Body)
  | fail (err : JsError)
deriving DecidableEq, Repr

/-- The requests the cart page issues. -/
inductive Request
  | getCart
  | getProduct (productId : Option String)
  | deleteCartItem (itemId : Option String)
  | addToCart (productId : Option String) (quantity : Int)
  | createSession (items : List (Option String × Int)) (type : String)
deriving DecidableEq, Repr

/-- The network: the outcome of the last request of a history of requests. -/
abbrev Net := List Request → Response

/-- One element of the cached array: `{product_id, quantity}`. -/
structure CacheEntry where
  product_id : Option String := none
  quantity : Option Int := none
deriving DecidableEq, Repr

/-- A string held by `localStorage`, classified by what `JSON.parse` makes of it:
`text s` is a string that is not JSON (`JSON.parse` throws, the empty string included),
`nonArray` is JSON text of a value that is not an array, and `array es` is JSON text of an
array, a `null` element being `none`. -/
inductive StoreVal
  | text (s : String)
  | nonArray
  | array (entries : List (Option CacheEntry))
deriving DecidableEq, Repr

/-- The browser's `localStorage` as an association list. -/
abbrev Storage := List (String × StoreVal)

/-- The method `localStorage.getItem`. -/
def Storage.getItem (st : Storage) (key : String) : Option StoreVal :=
  match st with
  | [] => none
  | (k, v) :: rest => if k = key then some v else Storage.getItem rest key

/-- The method `localStorage.removeItem`. -/
def Storage.removeItem (st : Storage) (key : String) : Storage :=
  st.filter (fun kv => kv.1 != key)

/-- The method `localStorage.setItem`: overwrite in place or append. -/
def Storage.setItem (st : Storage) (key : String) (v : StoreVal) : Storage :=
  match st with
  | [] => [(key, v)]
  | (k, old) :: rest =>
    if k = key then (k, v) :: rest else (k, old) :: Storage.setItem rest key v

/-- What a handler passes to `toast.error`: a string, or a truthy non-string `detail`
handed over as it is. -/
inductive ErrMsg
  | text (s : String)
  | detail (d : Detail)
deriving DecidableEq, Repr

/-- A notification.  `errorCached m` is
`toast.error("Server cart unavailable (" + m + "). Showing cached cart.")`. -/
inductive Toast
  | error (m : ErrMsg)
  | success (s : String)
  | errorCached (m : ErrMsg)
deriving DecidableEq, Repr

/-- Everything the pages read and write.  `log` holds the requests issued, `redirects` the
values assigned to `window.location.href` and `navigations` the paths passed to the router's
`navigate`, all oldest first. -/
structure World where
  cart : List CartItem := []
  loading : Bool := true
  processing : Bool := false
  storage : Storage := []
  log : List Request := []
  toasts : List Toast := []
  redirects : List String := []
  navigations : List String := []
deriving DecidableEq, Repr

/-! ## `api.js` -/

/-- The response interceptor of `api.js`: on status 401 the token and the user are removed
from local storage and the page is sent to `/login`; the error is rejected unchanged. -/
def responseInterceptor (err : JsError) (w : World) : World :=
  if err.status = some 401 then
    { w with
      storage := (w.storage.removeItem "token").removeItem "user"
      redirects := w.redirects ++ ["/login"] }
  else w

/-- One axios call: the request is recorded, the network answers, and a rejection runs
through the response interceptor before the caller sees it. -/
def apiCall (net : Net) (r : Request) (w : World) : Response × World :=
  let w1 := { w with log := w.log ++ [r] }
  match net w1.log with
  | Response.ok d => (Response.ok d, w1)
  | Response.fail e => (Response.fail e, responseInterceptor e w1)

/-! ## `CartPage.jsx` -/

/-- The key of the fallback cache of a user. -/
def cacheKey (uid : String) : String := "cart_cache_" ++ uid

/-- The expression `error?.response?.data?.detail || error?.message || dflt`. -/
def errorMsgOf (e : JsError) (dflt : String) : ErrMsg :=
  let rest := if e.message != "" then ErrMsg.text e.message else ErrMsg.text dflt
  match e.detail with
  | Detail.absent => rest
  | Detail.str s => if s != "" then ErrMsg.text s else rest
  | d => ErrMsg.detail d

/-- The `TypeError` raised by reading a property of `null` (the text is the engine's). -/
def nullPropertyError (prop : String) : JsError :=
  { message := "Cannot read properties of null (reading " ++ prop ++ ")" }

/-- The `SyntaxError` raised by `JSON.parse` (the text is the engine's). -/
def jsonSyntaxError : JsError :=
  { message := "Unexpected token in JSON" }

/-- The `TypeError` raised by calling an array method on a value that has none. -/
def notAFunctionError (method : String) : JsError :=
  { message := "cached." ++ method ++ " is not a function" }

/-- The object literal of `loadCart` lines 44-52, for one non-null server item. -/
def mapServerItem (i : ServerItem) : CartItem :=
  { id := i.id
    product_id := jsOr (i.product.bind (fun p => p.id)) i.product_id
    title := orDefault (i.product.bind (fun p => p.title)) "Product"
    category := orDefault (i.product.bind (fun p => p.category)) ""
    image := orDefault ((i.product.bind (fun p => p.images)).bind List.head?) ""
    price := ((i.product.bind (fun p => p.price)).getD 0)
    quantity := i.quantity.getD 1 }

/-- The call `server.items.map(...)`: the callback throws at the first `null` element. -/
def mapServerItems : List (Option ServerItem) → Except JsError (List CartItem)
  | [] => Except.ok []
  | none :: _ => Except.error (nullPropertyError "id")
  | some i :: rest =>
    match mapServerItems rest with
    | Except.ok items => Except.ok (mapServerItem i :: items)
    | Except.error e => Except.error e

/-- Lines 42-53 of `loadCart`: `server = response.data || {}` and the mapping of
`server.items` when it is an array, the empty list otherwise. -/
def serverCart (data : Option Body) : Except JsError (List CartItem) :=
  match data.bind (fun b => b.items) with
  | some items => mapServerItems items
  | none => Except.ok []

/-- Outcome of `JSON.parse(localStorage.getItem(key) || "[]")`. -/
inductive Parsed
  | throws
  | nonArray
  | array (entries : List (Option CacheEntry))
deriving DecidableEq, Repr

/-- The expression `JSON.parse(localStorage.getItem(key) || "[]")`: a missing key and the
empty string are replaced by the text of the empty array. -/
def parseCache (st : Storage) (key : String) : Parsed :=
  match st.getItem key with
  | none => Parsed.array []
  | some (StoreVal.text s) => if s = "" then Parsed.array [] else Parsed.throws
  | some StoreVal.nonArray => Parsed.nonArray
  | some (StoreVal.array entries) => Parsed.array entries

/-- The object literal of `loadCart` lines 78-86, from a cached entry and the product
returned by `GET /products/{product_id}` (`p = res.data || {}`). -/
def cachedItem (c : CacheEntry) (data : Option Body) : CartItem :=
  let p : Body := data.getD {}
  { id := c.product_id
    product_id := c.product_id
    title := orDefault p.title "Product"
    category := orDefault p.category ""
    image := orDefault (p.images.bind List.head?) ""
    price := p.price.getD 0
    quantity := match c.quantity with
      | some q => if q != 0 then q else 1
      | none => 1 }

/-- The callback of `cached.map` in `loadCart` (lines 74-90) for one cached element:
a `null` element throws before any request and yields `null`, a failed product fetch
yields `null`, a successful one yields the item. -/
def fetchCached (net : Net) (c : Option CacheEntry) (w : World) : Option CartItem × World :=
  match c with
  | none => (none, w)
  | some c =>
    match apiCall net (Request.getProduct c.product_id) w with
    | (Response.ok data, w1) => (some (cachedItem c data), w1)
    | (Response.fail _, w1) => (none, w1)

/-- The expression `Promise.all(cached.map(...))`: the requests are issued in cache order
and the results are collected in cache order. -/
def fetchAllCached (net : Net) : List (Option CacheEntry) → World → List (Option CartItem) × World
  | [], w => ([], w)
  | c :: rest, w =>
    let (r, w1) := fetchCached net c w
    let (rs, w2) := fetchAllCached net rest w1
    (r :: rs, w2)

/-- The state setter `setLoading`. -/
def World.setLoading (w : World) (b : Bool) : World :=
  { w with loading := b }

/-- The state setter `setProcessing`. -/
def World.setProcessing (w : World) (b : Bool) : World :=
  { w with processing := b }

/-- Append a toast. -/
def World.toast (w : World) (t : Toast) : World :=
  { w with toasts := w.toasts ++ [t] }

/-- The `catch` block of `loadCart` (lines 59-102): rebuild the cart from the fallback
cache of the user. -/
def loadCartFallback (net : Net) (uid : String) (error : JsError) (w : World) : World :=
  let errorMsg := errorMsgOf error "Failed to load cart"
  match parseCache w.storage (cacheKey uid) with
  | Parsed.array (c :: cs) =>
    let (detailed, w1) := fetchAllCached net (c :: cs) w
    let items := detailed.filterMap id
    ({ w1 with cart := items }).toast (Toast.errorCached errorMsg)
  | Parsed.array [] => { (w.toast (Toast.error errorMsg)) with cart := [] }
  | Parsed.nonArray => { (w.toast (Toast.error errorMsg)) with cart := [] }
  | Parsed.throws => { (w.toast (Toast.error errorMsg)) with cart := [] }

/-- The function `loadCart` (lines 38-106). -/
def loadCart (net : Net) (uid : String) (w : World) : World :=
  let w0 := w.setLoading true
  let w2 :=
    match apiCall net Request.getCart w0 with
    | (Response.ok data, w1) =>
      match serverCart data with
      | Except.ok items =>
        { w1 with cart := items, storage := w1.storage.removeItem (cacheKey uid) }
      | Except.error e => loadCartFallback net uid e w1
    | (Response.fail e, w1) => loadCartFallback net uid e w1
  w2.setLoading false

/-- The call `cached.findIndex((c) => c.product_id === pid)`: the index of the first
match, `none` for `-1`; the callback throws at a `null` element met before a match. -/
def findIndexByProduct (pid : Option String) :
    List (Option CacheEntry) → Except JsError (Option Nat)
  | [] => Except.ok none
  | none :: _ => Except.error (nullPropertyError "product_id")
  | some c :: rest =>
    if c.product_id = pid then Except.ok (some 0)
    else
      match findIndexByProduct pid rest with
      | Except.ok (some k) => Except.ok (some (k + 1))
      | Except.ok none => Except.ok none
      | Except.error e => Except.error e

/-- The assignment `cached[idx].quantity = newQuantity`. -/
def setQuantityAt : Nat → Int → List (Option CacheEntry) → List (Option CacheEntry)
  | _, _, [] => []
  | 0, q, c :: rest => c.map (fun e => { e with quantity := some q }) :: rest
  | k + 1, q, c :: rest => c :: setQuantityAt k q rest

/-- The call `cached.filter((c) => c.product_id !== pid)`: the callback throws at a `null`
element. -/
def filterOutProduct (pid : Option String) :
    List (Option CacheEntry) → Except JsError (List (Option CacheEntry))
  | [] => Except.ok []
  | none :: _ => Except.error (nullPropertyError "product_id")
  | some c :: rest =>
    match filterOutProduct pid rest with
    | Except.ok kept => Except.ok (if c.product_id != pid then some c :: kept else kept)
    | Except.error e => Except.error e

/-- Outcome of a `try` block: it ran to its end, or a statement threw, with the state
reached when it threw. -/
inductive Tried
  | done (w : World)
  | thrown (error : JsError) (w : World)
deriving DecidableEq, Repr

/-- The state a `try` block ends in, however it ends. -/
def Tried.world : Tried → World
  | Tried.done w => w
  | Tried.thrown _ w => w

/-- The fallback branch of `updateQuantity` (lines 117-128). -/
def updateQuantityLocal (uid : String) (itemId : Option String) (item : CartItem)
    (newQuantity : Int) (w : World) : Tried :=
  match parseCache w.storage (cacheKey uid) with
  | Parsed.throws => Tried.thrown jsonSyntaxError w
  | Parsed.nonArray => Tried.thrown (notAFunctionError "findIndex") w
  | Parsed.array cached =>
    match findIndexByProduct item.product_id cached with
    | Except.error e => Tried.thrown e w
    | Except.ok idx =>
      let cached1 := match idx with
        | some k => setQuantityAt k newQuantity cached
        | none => cached
      let w1 := { w with
        storage := w.storage.setItem (cacheKey uid) (StoreVal.array cached1)
        cart := w.cart.map (fun (i : CartItem) =>
          if i.id = itemId then { i with quantity := newQuantity } else i) }
      Tried.done (w1.toast (Toast.success "Quantity updated"))

/-- The server branch of `updateQuantity` (lines 130-151): delete, tolerating a 404, then
add with the new quantity, then reload. -/
def updateQuantityServer (net : Net) (uid : String) (itemId : Option String) (item : CartItem)
    (newQuantity : Int) (w : World) : Tried :=
  let add (w1 : World) : Tried :=
    match apiCall net (Request.addToCart item.product_id newQuantity) w1 with
    | (Response.fail e, w2) => Tried.thrown e w2
    | (Response.ok _, w2) =>
      Tried.done ((loadCart net uid w2).toast (Toast.success "Quantity updated"))
  match apiCall net (Request.deleteCartItem itemId) w with
  | (Response.ok _, w1) => add w1
  | (Response.fail deleteError, w1) =>
    if deleteError.status != some 404 then Tried.thrown deleteError w1 else add w1

/-- The function `updateQuantity` (lines 108-159). -/
def updateQuantity (net : Net) (uid : String) (itemId : Option String) (change : Int)
    (w : World) : World :=
  match w.cart.find? (fun i => i.id = itemId) with
  | none => w
  | some item =>
    let newQuantity := item.quantity + change
    if newQuantity < 1 then w
    else
      let attempt :=
        if item.id = item.product_id then updateQuantityLocal uid itemId item newQuantity w
        else updateQuantityServer net uid itemId item newQuantity w
      match attempt with
      | Tried.done w1 => w1
      | Tried.thrown error w1 =>
        loadCart net uid (w1.toast (Toast.error (errorMsgOf error "Failed to update quantity")))

/-- The fallback branch of `removeItem` (lines 166-175). -/
def removeItemLocal (uid : String) (itemId : Option String) (item : CartItem)
    (w : World) : Tried :=
  match parseCache w.storage (cacheKey uid) with
  | Parsed.throws => Tried.thrown jsonSyntaxError w
  | Parsed.nonArray => Tried.thrown (notAFunctionError "filter") w
  | Parsed.array cached =>
    match filterOutProduct item.product_id cached with
    | Except.error e => Tried.thrown e w
    | Except.ok next =>
      let w1 := { w with
        storage := w.storage.setItem (cacheKey uid) (StoreVal.array next)
        cart := w.cart.filter (fun (i : CartItem) => i.id != itemId) }
      Tried.done (w1.toast (Toast.success "Item removed from cart"))

/-- The server branch of `removeItem` (lines 177-183). -/
def removeItemServer (net : Net) (uid : String) (itemId : Option String) (w : World) : Tried :=
  match apiCall net (Request.deleteCartItem itemId) w with
  | (Response.fail e, w1) => Tried.thrown e w1
  | (Response.ok _, w1) =>
    let w2 := { w1 with cart := w.cart.filter (fun (i : CartItem) => i.id != itemId) }
    Tried.done (loadCart net uid (w2.toast (Toast.success "Item removed from cart")))

/-- The function `removeItem` (lines 161-191). -/
def removeItem (net : Net) (uid : String) (itemId : Option String) (w : World) : World :=
  match w.cart.find? (fun i => i.id = itemId) with
  | none => w
  | some item =>
    let attempt :=
      if item.id = item.product_id then removeItemLocal uid itemId item w
      else removeItemServer net uid itemId w
    match attempt with
    | Tried.done w1 => w1
    | Tried.thrown error w1 =>
      loadCart net uid (w1.toast (Toast.error (errorMsgOf error "Failed to remove item")))

/-- The message computed in the `catch` block of `handleCheckout` (lines 214-221). -/
def checkoutMessage (detail : Detail) : String :=
  match detail with
  | Detail.str s => s
  | Detail.list msgs =>
    let joined := ", ".intercalate ((msgs.map (fun d => orDefault d "")).filter (fun m => m != ""))
    if joined != "" then joined else "Failed to create checkout session"
  | _ => "Failed to create checkout session"

/-- The function `handleCheckout` (lines 193-226). -/
def handleCheckout (net : Net) (w : World) : World :=
  if w.cart.length = 0 then w.toast (Toast.error (ErrMsg.text "Your cart is empty"))
  else
    let w0 := w.setProcessing true
    let body := Request.createSession
      (w.cart.map (fun (item : CartItem) => (item.product_id, item.quantity))) "product"
    let attempt :=
      match apiCall net body w0 with
      | (Response.ok data, w1) =>
        let url := jsOr (data.bind (fun d => d.url)) (data.bind (fun d => d.checkout_url))
        match url with
        | some target =>
          if target != "" then Tried.done { w1 with redirects := w1.redirects ++ [target] }
          else Tried.thrown { message := "No checkout URL received" } w1
        | none => Tried.thrown { message := "No checkout URL received" } w1
      | (Response.fail e, w1) => Tried.thrown e w1
    let w2 :=
      match attempt with
      | Tried.done w1 => w1
      | Tried.thrown error w1 => w1.toast (Toast.error (ErrMsg.text (checkoutMessage error.detail)))
    w2.setProcessing false

/-- The function `calculateTotal` (lines 228-230). -/
def calculateTotal (w : World) : Int :=
  w.cart.foldl (fun sum item => sum + item.price * item.quantity) 0

/-! ## `CartPage.jsx`: the handlers with the exceptions they can raise

The same four handlers, each statement written with the exception it can throw, so that an
exception no `catch` block handles is the result `Tried.thrown` of the handler. -/

/-- Sequencing of statements: the rest runs on the state the first part ended in, and is
skipped when the first part threw. -/
def Tried.andThen (t : Tried) (rest : World → Tried) : Tried :=
  match t with
  | Tried.done w => rest w
  | Tried.thrown error w => Tried.thrown error w

/-- The statement `try { block } catch (error) { handler }`. -/
def Tried.catching (block : Tried) (handler : JsError → World → Tried) : Tried :=
  match block with
  | Tried.done w => Tried.done w
  | Tried.thrown error w => handler error w

/-- A `finally` block of state updates: it runs however the statement before it ended, and
an exception on its way out continues after it. -/
def Tried.finallyDo (t : Tried) (cleanup : World → World) : Tried :=
  match t with
  | Tried.done w => Tried.done (cleanup w)
  | Tried.thrown error w => Tried.thrown error (cleanup w)

/-- An awaited axios call whose response is not read: a rejection is thrown. -/
def awaitRequest (net : Net) (r : Request) (w : World) : Tried :=
  match apiCall net r w with
  | (Response.ok _, w1) => Tried.done w1
  | (Response.fail error, w1) => Tried.thrown error w1

/-- The `try` block of `loadCart` (lines 41-58): the request, the mapping of the items, the
new cart and the removal of the cache. -/
def loadCartTry (net : Net) (uid : String) (w : World) : Tried :=
  match apiCall net Request.getCart w with
  | (Response.fail error, w1) => Tried.thrown error w1
  | (Response.ok data, w1) =>
    match serverCart data with
    | Except.error error => Tried.thrown error w1
    | Except.ok items =>
      Tried.done { w1 with cart := items, storage := w1.storage.removeItem (cacheKey uid) }

/-- The inner `try` block of the `catch` block of `loadCart` (lines 70-98).  The callback of
`cached.map` has its own `try`, so the product fetches do not throw. -/
def rebuildFromCache (net : Net) (uid : String) (errorMsg : ErrMsg) (w : World) : Tried :=
  match parseCache w.storage (cacheKey uid) with
  | Parsed.throws => Tried.thrown jsonSyntaxError w
  | Parsed.nonArray => Tried.done { (w.toast (Toast.error errorMsg)) with cart := [] }
  | Parsed.array [] => Tried.done { (w.toast (Toast.error errorMsg)) with cart := [] }
  | Parsed.array (c :: cs) =>
    let (detailed, w1) := fetchAllCached net (c :: cs) w
    let items := detailed.filterMap id
    Tried.done (({ w1 with cart := items }).toast (Toast.errorCached errorMsg))

/-- The `catch` block of `loadCart` (lines 59-102): the inner `try` and its `catch`. -/
def loadCartCatch (net : Net) (uid : String) (error : JsError) (w : World) : Tried :=
  let errorMsg := errorMsgOf error "Failed to load cart"
  (rebuildFromCache net uid errorMsg w).catching
    (fun _ w1 => Tried.done { (w1.toast (Toast.error errorMsg)) with cart := [] })

/-- The function `loadCart` (lines 38-106) with its `try`, `catch` and `finally`. -/
def loadCartRun (net : Net) (uid : String) (w : World) : Tried :=
  ((loadCartTry net uid (w.setLoading true)).catching (loadCartCatch net uid)).finallyDo
    (fun w1 => w1.setLoading false)

/-- The server branch of `updateQuantity` (lines 132-151): the delete in its own `try`,
whose `catch` throws the error again unless its status is 404; then the add, the reload and
the toast. -/
def updateQuantityServerRun (net : Net) (uid : String) (itemId : Option String)
    (item : CartItem) (newQuantity : Int) (w : World) : Tried :=
  ((awaitRequest net (Request.deleteCartItem itemId) w).catching
      (fun deleteError w1 =>
        if deleteError.status != some 404 then Tried.thrown deleteError w1
        else Tried.done w1)).andThen
    (fun w1 => (awaitRequest net (Request.addToCart item.product_id newQuantity) w1).andThen
      (fun w2 => (loadCartRun net uid w2).andThen
        (fun w3 => Tried.done (w3.toast (Toast.success "Quantity updated")))))

/-- The function `updateQuantity` (lines 108-159): the two early returns, the `try` block
with its two branches, and the `catch` block, which shows the error and reloads. -/
def updateQuantityRun (net : Net) (uid : String) (itemId : Option String) (change : Int)
    (w : World) : Tried :=
  match w.cart.find? (fun i => i.id = itemId) with
  | none => Tried.done w
  | some item =>
    let newQuantity := item.quantity + change
    if newQuantity < 1 then Tried.done w
    else
      (if item.id = item.product_id then updateQuantityLocal uid itemId item newQuantity w
        else updateQuantityServerRun net uid itemId item newQuantity w).catching
        (fun error w1 =>
          loadCartRun net uid
            (w1.toast (Toast.error (errorMsgOf error "Failed to update quantity"))))

/-- The server branch of `removeItem` (lines 178-183). -/
def removeItemServerRun (net : Net) (uid : String) (itemId : Option String) (w : World) :
    Tried :=
  (awaitRequest net (Request.deleteCartItem itemId) w).andThen
    (fun w1 =>
      let w2 := { w1 with cart := w.cart.filter (fun (i : CartItem) => i.id != itemId) }
      loadCartRun net uid (w2.toast (Toast.success "Item removed from cart")))

/-- The function `removeItem` (lines 161-191). -/
def removeItemRun (net : Net) (uid : String) (itemId : Option String) (w : World) : Tried :=
  (match w.cart.find? (fun (i : CartItem) => i.id = itemId) with
    | none => Tried.done w
    | some item =>
      if item.id = item.product_id then removeItemLocal uid itemId item w
      else removeItemServerRun net uid itemId w).catching
    (fun error w1 =>
      loadCartRun net uid (w1.toast (Toast.error (errorMsgOf error "Failed to remove item"))))

/-- The `try` block of `handleCheckout` (lines 201-211). -/
def handleCheckoutTry (net : Net) (cart : List CartItem) (w : World) : Tried :=
  let body := Request.createSession
    (cart.map (fun (item : CartItem) => (item.product_id, item.quantity))) "product"
  match apiCall net body w with
  | (Response.fail error, w1) => Tried.thrown error w1
  | (Response.ok data, w1) =>
    let url := jsOr (data.bind (fun d => d.url)) (data.bind (fun d => d.checkout_url))
    match url with
    | some target =>
      if target != "" then Tried.done { w1 with redirects := w1.redirects ++ [target] }
      else Tried.thrown { message := "No checkout URL received" } w1
    | none => Tried.thrown { message := "No checkout URL received" } w1

/-- The function `handleCheckout` (lines 193-226) with its `try`, `catch` and `finally`. -/
def handleCheckoutRun (net : Net) (w : World) : Tried :=
  if w.cart.length = 0 then Tried.done (w.toast (Toast.error (ErrMsg.text "Your cart is empty")))
  else
    ((handleCheckoutTry net w.cart (w.setProcessing true)).catching
        (fun error w1 =>
          Tried.done (w1.toast (Toast.error (ErrMsg.text (checkoutMessage error.detail)))))
      ).finallyDo (fun w1 => w1.setProcessing false)

/-! ## `ProductsPage.jsx` and `ProductDetail.jsx`: add to cart -/

/-- The `user` prop: its id, as it appears in the cache key, and its role. -/
structure User where
  id : String
  role : String
deriving DecidableEq, Repr

/-- The router call `navigate(path)`. -/
def World.navigate (w : World) (path : String) : World :=
  { w with navigations := w.navigations ++ [path] }

/-- The expression `existing.quantity || 1`. -/
def quantityOrOne (q : Option Int) : Int :=
  match q with
  | some n => if n != 0 then n else 1
  | none => 1

/-- The assignment `existing.quantity = (existing.quantity || 1) + q` on the element at an
index. -/
def addQuantityAt : Nat → Int → List (Option CacheEntry) → List (Option CacheEntry)
  | _, _, [] => []
  | 0, q, c :: rest =>
    c.map (fun e => { e with quantity := some (quantityOrOne e.quantity + q) }) :: rest
  | k + 1, q, c :: rest => c :: addQuantityAt k q rest

/-- The inner `try` block of both `handleAddToCart` functions (ProductsPage lines 129-139
with `q = 1`, ProductDetail lines 139-150 with the selected quantity): the entry found by
`cached.find` gets `q` more, or a new entry is pushed; when a statement throws, the empty
`catch` leaves local storage as it was. -/
def recordInCache (uid : String) (pid : Option String) (q : Int) (st : Storage) : Storage :=
  match parseCache st (cacheKey uid) with
  | Parsed.throws => st
  | Parsed.nonArray => st
  | Parsed.array cached =>
    match findIndexByProduct pid cached with
    | Except.error _ => st
    | Except.ok (some k) => st.setItem (cacheKey uid) (StoreVal.array (addQuantityAt k q cached))
    | Except.ok none =>
      st.setItem (cacheKey uid)
        (StoreVal.array (cached ++ [some { product_id := pid, quantity := some q }]))

/-- The expression `error.response?.data?.detail || dflt` of the products page. -/
def detailOr (e : JsError) (dflt : String) : ErrMsg :=
  match e.detail with
  | Detail.absent => ErrMsg.text dflt
  | Detail.str s => if s != "" then ErrMsg.text s else ErrMsg.text dflt
  | d => ErrMsg.detail d

/-- The function `handleAddToCart` of `ProductsPage.jsx` (lines 107-144). -/
def ProductsPage.handleAddToCart (net : Net) (user : Option User) (productId : Option String)
    (w : World) : World :=
  match user with
  | none => (w.toast (Toast.error (ErrMsg.text "Please login to add items to cart"))).navigate "/login"
  | some u =>
    if u.role != "buyer" then w.toast (Toast.error (ErrMsg.text "Only buyers can add to cart"))
    else
      match apiCall net (Request.addToCart productId 1) w with
      | (Response.ok data, w1) =>
        let w2 := w1.toast (Toast.success (orDefault (data.bind (fun d => d.message)) "Added to cart!"))
        { w2 with storage := recordInCache u.id productId 1 w2.storage }
      | (Response.fail e, w1) => w1.toast (Toast.error (detailOr e "Failed to add to cart"))

/-- The `stock` field of the product shown on the detail page: missing (`undefined`),
`null`, or a number. -/
inductive Stock
  | missing
  | null
  | count (n : Int)
deriving DecidableEq, Repr

/-- The product shown on the detail page: `id`, `_id` and `stock`. -/
structure DetailProduct where
  id : Option String := none
  _id : Option String := none
  stock : Stock := Stock.missing
deriving DecidableEq, Repr

/-- The comparison `quantity > product.stock` (line 127): with a missing stock it is false
(`undefined` converts to `NaN`), with a `null` stock it is `quantity > 0` (`null` converts
to 0). -/
def exceedsStock (quantity : Int) : Stock → Bool
  | Stock.missing => false
  | Stock.null => decide (0 < quantity)
  | Stock.count n => decide (n < quantity)

/-- The text `errorMessage` of the `catch` block of `ProductDetail.jsx` (lines 154-165),
`none` when computing it throws. -/
def addToCartErrorMessage (e : JsError) : Option String :=
  match e.detail with
  | Detail.absent => some "Failed to add to cart"
  | Detail.str s => if s != "" then some s else some "Failed to add to cart"
  | Detail.list _ => e.detailText
  | Detail.other => e.detailText

/-- The `catch` block of `handleAddToCart` of `ProductDetail.jsx` (lines 152-166): the
error text is shown; when computing it throws, the exception leaves the handler and no toast
is shown. -/
def showAddToCartError (e : JsError) (w : World) : World :=
  match addToCartErrorMessage e with
  | some text => w.toast (Toast.error (ErrMsg.text text))
  | none => w

/-- The function `handleAddToCart` of `ProductDetail.jsx` (lines 115-167). -/
def ProductDetail.handleAddToCart (net : Net) (user : Option User) (product : DetailProduct)
    (quantity : Int) (w : World) : World :=
  match user with
  | none => (w.toast (Toast.error (ErrMsg.text "Please login to add items to cart"))).navigate "/login"
  | some u =>
    if u.role != "buyer" then w.toast (Toast.error (ErrMsg.text "Only buyers can add to cart"))
    else if exceedsStock quantity product.stock then
      w.toast (Toast.error (ErrMsg.text "Quantity exceeds available stock"))
    else
      let pid := jsOr product.id product._id
      match apiCall net (Request.addToCart pid quantity) w with
      | (Response.ok data, w1) =>
        let w2 := w1.toast
          (Toast.success (orDefault (data.bind (fun d => d.message)) "Added to cart!"))
        { w2 with storage := recordInCache u.id pid quantity w2.storage }
      | (Response.fail e, w1) => showAddToCartError e w1

/-! ## `ManageProposals.jsx`: the sorted proposals -/

/-- A proposal as the page reads it for sorting: an identifier and `ai_match_score`
(`none` when the field is missing).  The elements of the list are proposal objects. -/
structure Proposal where
  id : Option String := none
  ai_match_score : Option Int := none
deriving DecidableEq, Repr

/-- The expression `p.ai_match_score || 0`: a missing score and the score 0 are falsy. -/
def scoreOrZero (p : Proposal) : Int :=
  match p.ai_match_score with
  | some score => if score != 0 then score else 0
  | none => 0

/-- The comparator `(a, b) => (b.ai_match_score || 0) - (a.ai_match_score || 0)`. -/
def compareProposals (a b : Proposal) : Int :=
  scoreOrZero b - scoreOrZero a

/-- The order a comparator induces on the result of `Array.prototype.sort`: `a` may stand
before `b` when the comparator is not positive. -/
def sortsBefore (a b : Proposal) : Prop :=
  compareProposals a b ≤ 0

instance sortsBeforeDecidable : DecidableRel sortsBefore :=
  fun a b => inferInstanceAs (Decidable (compareProposals a b ≤ 0))

/-- The arrays of proposals allocated so far.  An array is referred to by its index, so that
two names of one array see the writes made through either. -/
abbrev Arrays := List (List Proposal)

/-- The elements of the array behind a reference. -/
def Arrays.read (heap : Arrays) (ref : Nat) : List Proposal :=
  heap.getD ref []

/-- The expression `[...arr]`: a new array with the elements of `arr` is allocated. -/
def spread (arr : Nat) (heap : Arrays) : Nat × Arrays :=
  (heap.length, heap ++ [heap.read arr])

/-- The method `Array.prototype.sort` with the comparator above: the array is sorted in
place and the call returns the array it was called on.  The standard requires a stable
sort; for a consistent comparator its result is the one of the stable insertion sort. -/
def arraySort (arr : Nat) (heap : Arrays) : Nat × Arrays :=
  (arr, heap.set arr ((heap.read arr).insertionSort sortsBefore))

/-- The constant `sortedProposals` of `ManageProposals.jsx` (lines 105-108),
`[...proposals].sort(comparator)`, for the state array `proposals`: the reference it holds
and the arrays after the evaluation. -/
def sortedProposals (proposals : Nat) (heap : Arrays) : Nat × Arrays :=
  let (copy, heap1) := spread proposals heap
  arraySort copy heap1

/-! ## `AddProduct.jsx`: adding an image URL -/

/-- The characters `String.prototype.trim` removes: the white space and line terminator
code points of the standard. -/
def isJsWhitespace (c : Char) : Bool :=
  decide (c.toNat ∈ [0x09, 0x0A, 0x0B, 0x0C, 0x0D, 0x20, 0xA0, 0x1680, 0x2028, 0x2029,
    0x202F, 0x205F, 0x3000, 0xFEFF]) || (decide (0x2000 ≤ c.toNat) && decide (c.toNat ≤ 0x200A))

/-- The method `String.prototype.trim`. -/
def jsTrim (s : String) : String :=
  ⟨((s.data.dropWhile isJsWhitespace).reverse.dropWhile isJsWhitespace).reverse⟩

/-- The method `String.prototype.startsWith`. -/
def jsStartsWith (s start : String) : Bool :=
  start.data.isPrefixOf s.data

/-- The form state of `AddProduct.jsx`: `formData`, `imageUrl` and the toasts shown. -/
structure AddProductForm where
  title : String := ""
  description : String := ""
  price : String := ""
  stock : String := ""
  category : String := ""
  images : List String := []
  imageUrl : String := ""
  toasts : List Toast := []
deriving DecidableEq, Repr

/-- The function `handleAddImage` (lines 37-58). -/
def handleAddImage (f : AddProductForm) : AddProductForm :=
  let trimmedUrl := jsTrim f.imageUrl
  if trimmedUrl != "" then
    let isValidUrl := jsStartsWith trimmedUrl "http://" || jsStartsWith trimmedUrl "https://" ||
      jsStartsWith trimmedUrl "/"
    if !isValidUrl then
      { f with toasts := f.toasts ++ [Toast.error (ErrMsg.text
          "Please enter a valid image URL (must start with http://, https://, or /)")] }
    else
      { f with
        images := f.images ++ [trimmedUrl]
        imageUrl := ""
        toasts := f.toasts ++ [Toast.success "Image added!"] }
  else f

/-! ## `ProductsPage.jsx`: the client-side filter -/

/-- A product of the list page, with the fields `filterProducts` reads. -/
structure CatalogProduct where
  id : Option String := none
  title : Option String := none
  description : Option String := none
  category : Option String := none
  price : Option Int := none
deriving DecidableEq, Repr

/-- The state of the products page that the filter reads and writes. -/
structure ProductsState where
  products : List CatalogProduct := []
  filteredProducts : List CatalogProduct := []
  searchTerm : String := ""
  selectedCategory : String := "All"
  minPrice : String := ""
  maxPrice : String := ""
deriving DecidableEq, Repr

/-- The options of the category `select`, the only values `selectedCategory` takes. -/
def categories : List String :=
  ["All", "Electronics", "Clothing", "Home & Garden", "Books", "Sports", "Toys", "Health",
   "Beauty"]

/-- The method `String.prototype.includes`. -/
def jsIncludes (s part : String) : Bool :=
  decide (part.data <:+: s.data)

/-- The expression `field?.toLowerCase().includes(searchTerm.toLowerCase())`: `undefined`,
which is falsy, for an absent field.  `toLowerCase` is the engine's and is a parameter. -/
def fieldIncludes (toLowerCase : String → String) (field : Option String) (searchTerm : String) :
    Bool :=
  match field with
  | some text => jsIncludes (toLowerCase text) (toLowerCase searchTerm)
  | none => false

/-- The callback of the search filter (lines 94-96). -/
def matchesSearch (toLowerCase : String → String) (searchTerm : String) (p : CatalogProduct) :
    Bool :=
  fieldIncludes toLowerCase p.title searchTerm ||
    fieldIncludes toLowerCase p.description searchTerm

/-- The function `filterProducts` (lines 89-105). -/
def filterProducts (toLowerCase : String → String) (s : ProductsState) : ProductsState :=
  let filtered := s.products
  let filtered1 :=
    if s.searchTerm != "" then filtered.filter (matchesSearch toLowerCase s.searchTerm)
    else filtered
  let filtered2 :=
    if s.selectedCategory != "" && s.selectedCategory != "All" then
      filtered1.filter (fun p => p.category == some s.selectedCategory)
    else filtered1
  { s with filteredProducts := filtered2 }

/-! ## Predicates and sample data used by the properties -/

/-- Every item of a cart has quantity at least one. -/
def QuantitiesOk (cart : List CartItem) : Prop :=
  ∀ i ∈ cart, 1 ≤ i.quantity

/-- Every quantity the server sends in an item of a cart body is absent or at least one. -/
def ServerQuantitiesOk (net : Net) : Prop :=
  ∀ (history : List Request) (body : Body) (items : List (Option ServerItem))
    (i : ServerItem) (q : Int),
    net history = Response.ok (some body) → body.items = some items → some i ∈ items →
    i.quantity = some q → 1 ≤ q

/-- Every quantity held in the fallback cache of the user is absent or not negative. -/
def CacheQuantitiesOk (uid : String) (st : Storage) : Prop :=
  ∀ (entries : List (Option CacheEntry)) (c : CacheEntry) (q : Int),
    st.getItem (cacheKey uid) = some (StoreVal.array entries) → some c ∈ entries →
    c.quantity = some q → 0 ≤ q

/-- The quantity invariant of the controller state: cart and cached quantities. -/
def CartInvariant (uid : String) (w : World) : Prop :=
  QuantitiesOk w.cart ∧ CacheQuantitiesOk uid w.storage

/-- The fallback cart as the specification describes it: the cached entries whose product
fetch succeeded, in cache order, the request of an entry being issued after those of the
entries before it; `log` is the list of requests issued so far. -/
def fallbackCart (net : Net) : List Request → List (Option CacheEntry) → List CartItem
  | _, [] => []
  | log, none :: rest => fallbackCart net log rest
  | log, some c :: rest =>
    match net (log ++ [Request.getProduct c.product_id]) with
    | Response.ok data =>
      cachedItem c data :: fallbackCart net (log ++ [Request.getProduct c.product_id]) rest
    | Response.fail _ => fallbackCart net (log ++ [Request.getProduct c.product_id]) rest

/-- The product fetches of the fallback path: one `GET /products/{product_id}` per cached
element that is not `null`, in cache order. -/
def cacheFetches (entries : List (Option CacheEntry)) : List Request :=
  entries.filterMap (fun c => c.map (fun e => Request.getProduct e.product_id))

/-- A request is a product fetch. -/
def Request.isProductFetch : Request → Bool
  | Request.getProduct _ => true
  | _ => false

/-- The body `handleCheckout` posts for a cart. -/
def checkoutRequest (cart : List CartItem) : Request :=
  Request.createSession (cart.map (fun (item : CartItem) => (item.product_id, item.quantity)))
    "product"

/-- The value of a key of local storage is the same after each operation performed for the
user `u` as before it: `loadCart`, `updateQuantity`, `removeItem` and both
`handleAddToCart`. -/
def KeyUntouched (net : Net) (u : User) (w : World) (key : String) : Prop :=
  (loadCart net u.id w).storage.getItem key = w.storage.getItem key ∧
  (∀ (itemId : Option String) (change : Int),
    (updateQuantity net u.id itemId change w).storage.getItem key = w.storage.getItem key) ∧
  (∀ itemId : Option String,
    (removeItem net u.id itemId w).storage.getItem key = w.storage.getItem key) ∧
  (∀ productId : Option String,
    (ProductsPage.handleAddToCart net (some u) productId w).storage.getItem key
      = w.storage.getItem key) ∧
  (∀ (product : DetailProduct) (quantity : Int),
    (ProductDetail.handleAddToCart net (some u) product quantity w).storage.getItem key
      = w.storage.getItem key)

/-- The cache of the user records an add of `q` units of product `pid`: if the cache was
absent or an array of entries none of which is for `pid`, the entry `{pid, q}` is appended;
if no `null` came before the first entry for `pid`, that entry has `q` more than before, an
absent or zero quantity counting as 1; every other entry is as it was; and if the cache was
an array with a `null` before any entry for `pid`, or not JSON, or not an array, local
storage is as it was. -/
def RecordsAdd (uid : String) (pid : Option String) (q : Int) (before after : Storage) : Prop :=
  (∀ entries : List CacheEntry,
    parseCache before (cacheKey uid) = Parsed.array (entries.map some) →
    (∀ c ∈ entries, c.product_id ≠ pid) →
    after.getItem (cacheKey uid)
      = some (StoreVal.array
          ((entries ++ [({ product_id := pid, quantity := some q } : CacheEntry)]).map some))) ∧
  (∀ (pre : List CacheEntry) (c : CacheEntry) (post : List (Option CacheEntry)),
    parseCache before (cacheKey uid) = Parsed.array (pre.map some ++ some c :: post) →
    c.product_id = pid → (∀ d ∈ pre, d.product_id ≠ pid) →
    after.getItem (cacheKey uid)
      = some (StoreVal.array
          (pre.map some ++
            some { c with quantity := some (quantityOrOne c.quantity + q) } :: post))) ∧
  (∀ (pre : List CacheEntry) (post : List (Option CacheEntry)),
    parseCache before (cacheKey uid) = Parsed.array (pre.map some ++ none :: post) →
    (∀ d ∈ pre, d.product_id ≠ pid) → after = before) ∧
  (parseCache before (cacheKey uid) = Parsed.throws → after = before) ∧
  (parseCache before (cacheKey uid) = Parsed.nonArray → after = before)

/-- The product ids of the entries of a cached array, in order; a `null` element has
none. -/
def cachedProductIds (entries : List (Option CacheEntry)) : List (Option String) :=
  (entries.filterMap id).map (fun c => c.product_id)

/-- The product ids of the entries of the fallback cache of the user are pairwise distinct
(there are no entries when the key is absent or does not hold an array). -/
def DistinctProducts (uid : String) (st : Storage) : Prop :=
  ∀ entries : List (Option CacheEntry),
    st.getItem (cacheKey uid) = some (StoreVal.array entries) → (cachedProductIds entries).Nodup

/-- The fallback branch of `updateQuantity` can search the cache of the user for a product:
the key is absent or holds the empty string or the text of a JSON array, and no `null`
comes before the first entry of the product, so neither `JSON.parse` nor `findIndex`
throws. -/
def CacheSearchable (uid : String) (pid : Option String) (st : Storage) : Prop :=
  ∃ (cached : List (Option CacheEntry)) (idx : Option Nat),
    parseCache st (cacheKey uid) = Parsed.array cached ∧
    findIndexByProduct pid cached = Except.ok idx

/-- The arrow function `(i) => (i.id === itemId ? { ...i, quantity: newQuantity } : i)` of
`updateQuantity` (line 124). -/
def withQuantity (itemId : Option String) (newQuantity : Int) (i : CartItem) : CartItem :=
  if i.id = itemId then { i with quantity := newQuantity } else i

/-- The total the specification gives: the sum over the cart of price times quantity. -/
def totalBySum (cart : List CartItem) : Int :=
  (cart.map (fun i => i.price * i.quantity)).sum

/-- The products the specification keeps: the title or the description contains the search
term, both lower-cased (every product when the term is empty), and the category is the
selected one (every product when "All" is selected). -/
def keptBySpec (toLowerCase : String → String) (searchTerm selectedCategory : String)
    (p : CatalogProduct) : Bool :=
  (searchTerm == "" || fieldIncludes toLowerCase p.title searchTerm ||
    fieldIncludes toLowerCase p.description searchTerm) &&
  (selectedCategory == "All" || p.category == some selectedCategory)

/-- The score the specification sorts by: `ai_match_score`, a missing one counting as 0. -/
def scoreBySpec (p : Proposal) : Int :=
  p.ai_match_score.getD 0

/-- The value of a key of local storage after a step is the one before it, or the key is
absent after it. -/
def KeptOrRemoved (key : String) (before after : Storage) : Prop :=
  after.getItem key = before.getItem key ∨ after.getItem key = none

/-- After each operation performed for the user `u` (`loadCart`, `updateQuantity`,
`removeItem` and both `handleAddToCart`) a key of local storage has the value it had or is
absent. -/
def KeyKeptOrRemoved (net : Net) (u : User) (w : World) (key : String) : Prop :=
  KeptOrRemoved key w.storage (loadCart net u.id w).storage ∧
  (∀ (itemId : Option String) (change : Int),
    KeptOrRemoved key w.storage (updateQuantity net u.id itemId change w).storage) ∧
  (∀ itemId : Option String,
    KeptOrRemoved key w.storage (removeItem net u.id itemId w).storage) ∧
  (∀ productId : Option String,
    KeptOrRemoved key w.storage
      (ProductsPage.handleAddToCart net (some u) productId w).storage) ∧
  (∀ (product : DetailProduct) (quantity : Int),
    KeptOrRemoved key w.storage
      (ProductDetail.handleAddToCart net (some u) product quantity w).storage)

/-- A buyer. -/
def buyer : User := { id := "u1", role := "buyer" }

/-- A cart item with the given id, product id and quantity, and fixed display fields. -/
def sampleItem (id productId : String) (quantity : Int) : CartItem :=
  { id := some id, product_id := some productId, title := "Product", category := "",
    image := "", price := 0, quantity := quantity }

/-- A cart item built from the cache: two units of product `p1` at price 30. -/
def lamp : CartItem :=
  { id := some "p1", product_id := some "p1", title := "Lamp", category := "", image := "",
    price := 30, quantity := 2 }

/-- A network that answers every request with a cart body holding one entry `c1` of two
units of product `p1`. -/
def stocked : Net := fun _ =>
  Response.ok (some { items := some [some
    { id := some "c1"
      product := some { id := some "p1", title := some "Lamp", price := some 30 }
      quantity := some 2 }] })

/-- A network that answers every request with a cart body whose only entry has quantity 0. -/
def zeroQuantity : Net := fun _ =>
  Response.ok (some { items := some [some
    { id := some "c1", product_id := some "p1", quantity := some 0 }] })

/-- A network on which the cart request is rejected with status 500 and every other request
succeeds with a product body. -/
def cartDown : Net := fun history =>
  match history.getLast? with
  | some Request.getCart => Response.fail { status := some 500, message := "Request failed" }
  | _ => Response.ok (some { title := some "Lamp", price := some 30 })

/-- A network that answers every request with a body whose `items` array holds a single
`null`. -/
def nullEntry : Net := fun _ => Response.ok (some { items := some [none] })

/-- A network on which the cart request is rejected with status 500, the fetch of product
`p2` is rejected with status 404 and every other request succeeds with a product body. -/
def cartDownP2Gone : Net := fun history =>
  match history.getLast? with
  | some Request.getCart => Response.fail { status := some 500, message := "Request failed" }
  | some (Request.getProduct (some "p2")) =>
    Response.fail { status := some 404, detail := Detail.str "Product not found" }
  | _ => Response.ok (some { title := some "Lamp", price := some 30 })

/-- A network that answers every request with the checkout URL of the specification. -/
def paying : Net := fun _ => Response.ok (some { url := some "https://pay.example/abc" })

/-- A network that rejects every request with status 422 and a list of two field errors. -/
def invalid : Net := fun _ =>
  Response.fail { status := some 422, message := "Request failed with status code 422",
                  detail := Detail.list [some "quantity too large", some "unknown product"] }

/-- A network that answers every request with a cart body of two entries sharing the id
`a`, the first for product `b` and the second for product `a`. -/
def sharedIds : Net := fun _ =>
  Response.ok (some { items := some [
    some { id := some "a", product := some { id := some "b" }, quantity := some 1 },
    some { id := some "a", product := some { id := some "a" }, quantity := some 1 }] })

/-- A network that answers every request with a cart body whose only entry has the id `p1`
of its product. -/
def idIsProductId : Net := fun _ =>
  Response.ok (some { items := some [
    some { id := some "p1", product := some { id := some "p1", title := some "Lamp" },
           quantity := some 2 }] })

/-- One step of the cart a sample server keeps: a delete removes the entries with the given
id, every other request leaves the cart as it is. -/
def outOfStockStep (items : List ServerItem) : Request → List ServerItem
  | Request.deleteCartItem itemId => items.filter (fun i => i.id != itemId)
  | _ => items

/-- A network with a cart that starts with one entry `c1` of two units of product `p1`:
deletes succeed and take effect, every add is refused with status 400, and the cart request
returns the entries left after the requests so far. -/
def outOfStock : Net := fun history =>
  match history.getLast? with
  | some (Request.addToCart _ _) =>
    Response.fail { status := some 400, detail := Detail.str "Insufficient stock",
                    message := "Request failed with status code 400" }
  | some Request.getCart =>
    Response.ok (some { items := some ((history.foldl outOfStockStep
      [{ id := some "c1"
         product := some { id := some "p1", title := some "Lamp", price := some 30 }
         quantity := some 2 }]).map some) })
  | _ => Response.ok none

/-- Lower-casing of the letters A to Z, character by character. -/
def asciiLower (t : String) : String :=
  ⟨t.data.map Char.toLower⟩

/-- A catalogue of three products. -/
def catalogue : List CatalogProduct :=
  [{ id := some "p1", title := some "Red Lamp", category := some "Home & Garden",
     price := some 30 },
   { id := some "p2", title := some "Novel", description := some "A story about a lamp",
     category := some "Books", price := some 12 },
   { id := some "p3", title := some "Desk LAMP", category := some "Home & Garden",
     price := some 45 }]

/-- Four proposals with scores 10, none, 90 and 10. -/
def fourProposals : List Proposal :=
  [{ id := some "a", ai_match_score := some 10 }, { id := some "b" },
   { id := some "c", ai_match_score := some 90 }, { id := some "d", ai_match_score := some 10 }]

/-- A network on which deletes and product fetches succeed and every other request, the add
and the cart request included, is rejected without a response. -/
def deleteOnly : Net := fun history =>
  match history.getLast? with
  | some (Request.deleteCartItem _) => Response.ok none
  | some (Request.getProduct _) => Response.ok (some { title := some "Lamp", price := some 30 })
  | _ => Response.fail { message := "Network Error" }

/-- A network that rejects every request with status 401. -/
def unauthorized : Net := fun _ =>
  Response.fail { status := some 401, message := "Request failed with status code 401" }

/-- A network on which every request is rejected without a response. -/
def offline : Net := fun _ => Response.fail { message := "Network Error" }

/-! ## Properties -/

/-! ### Local storage and the axios wrapper -/

theorem Storage.getItem_removeItem_self (st : Storage) (key : String) :
    (st.removeItem key).getItem key = none := by
  induction st with
  | nil => rfl
  | cons kv rest ih =>
    obtain ⟨k, v⟩ := kv
    unfold Storage.removeItem at ih ⊢
    by_cases hk : k = key
    · simp only [List.filter, hk, bne_self_eq_false]
      exact ih
    · have hne : (k != key) = true := by simp [hk]
      simp only [List.filter, hne, Storage.getItem, hk, if_false]
      exact ih

theorem Storage.getItem_setItem_self (st : Storage) (key : String) (v : StoreVal) :
    (st.setItem key v).getItem key = some v := by
  induction st with
  | nil => simp [Storage.setItem, Storage.getItem]
  | cons kv rest ih =>
    obtain ⟨k, old⟩ := kv
    by_cases hk : k = key
    · simp [Storage.setItem, Storage.getItem, hk]
    · simp only [Storage.setItem, if_neg hk, Storage.getItem]
      exact ih

theorem cacheKey_length (uid : String) : 11 ≤ (cacheKey uid).length := by
  unfold cacheKey
  rw [String.length_append]
  have h : "cart_cache_".length = 11 := by decide
  omega

theorem cacheKey_ne_token (uid : String) : "token" ≠ cacheKey uid := by
  intro h
  have h1 := cacheKey_length uid
  rw [← h] at h1
  have h2 : "token".length = 5 := by decide
  omega

theorem cacheKey_ne_user (uid : String) : "user" ≠ cacheKey uid := by
  intro h
  have h1 := cacheKey_length uid
  rw [← h] at h1
  have h2 : "user".length = 4 := by decide
  omega

theorem Storage.getItem_removeItem_ne (st : Storage) {key other : String} (h : other ≠ key) :
    (st.removeItem other).getItem key = st.getItem key := by
  induction st with
  | nil => rfl
  | cons kv rest ih =>
    obtain ⟨k, v⟩ := kv
    unfold Storage.removeItem at ih ⊢
    by_cases hk : k = other
    · have hkey : ¬ k = key := fun hkk => h (hk ▸ hkk)
      simp only [List.filter, hk, bne_self_eq_false, Storage.getItem]
      rw [if_neg (hk ▸ hkey)]
      exact ih
    · have hne : (k != other) = true := by simp [hk]
      simp only [List.filter, hne, Storage.getItem]
      rw [ih]

theorem responseInterceptor_getItem_cache (e : JsError) (w : World) (uid : String) :
    (responseInterceptor e w).storage.getItem (cacheKey uid) = w.storage.getItem (cacheKey uid) := by
  unfold responseInterceptor
  split
  · show ((w.storage.removeItem "token").removeItem "user").getItem (cacheKey uid) = _
    rw [Storage.getItem_removeItem_ne _ (cacheKey_ne_user uid),
      Storage.getItem_removeItem_ne _ (cacheKey_ne_token uid)]
  · rfl

theorem responseInterceptor_cart (e : JsError) (w : World) :
    (responseInterceptor e w).cart = w.cart := by
  unfold responseInterceptor
  split <;> rfl

theorem responseInterceptor_log (e : JsError) (w : World) :
    (responseInterceptor e w).log = w.log := by
  unfold responseInterceptor
  split <;> rfl

theorem apiCall_ok {net : Net} {r : Request} {w : World} {d : Option Body}
    (h : net (w.log ++ [r]) = Response.ok d) :
    apiCall net r w = (Response.ok d, { w with log := w.log ++ [r] }) := by
  simp only [apiCall, h]

theorem apiCall_fail {net : Net} {r : Request} {w : World} {e : JsError}
    (h : net (w.log ++ [r]) = Response.fail e) :
    apiCall net r w = (Response.fail e, responseInterceptor e { w with log := w.log ++ [r] }) := by
  simp only [apiCall, h]

theorem apiCall_cart (net : Net) (r : Request) (w : World) :
    (apiCall net r w).2.cart = w.cart := by
  cases h : net (w.log ++ [r]) with
  | ok d => rw [apiCall_ok h]
  | fail e => rw [apiCall_fail h, responseInterceptor_cart]

theorem apiCall_log (net : Net) (r : Request) (w : World) :
    (apiCall net r w).2.log = w.log ++ [r] := by
  cases h : net (w.log ++ [r]) with
  | ok d => rw [apiCall_ok h]
  | fail e => rw [apiCall_fail h, responseInterceptor_log]

theorem apiCall_response (net : Net) (r : Request) (w : World) :
    (apiCall net r w).1 = net (w.log ++ [r]) := by
  cases h : net (w.log ++ [r]) with
  | ok d => rw [apiCall_ok h]
  | fail e => rw [apiCall_fail h]

/-! ### The fallback path of `loadCart` -/

theorem fetchCached_item {net : Net} {c : Option CacheEntry} {w : World} {item : CartItem}
    (h : (fetchCached net c w).1 = some item) :
    ∃ e data, c = some e ∧ item = cachedItem e data := by
  cases c with
  | none => simp [fetchCached] at h
  | some c =>
    unfold fetchCached at h
    cases hn : net (w.log ++ [Request.getProduct c.product_id]) with
    | ok d =>
      simp only [apiCall_ok hn] at h
      exact ⟨c, d, rfl, (Option.some.inj h).symm⟩
    | fail e =>
      simp only [apiCall_fail hn] at h
      cases h

theorem fetchAllCached_item {net : Net} {item : CartItem} :
    ∀ (entries : List (Option CacheEntry)) (w : World),
      some item ∈ (fetchAllCached net entries w).1 →
      ∃ e data, some e ∈ entries ∧ item = cachedItem e data := by
  intro entries
  induction entries with
  | nil => intro w h; simp [fetchAllCached] at h
  | cons c rest ih =>
    intro w h
    simp only [fetchAllCached] at h
    rcases List.mem_cons.mp h with h1 | h1
    · obtain ⟨e, data, hc, hitem⟩ := fetchCached_item h1.symm
      exact ⟨e, data, by simp [hc], hitem⟩
    · obtain ⟨e, data, hmem, hitem⟩ := ih _ h1
      exact ⟨e, data, List.mem_cons_of_mem _ hmem, hitem⟩

theorem cachedItem_quantity_pos (c : CacheEntry) (data : Option Body)
    (h : ∀ q, c.quantity = some q → 0 ≤ q) : 1 ≤ (cachedItem c data).quantity := by
  unfold cachedItem
  cases hq : c.quantity with
  | none => simp
  | some q =>
    have h0 := h q hq
    by_cases hz : q = 0
    · simp [hz]
    · simp [hz]
      omega

theorem loadCartFallback_cart_cases (net : Net) (uid : String) (error : JsError) (w : World) :
    (loadCartFallback net uid error w).cart = [] ∨
    ∃ entries, parseCache w.storage (cacheKey uid) = Parsed.array entries ∧ entries ≠ [] ∧
      (loadCartFallback net uid error w).cart = (fetchAllCached net entries w).1.filterMap id := by
  unfold loadCartFallback
  cases hp : parseCache w.storage (cacheKey uid) with
  | throws => exact Or.inl rfl
  | nonArray => exact Or.inl rfl
  | array entries =>
    cases entries with
    | nil => exact Or.inl rfl
    | cons c cs => exact Or.inr ⟨c :: cs, rfl, by simp, rfl⟩

theorem mapServerItems_mem {items : List (Option ServerItem)} {cart : List CartItem}
    (h : mapServerItems items = Except.ok cart) {item : CartItem} (hitem : item ∈ cart) :
    ∃ i, some i ∈ items ∧ item = mapServerItem i := by
  induction items generalizing cart with
  | nil =>
    simp [mapServerItems] at h
    subst h
    cases hitem
  | cons x rest ih =>
    cases x with
    | none => simp [mapServerItems] at h
    | some i =>
      unfold mapServerItems at h
      cases hr : mapServerItems rest with
      | error e => simp [hr] at h
      | ok tail =>
        simp only [hr] at h
        cases h
        rcases List.mem_cons.mp hitem with h1 | h1
        · exact ⟨i, List.mem_cons_self _ _, h1⟩
        · obtain ⟨j, hj, hmap⟩ := ih hr h1
          exact ⟨j, List.mem_cons_of_mem _ hj, hmap⟩

theorem serverCart_quantities {net : Net} (hnet : ServerQuantitiesOk net)
    {history : List Request} {data : Option Body} (hresp : net history = Response.ok data)
    {cart : List CartItem} (h : serverCart data = Except.ok cart) : QuantitiesOk cart := by
  intro item hitem
  unfold serverCart at h
  cases data with
  | none =>
    simp at h
    subst h
    cases hitem
  | some body =>
    cases hitems : body.items with
    | none =>
      simp [hitems] at h
      subst h
      cases hitem
    | some items =>
      simp only [Option.bind, hitems] at h
      obtain ⟨i, hi, hmap⟩ := mapServerItems_mem h hitem
      rw [hmap]
      unfold mapServerItem
      cases hq : i.quantity with
      | none => simp
      | some q => exact hnet history body items i q hresp hitems hi hq

/-! ### The three outcomes of `loadCart` -/

theorem loadCart_synced {net : Net} {uid : String} {w : World} {data : Option Body}
    {items : List CartItem} (hresp : net (w.log ++ [Request.getCart]) = Response.ok data)
    (hmap : serverCart data = Except.ok items) :
    loadCart net uid w =
      { w with
        loading := false
        log := w.log ++ [Request.getCart]
        cart := items
        storage := w.storage.removeItem (cacheKey uid) } := by
  have h : net ((w.setLoading true).log ++ [Request.getCart]) = Response.ok data := hresp
  simp only [loadCart, apiCall_ok h, hmap]
  rfl

theorem loadCart_mapping_throws {net : Net} {uid : String} {w : World} {data : Option Body}
    {e : JsError} (hresp : net (w.log ++ [Request.getCart]) = Response.ok data)
    (hmap : serverCart data = Except.error e) :
    loadCart net uid w =
      (loadCartFallback net uid e
        { w with loading := true, log := w.log ++ [Request.getCart] }).setLoading false := by
  have h : net ((w.setLoading true).log ++ [Request.getCart]) = Response.ok data := hresp
  simp only [loadCart, apiCall_ok h, hmap]
  rfl

theorem loadCart_rejected {net : Net} {uid : String} {w : World} {e : JsError}
    (hresp : net (w.log ++ [Request.getCart]) = Response.fail e) :
    loadCart net uid w =
      (loadCartFallback net uid e
        (responseInterceptor e
          { w with loading := true, log := w.log ++ [Request.getCart] })).setLoading false := by
  have h : net ((w.setLoading true).log ++ [Request.getCart]) = Response.fail e := hresp
  simp only [loadCart, apiCall_fail h]
  rfl

/-! ### Quantities after `updateQuantity` and `removeItem` -/

theorem setQuantityAt_mem {q : Int} {c : CacheEntry} :
    ∀ (k : Nat) (entries : List (Option CacheEntry)),
      some c ∈ setQuantityAt k q entries → some c ∈ entries ∨ c.quantity = some q := by
  intro k entries
  induction entries generalizing k with
  | nil => intro h; simp [setQuantityAt] at h
  | cons x rest ih =>
    intro h
    cases k with
    | zero =>
      simp only [setQuantityAt] at h
      rcases List.mem_cons.mp h with h1 | h1
      · cases x with
        | none => simp at h1
        | some e =>
          simp only [Option.map] at h1
          right
          rw [Option.some.inj h1]
      · exact Or.inl (List.mem_cons_of_mem _ h1)
    | succ k =>
      simp only [setQuantityAt] at h
      rcases List.mem_cons.mp h with h1 | h1
      · left
        rw [h1]
        exact List.mem_cons_self _ _
      · rcases ih k h1 with h2 | h2
        · exact Or.inl (List.mem_cons_of_mem _ h2)
        · exact Or.inr h2

theorem filterOutProduct_mem {pid : Option String} {x : Option CacheEntry} :
    ∀ (entries kept : List (Option CacheEntry)),
      filterOutProduct pid entries = Except.ok kept → x ∈ kept → x ∈ entries := by
  intro entries
  induction entries with
  | nil =>
    intro kept h hx
    simp [filterOutProduct] at h
    subst h
    cases hx
  | cons y rest ih =>
    intro kept h hx
    cases y with
    | none => simp [filterOutProduct] at h
    | some c =>
      unfold filterOutProduct at h
      cases hr : filterOutProduct pid rest with
      | error e => simp [hr] at h
      | ok tail =>
        simp only [hr] at h
        cases h
        split at hx
        · rcases List.mem_cons.mp hx with h1 | h1
          · rw [h1]
            exact List.mem_cons_self _ _
          · exact List.mem_cons_of_mem _ (ih tail hr h1)
        · exact List.mem_cons_of_mem _ (ih tail hr hx)

theorem apiCall_getItem_cache (net : Net) (r : Request) (w : World) (uid : String) :
    (apiCall net r w).2.storage.getItem (cacheKey uid) = w.storage.getItem (cacheKey uid) := by
  cases h : net (w.log ++ [r]) with
  | ok d => rw [apiCall_ok h]
  | fail e =>
    rw [apiCall_fail h]
    exact responseInterceptor_getItem_cache e _ uid

theorem fetchCached_getItem_cache (net : Net) (c : Option CacheEntry) (w : World) (uid : String) :
    (fetchCached net c w).2.storage.getItem (cacheKey uid) = w.storage.getItem (cacheKey uid) := by
  cases c with
  | none => rfl
  | some c =>
    have h := apiCall_getItem_cache net (Request.getProduct c.product_id) w uid
    simp only [fetchCached]
    generalize apiCall net (Request.getProduct c.product_id) w = res at h
    obtain ⟨resp, w1⟩ := res
    cases resp <;> exact h

theorem fetchAllCached_getItem_cache (net : Net) (uid : String) :
    ∀ (entries : List (Option CacheEntry)) (w : World),
      (fetchAllCached net entries w).2.storage.getItem (cacheKey uid)
        = w.storage.getItem (cacheKey uid) := by
  intro entries
  induction entries with
  | nil => intro w; rfl
  | cons c rest ih =>
    intro w
    simp only [fetchAllCached]
    rw [ih, fetchCached_getItem_cache]

theorem loadCartFallback_getItem_cache (net : Net) (uid : String) (error : JsError) (w : World) :
    (loadCartFallback net uid error w).storage.getItem (cacheKey uid)
      = w.storage.getItem (cacheKey uid) := by
  unfold loadCartFallback
  cases hp : parseCache w.storage (cacheKey uid) with
  | throws => rfl
  | nonArray => rfl
  | array entries =>
    cases entries with
    | nil => rfl
    | cons c cs => exact fetchAllCached_getItem_cache net uid (c :: cs) w

theorem loadCart_getItem_cache (net : Net) (uid : String) (w : World) :
    (loadCart net uid w).storage.getItem (cacheKey uid) = none ∨
    (loadCart net uid w).storage.getItem (cacheKey uid) = w.storage.getItem (cacheKey uid) := by
  cases hresp : net (w.log ++ [Request.getCart]) with
  | ok data =>
    cases hmap : serverCart data with
    | ok items =>
      rw [loadCart_synced hresp hmap]
      exact Or.inl (Storage.getItem_removeItem_self w.storage (cacheKey uid))
    | error e =>
      rw [loadCart_mapping_throws hresp hmap]
      exact Or.inr (loadCartFallback_getItem_cache net uid e _)
  | fail e =>
    rw [loadCart_rejected hresp]
    right
    show (loadCartFallback net uid e _).storage.getItem (cacheKey uid) = _
    rw [loadCartFallback_getItem_cache, responseInterceptor_getItem_cache]

theorem parseCache_array_cases {st : Storage} {key : String}
    {entries : List (Option CacheEntry)} (h : parseCache st key = Parsed.array entries) :
    entries = [] ∨ st.getItem key = some (StoreVal.array entries) := by
  unfold parseCache at h
  split at h
  · cases h
    exact Or.inl rfl
  · split at h
    · cases h
      exact Or.inl rfl
    · cases h
  · cases h
  · rename_i es hget
    cases h
    exact Or.inr hget

theorem CacheQuantitiesOk.of_getItem {uid : String} {st st1 : Storage}
    (h : CacheQuantitiesOk uid st)
    (heq : st1.getItem (cacheKey uid) = none ∨
      st1.getItem (cacheKey uid) = st.getItem (cacheKey uid)) :
    CacheQuantitiesOk uid st1 := by
  intro entries c q hget hc hq
  rcases heq with h1 | h1
  · rw [h1] at hget
    cases hget
  · rw [h1] at hget
    exact h entries c q hget hc hq

theorem CacheQuantitiesOk.setItem (uid : String) (st : Storage)
    (entries : List (Option CacheEntry))
    (hnew : ∀ (c : CacheEntry) (q : Int), some c ∈ entries → c.quantity = some q → 0 ≤ q) :
    CacheQuantitiesOk uid (st.setItem (cacheKey uid) (StoreVal.array entries)) := by
  intro es c q hget hc hq
  rw [Storage.getItem_setItem_self] at hget
  cases hget
  exact hnew c q hc hq

theorem loadCartFallback_quantities (net : Net) (uid : String) (error : JsError) (w : World)
    (hst : CacheQuantitiesOk uid w.storage) :
    QuantitiesOk (loadCartFallback net uid error w).cart := by
  intro item hitem
  rcases loadCartFallback_cart_cases net uid error w with h | ⟨entries, hp, hne, h⟩
  · rw [h] at hitem
    cases hitem
  · rw [h] at hitem
    obtain ⟨r, hr, hid⟩ := List.mem_filterMap.mp hitem
    simp only [id] at hid
    subst hid
    obtain ⟨e, data, hmem, heq⟩ := fetchAllCached_item entries w hr
    rw [heq]
    apply cachedItem_quantity_pos
    intro q hq
    rcases parseCache_array_cases hp with hnil | hget
    · exact absurd hnil hne
    · exact hst entries e q hget hmem hq

theorem loadCart_quantities (net : Net) (uid : String) (w : World)
    (hnet : ServerQuantitiesOk net) (hst : CacheQuantitiesOk uid w.storage) :
    QuantitiesOk (loadCart net uid w).cart := by
  cases hresp : net (w.log ++ [Request.getCart]) with
  | ok data =>
    cases hmap : serverCart data with
    | ok items =>
      rw [loadCart_synced hresp hmap]
      exact serverCart_quantities hnet hresp hmap
    | error e =>
      rw [loadCart_mapping_throws hresp hmap]
      exact loadCartFallback_quantities net uid e _ hst
  | fail e =>
    rw [loadCart_rejected hresp]
    apply loadCartFallback_quantities net uid e _
    exact hst.of_getItem (Or.inr (responseInterceptor_getItem_cache e _ uid))

theorem loadCart_invariant (net : Net) (uid : String) (w : World)
    (hnet : ServerQuantitiesOk net) (hst : CacheQuantitiesOk uid w.storage) :
    CartInvariant uid (loadCart net uid w) :=
  ⟨loadCart_quantities net uid w hnet hst, hst.of_getItem (loadCart_getItem_cache net uid w)⟩

theorem updateQuantityLocal_invariant (uid : String) (itemId : Option String) (item : CartItem)
    {newQuantity : Int} {w : World} (hinv : CartInvariant uid w) (hq : 1 ≤ newQuantity) :
    (∀ w1, updateQuantityLocal uid itemId item newQuantity w = Tried.done w1 →
      CartInvariant uid w1) ∧
    (∀ e w1, updateQuantityLocal uid itemId item newQuantity w = Tried.thrown e w1 → w1 = w) := by
  unfold updateQuantityLocal
  cases hp : parseCache w.storage (cacheKey uid) with
  | throws =>
    refine ⟨fun w1 h => (by cases h), fun e w1 h => ?_⟩
    cases h
    rfl
  | nonArray =>
    refine ⟨fun w1 h => (by cases h), fun e w1 h => ?_⟩
    cases h
    rfl
  | array cached =>
    dsimp only
    cases hidx : findIndexByProduct item.product_id cached with
    | error err =>
      dsimp only
      refine ⟨fun w1 h => (by cases h), fun e w1 h => ?_⟩
      cases h
      rfl
    | ok idx =>
      dsimp only
      refine ⟨fun w1 h => ?_, fun e w1 h => (by cases h)⟩
      cases h
      have hold : ∀ (c : CacheEntry) (q : Int), some c ∈ cached → c.quantity = some q → 0 ≤ q := by
        intro c q hc hcq
        rcases parseCache_array_cases hp with hnil | hget
        · rw [hnil] at hc
          cases hc
        · exact hinv.2 cached c q hget hc hcq
      constructor
      · intro i hi
        obtain ⟨j, hj, hmap⟩ := List.mem_map.mp hi
        split at hmap
        · rw [← hmap]
          exact hq
        · rw [← hmap]
          exact hinv.1 j hj
      · apply CacheQuantitiesOk.setItem uid w.storage
        intro c q hc hcq
        cases idx with
        | none => exact hold c q hc hcq
        | some k =>
          rcases setQuantityAt_mem k cached hc with h1 | h1
          · exact hold c q h1 hcq
          · rw [h1] at hcq
            cases hcq
            omega

theorem updateQuantityServer_invariant {net : Net} {uid : String} {itemId : Option String}
    {item : CartItem} {newQuantity : Int} {w : World} (hnet : ServerQuantitiesOk net)
    (hst : CacheQuantitiesOk uid w.storage) :
    (∀ w1, updateQuantityServer net uid itemId item newQuantity w = Tried.done w1 →
      CartInvariant uid w1) ∧
    (∀ e w1, updateQuantityServer net uid itemId item newQuantity w = Tried.thrown e w1 →
      CacheQuantitiesOk uid w1.storage) := by
  have hdel : CacheQuantitiesOk uid (apiCall net (Request.deleteCartItem itemId) w).2.storage :=
    hst.of_getItem (Or.inr (apiCall_getItem_cache net _ w uid))
  have hadd : CacheQuantitiesOk uid (apiCall net (Request.addToCart item.product_id newQuantity)
      (apiCall net (Request.deleteCartItem itemId) w).2).2.storage :=
    hdel.of_getItem (Or.inr (apiCall_getItem_cache net _ _ uid))
  have key : ∀ r : Tried,
      (r = match apiCall net (Request.addToCart item.product_id newQuantity)
              (apiCall net (Request.deleteCartItem itemId) w).2 with
        | (Response.fail e, w2) => Tried.thrown e w2
        | (Response.ok _, w2) =>
          Tried.done ((loadCart net uid w2).toast (Toast.success "Quantity updated"))) →
      (∀ w1, r = Tried.done w1 → CartInvariant uid w1) ∧
      (∀ e w1, r = Tried.thrown e w1 → CacheQuantitiesOk uid w1.storage) := by
    intro r hr
    generalize hres : apiCall net (Request.addToCart item.product_id newQuantity)
      (apiCall net (Request.deleteCartItem itemId) w).2 = res at hr hadd
    obtain ⟨resp, w2⟩ := res
    cases resp with
    | ok d =>
      simp only at hr
      subst hr
      refine ⟨fun w1 h => ?_, fun e w1 h => (by cases h)⟩
      cases h
      exact loadCart_invariant net uid w2 hnet hadd
    | fail e =>
      simp only at hr
      subst hr
      refine ⟨fun w1 h => (by cases h), fun e1 w1 h => ?_⟩
      cases h
      exact hadd
  unfold updateQuantityServer
  generalize hres : apiCall net (Request.deleteCartItem itemId) w = res at key hdel
  obtain ⟨resp, w1⟩ := res
  cases resp with
  | ok d => exact key _ rfl
  | fail e =>
    simp only
    split
    · refine ⟨fun w2 h => (by cases h), fun e1 w2 h => ?_⟩
      cases h
      exact hdel
    · exact key _ rfl

theorem updateQuantity_invariant (net : Net) (uid : String) (itemId : Option String)
    (change : Int) (w : World) (hnet : ServerQuantitiesOk net) (hinv : CartInvariant uid w) :
    CartInvariant uid (updateQuantity net uid itemId change w) := by
  unfold updateQuantity
  cases hfind : w.cart.find? (fun i => i.id = itemId) with
  | none => exact hinv
  | some item =>
    dsimp only
    by_cases hlt : item.quantity + change < 1
    · rw [if_pos hlt]
      exact hinv
    · rw [if_neg hlt]
      have hq : 1 ≤ item.quantity + change := by omega
      have hboth :
          (∀ w1, (if item.id = item.product_id
              then updateQuantityLocal uid itemId item (item.quantity + change) w
              else updateQuantityServer net uid itemId item (item.quantity + change) w)
              = Tried.done w1 → CartInvariant uid w1) ∧
          (∀ e w1, (if item.id = item.product_id
              then updateQuantityLocal uid itemId item (item.quantity + change) w
              else updateQuantityServer net uid itemId item (item.quantity + change) w)
              = Tried.thrown e w1 → CacheQuantitiesOk uid w1.storage) := by
        by_cases hmode : item.id = item.product_id
        · simp only [if_pos hmode]
          have h := updateQuantityLocal_invariant uid itemId item hinv hq
          exact ⟨h.1, fun e w1 hthrown => by rw [h.2 e w1 hthrown]; exact hinv.2⟩
        · simp only [if_neg hmode]
          exact updateQuantityServer_invariant hnet hinv.2
      generalize (if item.id = item.product_id
          then updateQuantityLocal uid itemId item (item.quantity + change) w
          else updateQuantityServer net uid itemId item (item.quantity + change) w) = r at hboth
      cases r with
      | done w1 => exact hboth.1 w1 rfl
      | thrown e w1 => exact loadCart_invariant net uid _ hnet (hboth.2 e w1 rfl)

theorem removeItemLocal_invariant (uid : String) (itemId : Option String) (item : CartItem)
    {w : World} (hinv : CartInvariant uid w) :
    (∀ w1, removeItemLocal uid itemId item w = Tried.done w1 → CartInvariant uid w1) ∧
    (∀ e w1, removeItemLocal uid itemId item w = Tried.thrown e w1 → w1 = w) := by
  unfold removeItemLocal
  cases hp : parseCache w.storage (cacheKey uid) with
  | throws =>
    refine ⟨fun w1 h => (by cases h), fun e w1 h => ?_⟩
    cases h
    rfl
  | nonArray =>
    refine ⟨fun w1 h => (by cases h), fun e w1 h => ?_⟩
    cases h
    rfl
  | array cached =>
    dsimp only
    cases hf : filterOutProduct item.product_id cached with
    | error err =>
      dsimp only
      refine ⟨fun w1 h => (by cases h), fun e w1 h => ?_⟩
      cases h
      rfl
    | ok next =>
      dsimp only
      refine ⟨fun w1 h => ?_, fun e w1 h => (by cases h)⟩
      cases h
      constructor
      · intro i hi
        exact hinv.1 i (List.mem_filter.mp hi).1
      · apply CacheQuantitiesOk.setItem uid w.storage
        intro c q hc hcq
        have hmem := filterOutProduct_mem cached next hf hc
        rcases parseCache_array_cases hp with hnil | hget
        · rw [hnil] at hmem
          cases hmem
        · exact hinv.2 cached c q hget hmem hcq

theorem removeItemServer_invariant {net : Net} {uid : String} {itemId : Option String}
    {w : World} (hnet : ServerQuantitiesOk net) (hst : CacheQuantitiesOk uid w.storage) :
    (∀ w1, removeItemServer net uid itemId w = Tried.done w1 → CartInvariant uid w1) ∧
    (∀ e w1, removeItemServer net uid itemId w = Tried.thrown e w1 →
      CacheQuantitiesOk uid w1.storage) := by
  have hdel : CacheQuantitiesOk uid (apiCall net (Request.deleteCartItem itemId) w).2.storage :=
    hst.of_getItem (Or.inr (apiCall_getItem_cache net _ w uid))
  unfold removeItemServer
  generalize apiCall net (Request.deleteCartItem itemId) w = res at hdel
  obtain ⟨resp, w1⟩ := res
  cases resp with
  | ok d =>
    dsimp only
    refine ⟨fun w2 h => ?_, fun e w2 h => (by cases h)⟩
    cases h
    exact loadCart_invariant net uid _ hnet hdel
  | fail e =>
    dsimp only
    refine ⟨fun w2 h => (by cases h), fun e1 w2 h => ?_⟩
    cases h
    exact hdel

theorem removeItem_invariant (net : Net) (uid : String) (itemId : Option String) (w : World)
    (hnet : ServerQuantitiesOk net) (hinv : CartInvariant uid w) :
    CartInvariant uid (removeItem net uid itemId w) := by
  unfold removeItem
  cases hfind : w.cart.find? (fun i => i.id = itemId) with
  | none => exact hinv
  | some item =>
    dsimp only
    have hboth :
        (∀ w1, (if item.id = item.product_id then removeItemLocal uid itemId item w
            else removeItemServer net uid itemId w) = Tried.done w1 → CartInvariant uid w1) ∧
        (∀ e w1, (if item.id = item.product_id then removeItemLocal uid itemId item w
            else removeItemServer net uid itemId w) = Tried.thrown e w1 →
            CacheQuantitiesOk uid w1.storage) := by
      by_cases hmode : item.id = item.product_id
      · simp only [if_pos hmode]
        have h := removeItemLocal_invariant uid itemId item hinv
        exact ⟨h.1, fun e w1 hthrown => by rw [h.2 e w1 hthrown]; exact hinv.2⟩
      · simp only [if_neg hmode]
        exact removeItemServer_invariant hnet hinv.2
    generalize (if item.id = item.product_id then removeItemLocal uid itemId item w
        else removeItemServer net uid itemId w) = r at hboth
    cases r with
    | done w1 => exact hboth.1 w1 rfl
    | thrown e w1 => exact loadCart_invariant net uid _ hnet (hboth.2 e w1 rfl)

/-! ### C1 -/

/-- C1 (as stated) fails when two items share an id: `updateQuantity` looks the item up by id
and finds the first one.  In the cart below the second item has quantity 1, so 1 + (-1) < 1,
yet `updateQuantity(item.id, -1)` changes the state (both quantities become 4). -/
theorem updateQuantity_below_one_shared_id :
    sampleItem "a" "a" 1 ∈ [sampleItem "a" "a" 5, sampleItem "a" "a" 1] ∧
    (sampleItem "a" "a" 1).quantity + (-1) < 1 ∧
    (updateQuantity offline "u1" (sampleItem "a" "a" 1).id (-1)
      { cart := [sampleItem "a" "a" 5, sampleItem "a" "a" 1] }).cart
      = [sampleItem "a" "a" 4, sampleItem "a" "a" 4] := by
  decide

/-- C1 (amended): for every cart, every integer delta and every item that is the first item
of the cart with its id (the item `cart.find` returns; every item when ids are pairwise
distinct), if `item.quantity + delta < 1` then `updateQuantity(item.id, delta)` is a no-op:
cart, local storage, requests issued, toasts and redirects are all unchanged, in fallback and
in server mode. -/
theorem updateQuantity_below_one_noop (net : Net) (uid : String) (w : World) (item : CartItem)
    (change : Int) (hfind : w.cart.find? (fun i => i.id = item.id) = some item)
    (hlt : item.quantity + change < 1) :
    updateQuantity net uid item.id change w = w := by
  unfold updateQuantity
  rw [hfind]
  simp [hlt]

/-- Witness of C1: decrementing the only item, of quantity 1, in server mode. -/
theorem updateQuantity_below_one_noop_witness :
    updateQuantity offline "u1" (sampleItem "c1" "p1" 1).id (-1)
      { cart := [sampleItem "c1" "p1" 1] } = { cart := [sampleItem "c1" "p1" 1] } :=
  updateQuantity_below_one_noop offline "u1" { cart := [sampleItem "c1" "p1" 1] }
    (sampleItem "c1" "p1" 1) (-1) (by decide) (by decide)

/-! ### C2 -/

/-- C2 (as stated) fails on both load paths: `loadCart` copies the quantities it is given.
A server item of quantity 0 gives a cart item of quantity 0 (`0 ?? 1` is 0), and with the
cart request failing a cached quantity of -2 gives a cart item of quantity -2
(`-2 || 1` is -2). -/
theorem quantity_invariant_not_enforced_on_load :
    (loadCart zeroQuantity "u1" {}).cart.map (fun i => i.quantity) = [0] ∧
    ¬ QuantitiesOk (loadCart zeroQuantity "u1" {}).cart ∧
    (loadCart cartDown "u1"
      { storage := [("cart_cache_u1",
          StoreVal.array [some { product_id := some "p1", quantity := some (-2) }])] }).cart.map
      (fun i => i.quantity) = [-2] := by
  refine ⟨by decide, ?_, by decide⟩
  unfold QuantitiesOk
  decide

/-- C2 (amended): if every quantity the server sends in a cart item is absent or at least 1
and every quantity in the fallback cache of the user is absent or not negative, then after
`loadCart` every cart item has quantity at least 1 and the cached quantities are still absent
or not negative; if moreover every item of the current cart has quantity at least 1, the same
holds after `updateQuantity` and after `removeItem`, for every item id and every delta. -/
theorem quantity_invariant_preserved (net : Net) (uid : String) (w : World)
    (hnet : ServerQuantitiesOk net) (hst : CacheQuantitiesOk uid w.storage) :
    CartInvariant uid (loadCart net uid w) ∧
    (QuantitiesOk w.cart → ∀ itemId : Option String,
      (∀ change : Int, CartInvariant uid (updateQuantity net uid itemId change w)) ∧
      CartInvariant uid (removeItem net uid itemId w)) :=
  ⟨loadCart_invariant net uid w hnet hst, fun hcart itemId =>
    ⟨fun change => updateQuantity_invariant net uid itemId change w hnet ⟨hcart, hst⟩,
      removeItem_invariant net uid itemId w hnet ⟨hcart, hst⟩⟩⟩

/-- Witness of C2: a server that returns one entry of quantity 2, a cache holding two units of
`p1`, and a cart with one server item. -/
theorem quantity_invariant_preserved_witness :
    ServerQuantitiesOk stocked ∧
    CacheQuantitiesOk "u1" [("cart_cache_u1",
      StoreVal.array [some { product_id := some "p1", quantity := some 2 }])] ∧
    CartInvariant "u1" (loadCart stocked "u1"
      { cart := [sampleItem "c1" "p1" 1]
        storage := [("cart_cache_u1",
          StoreVal.array [some { product_id := some "p1", quantity := some 2 }])] }) := by
  have hnet : ServerQuantitiesOk stocked := by
    intro history body items i q hresp hitems hi hq
    simp only [stocked, Response.ok.injEq, Option.some.injEq] at hresp
    subst hresp
    simp only [Option.some.injEq] at hitems
    subst hitems
    simp only [List.mem_singleton, Option.some.injEq] at hi
    subst hi
    simp only [Option.some.injEq] at hq
    omega
  have hst : CacheQuantitiesOk "u1" [("cart_cache_u1",
      StoreVal.array [some { product_id := some "p1", quantity := some 2 }])] := by
    intro entries c q hget hc hq
    have hentries : entries = [some { product_id := some "p1", quantity := some 2 }] := by
      have h0 : Storage.getItem [("cart_cache_u1",
          StoreVal.array [some { product_id := some "p1", quantity := some 2 }])] (cacheKey "u1")
          = some (StoreVal.array [some { product_id := some "p1", quantity := some 2 }]) := by
        decide
      rw [h0] at hget
      cases hget
      rfl
    subst hentries
    simp only [List.mem_singleton, Option.some.injEq] at hc
    subst hc
    simp only [Option.some.injEq] at hq
    omega
  exact ⟨hnet, hst, (quantity_invariant_preserved stocked "u1"
    { cart := [sampleItem "c1" "p1" 1]
      storage := [("cart_cache_u1",
        StoreVal.array [some { product_id := some "p1", quantity := some 2 }])] } hnet hst).1⟩

/-! ### C3 -/

theorem mapServerItems_of_no_null {items : List (Option ServerItem)} (h : none ∉ items) :
    ∃ cart, mapServerItems items = Except.ok cart := by
  induction items with
  | nil => exact ⟨[], rfl⟩
  | cons x rest ih =>
    cases x with
    | none => exact absurd (List.mem_cons_self _ _) h
    | some i =>
      obtain ⟨tail, htail⟩ := ih (fun hmem => h (List.mem_cons_of_mem _ hmem))
      exact ⟨mapServerItem i :: tail, by simp only [mapServerItems, htail]⟩

/-- C3 (as stated) fails for a response body whose `items` array contains `null`: the request
succeeds, the mapping callback throws on `i.id`, control reaches the `catch` block, and the
cache entry of the user is still there after `loadCart` (and is what the cart is built from). -/
theorem loadCart_keeps_cache_on_null_entry :
    nullEntry ([] ++ [Request.getCart]) = Response.ok (some { items := some [none] }) ∧
    (loadCart nullEntry "u1"
      { storage := [("cart_cache_u1",
          StoreVal.array [some { product_id := some "p1", quantity := some 2 }])] }).storage.getItem
      (cacheKey "u1")
      = some (StoreVal.array [some { product_id := some "p1", quantity := some 2 }]) := by
  decide

/-- C3 (amended): for every user and every prior state, if the `GET /products/cart` request of
`loadCart` succeeds and the `items` array of the response body (when it has one) contains no
`null` element, then after `loadCart` the entry `cart_cache_{user.id}` of local storage is
absent. -/
theorem loadCart_clears_cache (net : Net) (uid : String) (w : World) (data : Option Body)
    (hresp : net (w.log ++ [Request.getCart]) = Response.ok data)
    (hitems : ∀ items, data.bind (fun b => b.items) = some items → none ∉ items) :
    (loadCart net uid w).storage.getItem (cacheKey uid) = none := by
  have hmap : ∃ cart, serverCart data = Except.ok cart := by
    unfold serverCart
    cases hb : data.bind (fun b => b.items) with
    | none => exact ⟨[], rfl⟩
    | some items => exact mapServerItems_of_no_null (hitems items hb)
  obtain ⟨cart, hcart⟩ := hmap
  rw [loadCart_synced hresp hcart]
  exact Storage.getItem_removeItem_self w.storage (cacheKey uid)

/-- Witness of C3: the server returns one entry and the cache held two units of `p1`. -/
theorem loadCart_clears_cache_witness :
    (loadCart stocked "u1"
      { storage := [("cart_cache_u1",
          StoreVal.array [some { product_id := some "p1", quantity := some 2 }])] }).storage.getItem
      (cacheKey "u1") = none :=
  loadCart_clears_cache stocked "u1" _ _ rfl (by
    intro items h
    simp only [Option.bind, Option.some.injEq] at h
    subst h
    simp)

/-! ### C4 and C5: the cart rebuilt from the cache -/

theorem fetchAllCached_eq_fallbackCart (net : Net) :
    ∀ (entries : List (Option CacheEntry)) (w : World),
      (fetchAllCached net entries w).1.filterMap id = fallbackCart net w.log entries := by
  intro entries
  induction entries with
  | nil => intro w; rfl
  | cons c rest ih =>
    intro w
    cases c with
    | none =>
      simp only [fetchAllCached, fetchCached, fallbackCart, List.filterMap_cons, id]
      exact ih w
    | some c =>
      cases hn : net (w.log ++ [Request.getProduct c.product_id]) with
      | ok d =>
        simp only [fetchAllCached, fetchCached, apiCall_ok hn, fallbackCart, hn,
          List.filterMap_cons, id]
        rw [ih]
      | fail e =>
        simp only [fetchAllCached, fetchCached, apiCall_fail hn, fallbackCart, hn,
          List.filterMap_cons, id]
        rw [ih, responseInterceptor_log]

theorem parseCache_of_getItem_array {st : Storage} {key : String}
    {entries : List (Option CacheEntry)} (h : st.getItem key = some (StoreVal.array entries)) :
    parseCache st key = Parsed.array entries := by
  simp only [parseCache, h]

theorem loadCartFallback_cart_of_array (net : Net) {uid : String} (error : JsError) {w : World}
    {entries : List (Option CacheEntry)}
    (h : parseCache w.storage (cacheKey uid) = Parsed.array entries) :
    (loadCartFallback net uid error w).cart = fallbackCart net w.log entries := by
  unfold loadCartFallback
  rw [h]
  cases entries with
  | nil => rfl
  | cons c cs => exact fetchAllCached_eq_fallbackCart net (c :: cs) w

theorem loadCart_rejected_cart {net : Net} {uid : String} {w : World} {e : JsError}
    {entries : List (Option CacheEntry)}
    (hresp : net (w.log ++ [Request.getCart]) = Response.fail e)
    (hcache : w.storage.getItem (cacheKey uid) = some (StoreVal.array entries)) :
    (loadCart net uid w).cart = fallbackCart net (w.log ++ [Request.getCart]) entries := by
  rw [loadCart_rejected hresp]
  have hparse : parseCache (responseInterceptor e
      { w with loading := true, log := w.log ++ [Request.getCart] }).storage (cacheKey uid)
      = Parsed.array entries := by
    apply parseCache_of_getItem_array
    rw [responseInterceptor_getItem_cache]
    exact hcache
  have h := loadCartFallback_cart_of_array net e hparse
  rw [responseInterceptor_log] at h
  exact h

theorem fallbackCart_sublist (net : Net) :
    ∀ (entries : List (Option CacheEntry)) (log : List Request),
      List.Sublist ((fallbackCart net log entries).map (fun i => i.id))
        ((entries.filterMap id).map (fun c => c.product_id)) := by
  intro entries
  induction entries with
  | nil => intro log; exact List.Sublist.slnil
  | cons c rest ih =>
    intro log
    cases c with
    | none =>
      simp only [fallbackCart, List.filterMap_cons, id]
      exact ih log
    | some c =>
      simp only [fallbackCart, List.filterMap_cons, id, List.map_cons]
      cases net (log ++ [Request.getProduct c.product_id]) with
      | ok d => exact List.Sublist.cons₂ _ (ih _)
      | fail e => exact List.Sublist.cons _ (ih _)

theorem fallbackCart_all_fetched (net : Net) :
    ∀ (entries : List CacheEntry) (log : List Request),
      (∀ k, k < entries.length → ∃ d,
        net (log ++ (entries.take (k + 1)).map (fun c => Request.getProduct c.product_id))
          = Response.ok d) →
      List.Forall₂ (fun (i : CartItem) (c : CacheEntry) =>
          i.id = c.product_id ∧ i.product_id = c.product_id ∧
          ∀ q, c.quantity = some q → 1 ≤ q → i.quantity = q)
        (fallbackCart net log (entries.map some)) entries := by
  intro entries
  induction entries with
  | nil => intro log _; exact List.Forall₂.nil
  | cons c rest ih =>
    intro log hfetch
    obtain ⟨d, hd⟩ := hfetch 0 (by simp)
    simp only [List.take, List.map_cons, List.map_nil] at hd
    simp only [List.map_cons, fallbackCart, hd]
    refine List.Forall₂.cons ⟨rfl, rfl, ?_⟩ (ih _ ?_)
    · intro q hq hpos
      simp only [cachedItem, hq]
      have hz : q ≠ 0 := by omega
      simp [hz]
    · intro k hk
      obtain ⟨d1, hd1⟩ := hfetch (k + 1) (by simp; omega)
      refine ⟨d1, ?_⟩
      simpa [List.take, List.append_assoc] using hd1

/-- C4: when the cart request is rejected and the cache of the user is an array of
`{product_id, quantity}` entries whose product fetches all succeed (the fetch of entry `k` is
the request issued after the cart request and the fetches of the entries before it), the cart
after `loadCart` has one item per cached entry, in cache order, and the item of an entry has
`id = product_id =` the cached product id and, when the cached quantity is at least 1, that
quantity. -/
theorem loadCart_rebuilds_cart_from_cache (net : Net) (uid : String) (w : World) (e : JsError)
    (entries : List CacheEntry)
    (hresp : net (w.log ++ [Request.getCart]) = Response.fail e)
    (hcache : w.storage.getItem (cacheKey uid) = some (StoreVal.array (entries.map some)))
    (hfetch : ∀ k, k < entries.length → ∃ d,
      net ((w.log ++ [Request.getCart]) ++
        (entries.take (k + 1)).map (fun c => Request.getProduct c.product_id)) = Response.ok d) :
    (loadCart net uid w).cart.length = entries.length ∧
    List.Forall₂ (fun (i : CartItem) (c : CacheEntry) =>
        i.id = c.product_id ∧ i.product_id = c.product_id ∧
        ∀ q, c.quantity = some q → 1 ≤ q → i.quantity = q)
      (loadCart net uid w).cart entries := by
  have hall : List.Forall₂ (fun (i : CartItem) (c : CacheEntry) =>
        i.id = c.product_id ∧ i.product_id = c.product_id ∧
        ∀ q, c.quantity = some q → 1 ≤ q → i.quantity = q)
      (loadCart net uid w).cart entries := by
    rw [loadCart_rejected_cart hresp hcache]
    exact fallbackCart_all_fetched net entries _ hfetch
  exact ⟨hall.length_eq, hall⟩

/-- Witness of C4, the instance named in the claim: the cart request fails, the cache is
`[{product_id: "p1", quantity: 2}]` and `GET /products/p1` succeeds; the cart is exactly one
item with `id = product_id = "p1"` and quantity 2. -/
theorem loadCart_rebuilds_cart_from_cache_witness :
    (loadCart cartDown "u1"
      { storage := [("cart_cache_u1",
          StoreVal.array [some { product_id := some "p1", quantity := some 2 }])] }).cart
      = [{ id := some "p1", product_id := some "p1", title := "Lamp", category := "",
           image := "", price := 30, quantity := 2 }] ∧
    List.Forall₂ (fun (i : CartItem) (c : CacheEntry) =>
        i.id = c.product_id ∧ i.product_id = c.product_id ∧
        ∀ q, c.quantity = some q → 1 ≤ q → i.quantity = q)
      (loadCart cartDown "u1"
        { storage := [("cart_cache_u1",
            StoreVal.array [some { product_id := some "p1", quantity := some 2 }])] }).cart
      [{ product_id := some "p1", quantity := some 2 }] :=
  ⟨by decide,
    (loadCart_rebuilds_cart_from_cache cartDown "u1"
      { storage := [("cart_cache_u1",
          StoreVal.array [some { product_id := some "p1", quantity := some 2 }])] }
      { status := some 500, message := "Request failed" }
      [{ product_id := some "p1", quantity := some 2 }]
      (by decide) (by decide)
      (by
        intro k hk
        have hk0 : k = 0 := by
          simp only [List.length_singleton] at hk
          omega
        subst hk0
        exact ⟨_, rfl⟩)).2⟩

/-- C5: when the cart request is rejected and the cache of the user is an array, the cart
after `loadCart` is exactly the list of the cached entries whose product fetch succeeded, in
cache order (`fallbackCart`), so its ids form a sublist of the cached product ids and an
entry whose fetch failed contributes no item; `loadCart` is a total function, it ends with
`loading = false` whatever the number of failed fetches. -/
theorem loadCart_drops_failed_fetches (net : Net) (uid : String) (w : World) (e : JsError)
    (entries : List (Option CacheEntry))
    (hresp : net (w.log ++ [Request.getCart]) = Response.fail e)
    (hcache : w.storage.getItem (cacheKey uid) = some (StoreVal.array entries)) :
    (loadCart net uid w).cart = fallbackCart net (w.log ++ [Request.getCart]) entries ∧
    List.Sublist ((loadCart net uid w).cart.map (fun i => i.id))
      ((entries.filterMap id).map (fun c => c.product_id)) ∧
    (loadCart net uid w).loading = false := by
  refine ⟨loadCart_rejected_cart hresp hcache, ?_, ?_⟩
  · rw [loadCart_rejected_cart hresp hcache]
    exact fallbackCart_sublist net entries _
  · rw [loadCart_rejected hresp]
    rfl

/-- Witness of C5: the cache holds `p1`, `p2`, `p3` and the fetch of `p2` fails; the cart
holds `p1` and `p3`. -/
theorem loadCart_drops_failed_fetches_witness :
    (loadCart cartDownP2Gone "u1"
      { storage := [("cart_cache_u1", StoreVal.array
          [some { product_id := some "p1", quantity := some 2 },
           some { product_id := some "p2", quantity := some 1 },
           some { product_id := some "p3", quantity := some 4 }])] }).cart.map
      (fun i => (i.id, i.quantity)) = [(some "p1", 2), (some "p3", 4)] ∧
    (loadCart cartDownP2Gone "u1"
      { storage := [("cart_cache_u1", StoreVal.array
          [some { product_id := some "p1", quantity := some 2 },
           some { product_id := some "p2", quantity := some 1 },
           some { product_id := some "p3", quantity := some 4 }])] }).loading = false :=
  ⟨by decide,
    (loadCart_drops_failed_fetches cartDownP2Gone "u1"
      { storage := [("cart_cache_u1", StoreVal.array
          [some { product_id := some "p1", quantity := some 2 },
           some { product_id := some "p2", quantity := some 1 },
           some { product_id := some "p3", quantity := some 4 }])] }
      { status := some 500, message := "Request failed" }
      [some { product_id := some "p1", quantity := some 2 },
       some { product_id := some "p2", quantity := some 1 },
       some { product_id := some "p3", quantity := some 4 }]
      (by decide) (by decide)).2.2⟩

/-! ### C6: the requests of `loadCart` and of `removeItem` in server mode -/

theorem fetchAllCached_log (net : Net) :
    ∀ (entries : List (Option CacheEntry)) (w : World),
      (fetchAllCached net entries w).2.log = w.log ++ cacheFetches entries := by
  intro entries
  induction entries with
  | nil => intro w; simp [fetchAllCached, cacheFetches]
  | cons c rest ih =>
    intro w
    cases c with
    | none =>
      simp only [fetchAllCached, fetchCached]
      rw [ih]
      simp [cacheFetches]
    | some c =>
      simp only [fetchAllCached]
      rw [ih]
      have h : (fetchCached net (some c) w).2.log = w.log ++ [Request.getProduct c.product_id] := by
        unfold fetchCached
        cases hn : net (w.log ++ [Request.getProduct c.product_id]) with
        | ok d => simp only [apiCall_ok hn]
        | fail e => simp only [apiCall_fail hn, responseInterceptor_log]
      rw [h]
      simp [cacheFetches]

theorem cacheFetches_isProductFetch (entries : List (Option CacheEntry)) :
    ∀ r ∈ cacheFetches entries, r.isProductFetch = true := by
  intro r hr
  unfold cacheFetches at hr
  obtain ⟨c, _, hc⟩ := List.mem_filterMap.mp hr
  cases c with
  | none => simp at hc
  | some e =>
    simp only [Option.map, Option.some.injEq] at hc
    rw [← hc]
    rfl

theorem loadCartFallback_log (net : Net) (uid : String) (error : JsError) (w : World) :
    ∃ fetches, (loadCartFallback net uid error w).log = w.log ++ fetches ∧
      ∀ r ∈ fetches, r.isProductFetch = true := by
  unfold loadCartFallback
  cases hp : parseCache w.storage (cacheKey uid) with
  | throws => exact ⟨[], by simp [World.toast], by simp⟩
  | nonArray => exact ⟨[], by simp [World.toast], by simp⟩
  | array entries =>
    cases entries with
    | nil => exact ⟨[], by simp [World.toast], by simp⟩
    | cons c cs =>
      refine ⟨cacheFetches (c :: cs), ?_, cacheFetches_isProductFetch _⟩
      exact fetchAllCached_log net (c :: cs) w

theorem loadCart_log (net : Net) (uid : String) (w : World) :
    ∃ fetches, (loadCart net uid w).log = w.log ++ Request.getCart :: fetches ∧
      ∀ r ∈ fetches, r.isProductFetch = true := by
  cases hresp : net (w.log ++ [Request.getCart]) with
  | ok data =>
    cases hmap : serverCart data with
    | ok items =>
      rw [loadCart_synced hresp hmap]
      exact ⟨[], by simp, by simp⟩
    | error e =>
      rw [loadCart_mapping_throws hresp hmap]
      obtain ⟨fetches, hlog, hall⟩ := loadCartFallback_log net uid e
        { w with loading := true, log := w.log ++ [Request.getCart] }
      refine ⟨fetches, ?_, hall⟩
      show (loadCartFallback net uid e _).log = _
      rw [hlog]
      simp
  | fail e =>
    rw [loadCart_rejected hresp]
    obtain ⟨fetches, hlog, hall⟩ := loadCartFallback_log net uid e
      (responseInterceptor e { w with loading := true, log := w.log ++ [Request.getCart] })
    refine ⟨fetches, ?_, hall⟩
    show (loadCartFallback net uid e _).log = _
    rw [hlog, responseInterceptor_log]
    simp

/-- C6 (as stated) fails when two items share an id: `removeItem` looks the item up by id and
takes its mode from the first one.  In the cart below the second item has `id != product_id`,
yet `removeItem(item.id)` runs in fallback mode and issues no request at all. -/
theorem removeItem_shared_id_no_delete :
    sampleItem "a" "b" 1 ∈ [sampleItem "a" "a" 1, sampleItem "a" "b" 1] ∧
    (sampleItem "a" "b" 1).id ≠ (sampleItem "a" "b" 1).product_id ∧
    (removeItem stocked "u1" (sampleItem "a" "b" 1).id
      { cart := [sampleItem "a" "a" 1, sampleItem "a" "b" 1] }).log = [] := by
  decide

/-- C6 (amended): for every cart and every item that is the first item of the cart with its
id (the item `cart.find` returns; every item when ids are pairwise distinct), if
`item.id != item.product_id` then the requests issued by `removeItem(item.id)` are, in this
order, one `DELETE /products/cart/{item.id}`, then the `GET /products/cart` of the reload, then
only product fetches of the reload's fallback path, whether the delete succeeds or fails. -/
theorem removeItem_server_mode_requests (net : Net) (uid : String) (w : World) (item : CartItem)
    (hfind : w.cart.find? (fun i => i.id = item.id) = some item)
    (hmode : item.id ≠ item.product_id) :
    ∃ fetches,
      (removeItem net uid item.id w).log
        = w.log ++ Request.deleteCartItem item.id :: Request.getCart :: fetches ∧
      ∀ r ∈ fetches, r.isProductFetch = true := by
  unfold removeItem
  rw [hfind]
  simp only [if_neg hmode]
  unfold removeItemServer
  cases hn : net (w.log ++ [Request.deleteCartItem item.id]) with
  | ok d =>
    simp only [apiCall_ok hn]
    obtain ⟨fetches, hlog, hall⟩ := loadCart_log net uid
      (({ w with log := w.log ++ [Request.deleteCartItem item.id],
                 cart := w.cart.filter (fun (i : CartItem) => i.id != item.id) } : World).toast
        (Toast.success "Item removed from cart"))
    refine ⟨fetches, ?_, hall⟩
    rw [hlog]
    simp [World.toast]
  | fail e =>
    simp only [apiCall_fail hn]
    obtain ⟨fetches, hlog, hall⟩ := loadCart_log net uid
      ((responseInterceptor e { w with log := w.log ++ [Request.deleteCartItem item.id] }).toast
        (Toast.error (errorMsgOf e "Failed to remove item")))
    refine ⟨fetches, ?_, hall⟩
    rw [hlog]
    simp [World.toast, responseInterceptor_log]

/-- Witness of C6: removing the only item, a server item, while the server is unreachable. -/
theorem removeItem_server_mode_requests_witness :
    ∃ fetches,
      (removeItem offline "u1" (sampleItem "c1" "p1" 2).id { cart := [sampleItem "c1" "p1" 2] }).log
        = ([] : List Request) ++
          Request.deleteCartItem (sampleItem "c1" "p1" 2).id :: Request.getCart :: fetches ∧
      ∀ r ∈ fetches, r.isProductFetch = true :=
  removeItem_server_mode_requests offline "u1" { cart := [sampleItem "c1" "p1" 2] }
    (sampleItem "c1" "p1" 2) (by decide) (by decide)

/-! ### C7 to C10: `handleCheckout` -/

theorem handleCheckout_redirected {net : Net} {w : World} {data : Option Body} {target : String}
    (hcart : w.cart ≠ [])
    (hresp : net (w.log ++ [checkoutRequest w.cart]) = Response.ok data)
    (hurl : jsOr (data.bind (fun d => d.url)) (data.bind (fun d => d.checkout_url)) = some target)
    (htarget : target ≠ "") :
    handleCheckout net w =
      { w with
        log := w.log ++ [checkoutRequest w.cart]
        redirects := w.redirects ++ [target]
        processing := false } := by
  have hlen : ¬ w.cart.length = 0 := fun h => hcart (List.length_eq_zero.mp h)
  have h : net ((w.setProcessing true).log ++ [checkoutRequest w.cart]) = Response.ok data := hresp
  have hne : (target != "") = true := by simp [htarget]
  unfold checkoutRequest at h
  simp only [handleCheckout, if_neg hlen, apiCall_ok h, hurl, hne, if_true]
  rfl

theorem handleCheckout_no_url {net : Net} {w : World} {data : Option Body}
    (hcart : w.cart ≠ [])
    (hresp : net (w.log ++ [checkoutRequest w.cart]) = Response.ok data)
    (hurl : truthy (jsOr (data.bind (fun d => d.url)) (data.bind (fun d => d.checkout_url)))
      = false) :
    handleCheckout net w =
      { w with
        log := w.log ++ [checkoutRequest w.cart]
        toasts := w.toasts ++ [Toast.error (ErrMsg.text "Failed to create checkout session")]
        processing := false } := by
  have hlen : ¬ w.cart.length = 0 := fun h => hcart (List.length_eq_zero.mp h)
  have h : net ((w.setProcessing true).log ++ [checkoutRequest w.cart]) = Response.ok data := hresp
  unfold checkoutRequest at h
  cases hu : jsOr (data.bind (fun d => d.url)) (data.bind (fun d => d.checkout_url)) with
  | none =>
    simp only [handleCheckout, if_neg hlen, apiCall_ok h, hu]
    rfl
  | some target =>
    rw [hu] at hurl
    have hempty : (target != "") = false := hurl
    simp only [handleCheckout, if_neg hlen, apiCall_ok h, hu, hempty]
    rfl

theorem handleCheckout_rejected {net : Net} {w : World} {e : JsError}
    (hcart : w.cart ≠ [])
    (hresp : net (w.log ++ [checkoutRequest w.cart]) = Response.fail e) :
    handleCheckout net w =
      ((responseInterceptor e
          { w with processing := true, log := w.log ++ [checkoutRequest w.cart] }).toast
        (Toast.error (ErrMsg.text (checkoutMessage e.detail)))).setProcessing false := by
  have hlen : ¬ w.cart.length = 0 := fun h => hcart (List.length_eq_zero.mp h)
  have h : net ((w.setProcessing true).log ++ [checkoutRequest w.cart]) = Response.fail e := hresp
  unfold checkoutRequest at h
  simp only [handleCheckout, if_neg hlen, apiCall_fail h]
  rfl

theorem responseInterceptor_toasts (e : JsError) (w : World) :
    (responseInterceptor e w).toasts = w.toasts := by
  unfold responseInterceptor
  split <;> rfl

theorem truthy_jsOr (a b : Option String) : truthy (jsOr a b) = (truthy a || truthy b) := by
  unfold jsOr
  cases h : truthy a <;> simp [h]

theorem truthy_eq_true_iff (a : Option String) :
    truthy a = true ↔ ∃ s, a = some s ∧ s ≠ "" := by
  cases a with
  | none => simp [truthy]
  | some s => simp [truthy]

/-- C7: `handleCheckout` on an empty cart only shows the toast `Your cart is empty`: no
request is issued, nothing is assigned to `window.location.href`, and cart, processing flag
and local storage are unchanged. -/
theorem handleCheckout_empty_cart (net : Net) (w : World) (hcart : w.cart = []) :
    handleCheckout net w
      = { w with toasts := w.toasts ++ [Toast.error (ErrMsg.text "Your cart is empty")] } := by
  have hlen : w.cart.length = 0 := by rw [hcart]; rfl
  unfold handleCheckout
  rw [if_pos hlen]
  rfl

/-- Witness of C7: the initial state with an empty cart. -/
theorem handleCheckout_empty_cart_witness :
    handleCheckout stocked { cart := [], loading := false }
      = { cart := [], loading := false,
          toasts := [Toast.error (ErrMsg.text "Your cart is empty")] } :=
  handleCheckout_empty_cart stocked { cart := [], loading := false } rfl

/-- C8: for a non-empty cart whose checkout request succeeds, a value is assigned to
`window.location.href` if and only if the response carries a non-empty `url` or
`checkout_url`; the value is `url` when that is non-empty and `checkout_url` otherwise, and no
toast is shown; when neither is non-empty nothing is assigned and the outcome is the error
toast `Failed to create checkout session`. -/
theorem handleCheckout_success_redirect (net : Net) (w : World) (data : Option Body)
    (hcart : w.cart ≠ [])
    (hresp : net (w.log ++ [checkoutRequest w.cart]) = Response.ok data) :
    ((handleCheckout net w).redirects ≠ w.redirects ↔
      (truthy (data.bind (fun d => d.url)) = true ∨
        truthy (data.bind (fun d => d.checkout_url)) = true)) ∧
    (∀ u, data.bind (fun d => d.url) = some u → u ≠ "" →
      (handleCheckout net w).redirects = w.redirects ++ [u] ∧
      (handleCheckout net w).toasts = w.toasts) ∧
    (truthy (data.bind (fun d => d.url)) = false →
      ∀ c, data.bind (fun d => d.checkout_url) = some c → c ≠ "" →
      (handleCheckout net w).redirects = w.redirects ++ [c] ∧
      (handleCheckout net w).toasts = w.toasts) ∧
    (truthy (data.bind (fun d => d.url)) = false →
      truthy (data.bind (fun d => d.checkout_url)) = false →
      (handleCheckout net w).redirects = w.redirects ∧
      (handleCheckout net w).toasts
        = w.toasts ++ [Toast.error (ErrMsg.text "Failed to create checkout session")]) := by
  have hyes : ∀ u, data.bind (fun d => d.url) = some u → u ≠ "" →
      (handleCheckout net w).redirects = w.redirects ++ [u] ∧
      (handleCheckout net w).toasts = w.toasts := by
    intro u hu hne
    have hor : jsOr (data.bind (fun d => d.url)) (data.bind (fun d => d.checkout_url)) = some u := by
      unfold jsOr
      rw [hu]
      simp [truthy, hne]
    rw [handleCheckout_redirected hcart hresp hor hne]
    exact ⟨rfl, rfl⟩
  have hsecond : truthy (data.bind (fun d => d.url)) = false →
      ∀ c, data.bind (fun d => d.checkout_url) = some c → c ≠ "" →
      (handleCheckout net w).redirects = w.redirects ++ [c] ∧
      (handleCheckout net w).toasts = w.toasts := by
    intro hfalse c hc hne
    have hor : jsOr (data.bind (fun d => d.url)) (data.bind (fun d => d.checkout_url)) = some c := by
      unfold jsOr
      rw [hfalse, hc]
      simp
    rw [handleCheckout_redirected hcart hresp hor hne]
    exact ⟨rfl, rfl⟩
  have hnone : truthy (data.bind (fun d => d.url)) = false →
      truthy (data.bind (fun d => d.checkout_url)) = false →
      (handleCheckout net w).redirects = w.redirects ∧
      (handleCheckout net w).toasts
        = w.toasts ++ [Toast.error (ErrMsg.text "Failed to create checkout session")] := by
    intro h1 h2
    have hor : truthy (jsOr (data.bind (fun d => d.url)) (data.bind (fun d => d.checkout_url)))
        = false := by
      rw [truthy_jsOr, h1, h2]
      rfl
    rw [handleCheckout_no_url hcart hresp hor]
    exact ⟨rfl, rfl⟩
  refine ⟨⟨fun hchanged => ?_, fun hsome => ?_⟩, hyes, hsecond, hnone⟩
  · by_contra hno
    have h1 : truthy (data.bind (fun d => d.url)) = false := by
      cases h : truthy (data.bind (fun d => d.url))
      · rfl
      · exact absurd (Or.inl h) hno
    have h2 : truthy (data.bind (fun d => d.checkout_url)) = false := by
      cases h : truthy (data.bind (fun d => d.checkout_url))
      · rfl
      · exact absurd (Or.inr h) hno
    exact hchanged (hnone h1 h2).1
  · cases h1 : truthy (data.bind (fun d => d.url)) with
    | true =>
      obtain ⟨u, hu, hne⟩ := (truthy_eq_true_iff _).mp h1
      rw [(hyes u hu hne).1]
      simp
    | false =>
      rcases hsome with h | h
      · rw [h1] at h
        cases h
      · obtain ⟨c, hc, hne⟩ := (truthy_eq_true_iff _).mp h
        rw [(hsecond h1 c hc hne).1]
        simp

/-- Witness of C8, the instance named in the specification: the response `{url: ...}` sends
the page to that URL. -/
theorem handleCheckout_success_redirect_witness :
    (handleCheckout paying { cart := [sampleItem "c1" "p1" 2] }).redirects
      = [] ++ ["https://pay.example/abc"] ∧
    (handleCheckout paying { cart := [sampleItem "c1" "p1" 2] }).toasts = [] :=
  (handleCheckout_success_redirect paying { cart := [sampleItem "c1" "p1" 2] }
    (some { url := some "https://pay.example/abc" }) (by decide) rfl).2.1
    "https://pay.example/abc" rfl (by decide)

theorem intercalate_go_length (sep : String) :
    ∀ (rest : List String) (acc : String),
      acc.length ≤ (String.intercalate.go acc sep rest).length := by
  intro rest
  induction rest with
  | nil => intro acc; simp [String.intercalate.go]
  | cons a rest ih =>
    intro acc
    simp only [String.intercalate.go]
    have h := ih (acc ++ sep ++ a)
    simp only [String.length_append] at h
    omega

theorem intercalate_ne_empty (sep : String) {texts : List String} (hne : texts ≠ [])
    (hall : ∀ t ∈ texts, t ≠ "") : sep.intercalate texts ≠ "" := by
  cases texts with
  | nil => exact absurd rfl hne
  | cons a rest =>
    intro h
    have hlen := intercalate_go_length sep rest a
    simp only [String.intercalate] at h
    rw [h] at hlen
    have ha : a ≠ "" := hall a (List.mem_cons_self _ _)
    have hpos : 0 < a.length := by
      rcases Nat.eq_zero_or_pos a.length with h0 | h0
      · have hdata : a.data = [] := List.length_eq_zero.mp h0
        exact absurd (String.ext hdata) ha
      · exact h0
    have hz : "".length = 0 := rfl
    omega

/-- The messages `handleCheckout` keeps from a list detail: the non-empty `msg` fields. -/
theorem kept_messages_ne_empty (msgs : List (Option String)) :
    ∀ t ∈ (msgs.map (fun d => orDefault d "")).filter (fun m => m != ""), t ≠ "" := by
  intro t ht
  have h := (List.mem_filter.mp ht).2
  simpa using h

theorem kept_messages_of_all_present (texts : List String) (hall : ∀ t ∈ texts, t ≠ "") :
    ((texts.map some).map (fun d => orDefault d "")).filter (fun m => m != "") = texts := by
  induction texts with
  | nil => rfl
  | cons a rest ih =>
    have ha : a ≠ "" := hall a (List.mem_cons_self _ _)
    have hne : (a != "") = true := by simp [ha]
    have step : orDefault (some a) "" = a := by simp [orDefault, ha]
    simp only [List.map_cons, step, hne, if_true, List.filter_cons]
    rw [ih (fun t ht => hall t (List.mem_cons_of_mem _ ht))]

theorem kept_messages_eq (msgs : List (Option String)) :
    (msgs.map (fun d => orDefault d "")).filter (fun m => m != "")
      = (msgs.filterMap id).filter (fun t => t != "") := by
  induction msgs with
  | nil => rfl
  | cons m rest ih =>
    cases m with
    | none =>
      have step : orDefault none "" = "" := rfl
      simp only [List.map_cons, step, List.filterMap_cons, id]
      rw [List.filter_cons_of_neg (by simp)]
      exact ih
    | some t =>
      by_cases ht : t = ""
      · have step : orDefault (some t) "" = "" := by simp [orDefault, ht]
        simp only [List.map_cons, step, List.filterMap_cons, id]
        rw [List.filter_cons_of_neg (by simp), List.filter_cons_of_neg (by simp [ht])]
        exact ih
      · have step : orDefault (some t) "" = t := by simp [orDefault, ht]
        simp only [List.map_cons, step, List.filterMap_cons, id]
        rw [List.filter_cons_of_pos (by simp [ht]), List.filter_cons_of_pos (by simp [ht]), ih]

theorem checkoutMessage_list_usable (msgs : List (Option String))
    (h : ∃ m ∈ msgs, truthy m = true) :
    checkoutMessage (Detail.list msgs)
      = ", ".intercalate ((msgs.filterMap id).filter (fun t => t != "")) := by
  have hne : (msgs.map (fun d => orDefault d "")).filter (fun m => m != "") ≠ [] := by
    obtain ⟨m, hm, htruthy⟩ := h
    obtain ⟨t, ht, htne⟩ := (truthy_eq_true_iff m).mp htruthy
    have hmem : t ∈ (msgs.map (fun d => orDefault d "")).filter (fun m => m != "") := by
      apply List.mem_filter.mpr
      refine ⟨List.mem_map.mpr ⟨m, hm, ?_⟩, by simp [htne]⟩
      simp [ht, orDefault, htne]
    exact List.ne_nil_of_mem hmem
  have hjoin := intercalate_ne_empty ", " hne (kept_messages_ne_empty msgs)
  have hb : (", ".intercalate ((msgs.map (fun d => orDefault d "")).filter (fun m => m != ""))
      != "") = true := by simp [hjoin]
  simp only [checkoutMessage, hb, if_true]
  rw [kept_messages_eq]

theorem checkoutMessage_list_unusable (msgs : List (Option String))
    (h : ∀ m ∈ msgs, truthy m = false) :
    checkoutMessage (Detail.list msgs) = "Failed to create checkout session" := by
  have hnil : (msgs.map (fun d => orDefault d "")).filter (fun m => m != "") = [] := by
    rw [kept_messages_eq]
    apply List.filter_eq_nil_iff.mpr
    intro t ht
    obtain ⟨m, hm, hid⟩ := List.mem_filterMap.mp ht
    simp only [id] at hid
    have hf := h m hm
    rw [hid] at hf
    simp only [truthy] at hf
    simpa using hf
  simp only [checkoutMessage, hnil]
  rfl

/-- C9: when the checkout request of a non-empty cart is rejected, exactly one toast is added,
an error toast whose text is: the detail itself when the detail is a string; the messages of
the list joined by `", "` when the detail is a list of non-empty messages (in general, the
non-empty `msg` fields of the list, joined, when there is at least one); and the default
`Failed to create checkout session` when there is no usable detail (absent, neither a string
nor a list, or a list without a non-empty message). -/
theorem handleCheckout_failure_message (net : Net) (w : World) (e : JsError)
    (hcart : w.cart ≠ [])
    (hresp : net (w.log ++ [checkoutRequest w.cart]) = Response.fail e) :
    (∀ s, e.detail = Detail.str s →
      (handleCheckout net w).toasts = w.toasts ++ [Toast.error (ErrMsg.text s)]) ∧
    (∀ texts : List String, texts ≠ [] → (∀ t ∈ texts, t ≠ "") →
      e.detail = Detail.list (texts.map some) →
      (handleCheckout net w).toasts
        = w.toasts ++ [Toast.error (ErrMsg.text (", ".intercalate texts))]) ∧
    (∀ msgs, e.detail = Detail.list msgs → (∃ m ∈ msgs, truthy m = true) →
      (handleCheckout net w).toasts
        = w.toasts ++ [Toast.error (ErrMsg.text
            (", ".intercalate ((msgs.filterMap id).filter (fun t => t != ""))))]) ∧
    ((e.detail = Detail.absent ∨ e.detail = Detail.other ∨
        ∃ msgs, e.detail = Detail.list msgs ∧ ∀ m ∈ msgs, truthy m = false) →
      (handleCheckout net w).toasts
        = w.toasts ++ [Toast.error (ErrMsg.text "Failed to create checkout session")]) := by
  have htoasts : (handleCheckout net w).toasts
      = w.toasts ++ [Toast.error (ErrMsg.text (checkoutMessage e.detail))] := by
    rw [handleCheckout_rejected hcart hresp]
    show (responseInterceptor e _).toasts ++ _ = _
    rw [responseInterceptor_toasts]
  refine ⟨fun s hs => ?_, fun texts hne hall hd => ?_, fun msgs hd husable => ?_, fun hno => ?_⟩
  · rw [htoasts, hs]
    rfl
  · have husable : ∃ m ∈ texts.map some, truthy m = true := by
      cases texts with
      | nil => exact absurd rfl hne
      | cons t rest =>
        refine ⟨some t, List.mem_cons_self _ _, ?_⟩
        simp [truthy, hall t (List.mem_cons_self _ _)]
    rw [htoasts, hd, checkoutMessage_list_usable _ husable, ← kept_messages_eq,
      kept_messages_of_all_present texts hall]
  · rw [htoasts, hd, checkoutMessage_list_usable msgs husable]
  · rw [htoasts]
    rcases hno with h | h | ⟨msgs, h, hall⟩
    · rw [h]
      rfl
    · rw [h]
      rfl
    · rw [h, checkoutMessage_list_unusable msgs hall]

/-- Witness of C9: a 422 answer with two field errors gives one toast joining them. -/
theorem handleCheckout_failure_message_witness :
    (handleCheckout invalid { cart := [sampleItem "c1" "p1" 2] }).toasts
      = [] ++ [Toast.error (ErrMsg.text
          (", ".intercalate ["quantity too large", "unknown product"]))] :=
  (handleCheckout_failure_message invalid { cart := [sampleItem "c1" "p1" 2] }
    { status := some 422, message := "Request failed with status code 422",
      detail := Detail.list [some "quantity too large", some "unknown product"] }
    (by decide) rfl).2.1 ["quantity too large", "unknown product"] (by decide) (by decide) rfl

/-- C10: for every non-empty cart, `handleCheckout` issues exactly one request, the
`POST /checkout/create-session` whose body has type `"product"` and an `items` list as long
as the cart whose `k`-th entry is `{id: cart[k].product_id, quantity: cart[k].quantity}`,
whatever the mode of the items and whatever the answer. -/
theorem handleCheckout_posts_whole_cart (net : Net) (w : World) (hcart : w.cart ≠ []) :
    ∃ items : List (Option String × Int),
      (handleCheckout net w).log = w.log ++ [Request.createSession items "product"] ∧
      items.length = w.cart.length ∧
      ∀ k : Nat, items[k]? = (w.cart[k]?).map (fun (i : CartItem) => (i.product_id, i.quantity)) := by
  refine ⟨w.cart.map (fun (item : CartItem) => (item.product_id, item.quantity)), ?_, ?_, ?_⟩
  · cases hresp : net (w.log ++ [checkoutRequest w.cart]) with
    | ok data =>
      cases hu : truthy (jsOr (data.bind (fun d => d.url)) (data.bind (fun d => d.checkout_url)))
      · rw [handleCheckout_no_url hcart hresp hu]
        rfl
      · obtain ⟨target, ht, hne⟩ := (truthy_eq_true_iff _).mp hu
        rw [handleCheckout_redirected hcart hresp ht hne]
        rfl
    | fail e =>
      rw [handleCheckout_rejected hcart hresp]
      show (responseInterceptor e _).log = _
      rw [responseInterceptor_log]
      rfl
  · exact List.length_map _ _
  · intro k
    exact List.getElem?_map _ _ _

/-- Witness of C10: a cart with a fallback item and a server item. -/
theorem handleCheckout_posts_whole_cart_witness :
    (handleCheckout offline { cart := [sampleItem "p1" "p1" 2, sampleItem "c7" "p2" 1] }).log
      = [Request.createSession [(some "p1", 2), (some "p2", 1)] "product"] ∧
    ∃ items : List (Option String × Int),
      (handleCheckout offline { cart := [sampleItem "p1" "p1" 2, sampleItem "c7" "p2" 1] }).log
        = [] ++ [Request.createSession items "product"] ∧
      items.length = [sampleItem "p1" "p1" 2, sampleItem "c7" "p2" 1].length ∧
      ∀ k : Nat, items[k]? = ([sampleItem "p1" "p1" 2, sampleItem "c7" "p2" 1][k]?).map
        (fun (i : CartItem) => (i.product_id, i.quantity)) :=
  ⟨by decide,
    handleCheckout_posts_whole_cart offline
      { cart := [sampleItem "p1" "p1" 2, sampleItem "c7" "p2" 1] } (by decide)⟩

/-! ### Searching and rewriting the cached array -/

theorem Storage.getItem_setItem_ne (st : Storage) {key other : String} (v : StoreVal)
    (h : other ≠ key) : (st.setItem other v).getItem key = st.getItem key := by
  induction st with
  | nil => simp [Storage.setItem, Storage.getItem, h]
  | cons kv rest ih =>
    obtain ⟨k, old⟩ := kv
    by_cases hk : k = other
    · have hkey : ¬ k = key := fun hkk => h (hk ▸ hkk)
      simp [Storage.setItem, Storage.getItem, hk, h]
    · by_cases hkey : k = key
      · simp only [Storage.setItem, if_neg hk, Storage.getItem, if_pos hkey]
      · simp only [Storage.setItem, if_neg hk, Storage.getItem, if_neg hkey]
        exact ih

theorem findIndexByProduct_no_match (pid : Option String) (entries : List CacheEntry)
    (h : ∀ c ∈ entries, c.product_id ≠ pid) :
    findIndexByProduct pid (entries.map some) = Except.ok none := by
  induction entries with
  | nil => rfl
  | cons c rest ih =>
    have hc : ¬ c.product_id = pid := h c (List.mem_cons_self _ _)
    simp only [List.map_cons, findIndexByProduct, if_neg hc,
      ih (fun d hd => h d (List.mem_cons_of_mem _ hd))]

theorem findIndexByProduct_first_match (pid : Option String) (pre : List CacheEntry)
    (c : CacheEntry) (post : List (Option CacheEntry)) (hc : c.product_id = pid)
    (hpre : ∀ d ∈ pre, d.product_id ≠ pid) :
    findIndexByProduct pid (pre.map some ++ some c :: post) = Except.ok (some pre.length) := by
  induction pre with
  | nil => simp [findIndexByProduct, hc]
  | cons d rest ih =>
    have hd : ¬ d.product_id = pid := hpre d (List.mem_cons_self _ _)
    have ih1 := ih (fun x hx => hpre x (List.mem_cons_of_mem _ hx))
    show findIndexByProduct pid (some d :: (rest.map some ++ some c :: post)) = _
    rw [findIndexByProduct, if_neg hd, ih1]
    rfl

theorem setQuantityAt_first_match (q : Int) (pre : List (Option CacheEntry)) (c : CacheEntry)
    (post : List (Option CacheEntry)) :
    setQuantityAt pre.length q (pre ++ some c :: post)
      = pre ++ some { c with quantity := some q } :: post := by
  induction pre with
  | nil => rfl
  | cons d rest ih =>
    show setQuantityAt (rest.length + 1) q (d :: (rest ++ some c :: post)) = d :: _
    rw [setQuantityAt, ih]
    rfl

theorem addQuantityAt_first_match (q : Int) (pre : List (Option CacheEntry)) (c : CacheEntry)
    (post : List (Option CacheEntry)) :
    addQuantityAt pre.length q (pre ++ some c :: post)
      = pre ++ some { c with quantity := some (quantityOrOne c.quantity + q) } :: post := by
  induction pre with
  | nil => rfl
  | cons d rest ih =>
    show addQuantityAt (rest.length + 1) q (d :: (rest ++ some c :: post)) = d :: _
    rw [addQuantityAt, ih]
    rfl

theorem filterOutProduct_of_no_null (pid : Option String) (entries : List CacheEntry) :
    filterOutProduct pid (entries.map some)
      = Except.ok ((entries.filter (fun c => c.product_id != pid)).map some) := by
  induction entries with
  | nil => rfl
  | cons c rest ih =>
    simp only [List.map_cons, filterOutProduct, ih]
    by_cases hc : c.product_id = pid
    · simp [hc]
    · simp [hc]

/-! ### C11: `updateQuantity` in fallback mode -/

theorem updateQuantity_local_unmatched {net : Net} {uid : String} {w : World} {item : CartItem}
    {change : Int} {cached : List (Option CacheEntry)}
    (hfind : w.cart.find? (fun i => i.id = item.id) = some item)
    (hmode : item.id = item.product_id) (hq : 1 ≤ item.quantity + change)
    (hcache : parseCache w.storage (cacheKey uid) = Parsed.array cached)
    (hidx : findIndexByProduct item.product_id cached = Except.ok none) :
    updateQuantity net uid item.id change w =
      ({ w with
          storage := w.storage.setItem (cacheKey uid) (StoreVal.array cached)
          cart := w.cart.map (fun (i : CartItem) =>
            if i.id = item.id then { i with quantity := item.quantity + change } else i) }
        : World).toast (Toast.success "Quantity updated") := by
  have hlt : ¬ item.quantity + change < 1 := by omega
  simp only [updateQuantity, hfind, if_neg hlt, if_pos hmode, updateQuantityLocal, hcache, hidx]

theorem updateQuantity_local_matched {net : Net} {uid : String} {w : World} {item : CartItem}
    {change : Int} {cached : List (Option CacheEntry)} {k : Nat}
    (hfind : w.cart.find? (fun i => i.id = item.id) = some item)
    (hmode : item.id = item.product_id) (hq : 1 ≤ item.quantity + change)
    (hcache : parseCache w.storage (cacheKey uid) = Parsed.array cached)
    (hidx : findIndexByProduct item.product_id cached = Except.ok (some k)) :
    updateQuantity net uid item.id change w =
      ({ w with
          storage := w.storage.setItem (cacheKey uid)
            (StoreVal.array (setQuantityAt k (item.quantity + change) cached))
          cart := w.cart.map (fun (i : CartItem) =>
            if i.id = item.id then { i with quantity := item.quantity + change } else i) }
        : World).toast (Toast.success "Quantity updated") := by
  have hlt : ¬ item.quantity + change < 1 := by omega
  simp only [updateQuantity, hfind, if_neg hlt, if_pos hmode, updateQuantityLocal, hcache, hidx]

/-- C11 (as stated) fails in two ways.  With a cache that is not JSON the fallback branch
throws, the `catch` block reloads the cart, and a request is issued (here the cart ends up
empty).  With two items sharing an id, `cart.map` rewrites both: incrementing the first item
also changes the second. -/
theorem updateQuantity_fallback_not_always_local :
    ((sampleItem "p1" "p1" 2).id = (sampleItem "p1" "p1" 2).product_id ∧
      (updateQuantity offline "u1" (sampleItem "p1" "p1" 2).id 1
        { cart := [sampleItem "p1" "p1" 2]
          storage := [("cart_cache_u1", StoreVal.text "<html>")] }).log = [Request.getCart] ∧
      (updateQuantity offline "u1" (sampleItem "p1" "p1" 2).id 1
        { cart := [sampleItem "p1" "p1" 2]
          storage := [("cart_cache_u1", StoreVal.text "<html>")] }).cart = []) ∧
    (updateQuantity offline "u1" (sampleItem "a" "a" 5).id 1
      { cart := [sampleItem "a" "a" 5, sampleItem "a" "a" 1] }).cart
      = [sampleItem "a" "a" 6, sampleItem "a" "a" 6] := by
  decide

/-- C11 (amended): for every item that is the first item of the cart with its id (the item
`cart.find` returns) and has `id = product_id`, and every delta with
`item.quantity + delta >= 1`, if the fallback cache of the user is absent or an array in which
no `null` comes before the first entry of that product id, then `updateQuantity` issues no
request; the cart is the old cart, same length and order, with the quantity of every item of
that id replaced by `item.quantity + delta` and every other item unchanged; and the cache is
written back with the first entry of that product id carrying the new quantity and every other
entry unchanged (the array as it was when no entry has that product id). -/
theorem updateQuantity_fallback_mode (net : Net) (uid : String) (w : World) (item : CartItem)
    (change : Int) (hfind : w.cart.find? (fun i => i.id = item.id) = some item)
    (hmode : item.id = item.product_id) (hq : 1 ≤ item.quantity + change) :
    (∀ entries : List CacheEntry,
      parseCache w.storage (cacheKey uid) = Parsed.array (entries.map some) →
      (∀ c ∈ entries, c.product_id ≠ item.product_id) →
      (updateQuantity net uid item.id change w).log = w.log ∧
      (updateQuantity net uid item.id change w).cart
        = w.cart.map (fun (i : CartItem) =>
            if i.id = item.id then { i with quantity := item.quantity + change } else i) ∧
      (updateQuantity net uid item.id change w).storage.getItem (cacheKey uid)
        = some (StoreVal.array (entries.map some))) ∧
    (∀ (pre : List CacheEntry) (c : CacheEntry) (post : List (Option CacheEntry)),
      parseCache w.storage (cacheKey uid) = Parsed.array (pre.map some ++ some c :: post) →
      c.product_id = item.product_id → (∀ d ∈ pre, d.product_id ≠ item.product_id) →
      (updateQuantity net uid item.id change w).log = w.log ∧
      (updateQuantity net uid item.id change w).cart
        = w.cart.map (fun (i : CartItem) =>
            if i.id = item.id then { i with quantity := item.quantity + change } else i) ∧
      (updateQuantity net uid item.id change w).storage.getItem (cacheKey uid)
        = some (StoreVal.array
            (pre.map some ++ some { c with quantity := some (item.quantity + change) } :: post))) := by
  constructor
  · intro entries hcache hno
    rw [updateQuantity_local_unmatched hfind hmode hq hcache
      (findIndexByProduct_no_match item.product_id entries hno)]
    exact ⟨rfl, rfl, Storage.getItem_setItem_self _ _ _⟩
  · intro pre c post hcache hc hpre
    rw [updateQuantity_local_matched hfind hmode hq hcache
      (findIndexByProduct_first_match item.product_id pre c post hc hpre)]
    refine ⟨rfl, rfl, ?_⟩
    have hset := setQuantityAt_first_match (item.quantity + change) (pre.map some) c post
    rw [List.length_map] at hset
    show (w.storage.setItem (cacheKey uid) _).getItem (cacheKey uid) = _
    rw [Storage.getItem_setItem_self, hset]

/-- Witness of C11: the cart holds `p1` and `p2` from the cache and `p2` goes from 1 to 2. -/
theorem updateQuantity_fallback_mode_witness :
    (updateQuantity offline "u1" (sampleItem "p2" "p2" 1).id 1
      { cart := [sampleItem "p1" "p1" 2, sampleItem "p2" "p2" 1]
        storage := [("cart_cache_u1", StoreVal.array
          [some { product_id := some "p1", quantity := some 2 },
           some { product_id := some "p2", quantity := some 1 }])] }).log = [] ∧
    (updateQuantity offline "u1" (sampleItem "p2" "p2" 1).id 1
      { cart := [sampleItem "p1" "p1" 2, sampleItem "p2" "p2" 1]
        storage := [("cart_cache_u1", StoreVal.array
          [some { product_id := some "p1", quantity := some 2 },
           some { product_id := some "p2", quantity := some 1 }])] }).cart
      = [sampleItem "p1" "p1" 2, sampleItem "p2" "p2" 2] ∧
    (updateQuantity offline "u1" (sampleItem "p2" "p2" 1).id 1
      { cart := [sampleItem "p1" "p1" 2, sampleItem "p2" "p2" 1]
        storage := [("cart_cache_u1", StoreVal.array
          [some { product_id := some "p1", quantity := some 2 },
           some { product_id := some "p2", quantity := some 1 }])] }).storage.getItem
      (cacheKey "u1")
      = some (StoreVal.array
          ([{ product_id := some "p1", quantity := some 2 }].map some ++
            some { product_id := some "p2", quantity := some (1 + 1) } :: [])) :=
  (updateQuantity_fallback_mode offline "u1"
    { cart := [sampleItem "p1" "p1" 2, sampleItem "p2" "p2" 1]
      storage := [("cart_cache_u1", StoreVal.array
        [some { product_id := some "p1", quantity := some 2 },
         some { product_id := some "p2", quantity := some 1 }])] }
    (sampleItem "p2" "p2" 1) 1 (by decide) (by decide) (by decide)).2
    [{ product_id := some "p1", quantity := some 2 }]
    { product_id := some "p2", quantity := some 1 } [] (by decide) (by decide) (by decide)

/-! ### C12 and C13: `updateQuantity` in server mode -/

theorem updateQuantity_server_outcome {net : Net} {uid : String} {w : World} {item : CartItem}
    {change : Int} (hfind : w.cart.find? (fun i => i.id = item.id) = some item)
    (hmode : item.id ≠ item.product_id) (hq : 1 ≤ item.quantity + change) :
    updateQuantity net uid item.id change w =
      match updateQuantityServer net uid item.id item (item.quantity + change) w with
      | Tried.done w1 => w1
      | Tried.thrown error w1 =>
        loadCart net uid (w1.toast (Toast.error (errorMsgOf error "Failed to update quantity"))) := by
  have hlt : ¬ item.quantity + change < 1 := by omega
  simp only [updateQuantity, hfind, if_neg hlt, if_neg hmode]

theorem updateQuantityServer_delete_rejected {net : Net} {uid : String} {w : World}
    {itemId : Option String} {item : CartItem} {q : Int} {e : JsError}
    (hdel : net (w.log ++ [Request.deleteCartItem itemId]) = Response.fail e)
    (hstatus : e.status ≠ some 404) :
    updateQuantityServer net uid itemId item q w =
      Tried.thrown e
        (responseInterceptor e { w with log := w.log ++ [Request.deleteCartItem itemId] }) := by
  have hb : (e.status != some 404) = true := by simp [hstatus]
  simp only [updateQuantityServer, apiCall_fail hdel, hb, if_true]

theorem updateQuantityServer_delete_tolerated {net : Net} {uid : String} {w : World}
    {itemId : Option String} {item : CartItem} {q : Int}
    (hdel : (∃ d, net (w.log ++ [Request.deleteCartItem itemId]) = Response.ok d) ∨
      ∃ e, net (w.log ++ [Request.deleteCartItem itemId]) = Response.fail e ∧
        e.status = some 404) :
    updateQuantityServer net uid itemId item q w =
      match apiCall net (Request.addToCart item.product_id q)
          (apiCall net (Request.deleteCartItem itemId) w).2 with
      | (Response.fail e, w2) => Tried.thrown e w2
      | (Response.ok _, w2) =>
        Tried.done ((loadCart net uid w2).toast (Toast.success "Quantity updated")) := by
  rcases hdel with ⟨d, hd⟩ | ⟨e, he, hstatus⟩
  · simp only [updateQuantityServer, apiCall_ok hd]
  · have hb : (e.status != some 404) = false := by simp [hstatus]
    simp only [updateQuantityServer, apiCall_fail he, hb]
    rfl

theorem updateQuantityServer_added {net : Net} (uid : String) {w : World}
    {itemId : Option String} {item : CartItem} {q : Int} {d : Option Body}
    (hdel : (∃ d, net (w.log ++ [Request.deleteCartItem itemId]) = Response.ok d) ∨
      ∃ e, net (w.log ++ [Request.deleteCartItem itemId]) = Response.fail e ∧
        e.status = some 404)
    (hadd : net (w.log ++ [Request.deleteCartItem itemId, Request.addToCart item.product_id q])
      = Response.ok d) :
    ∃ w2, w2.log = w.log ++ [Request.deleteCartItem itemId, Request.addToCart item.product_id q] ∧
      w2.cart = w.cart ∧
      updateQuantityServer net uid itemId item q w
        = Tried.done ((loadCart net uid w2).toast (Toast.success "Quantity updated")) := by
  have hlog := apiCall_log net (Request.deleteCartItem itemId) w
  have hcart := apiCall_cart net (Request.deleteCartItem itemId) w
  have h : net ((apiCall net (Request.deleteCartItem itemId) w).2.log ++
      [Request.addToCart item.product_id q]) = Response.ok d := by
    rw [hlog, List.append_assoc]
    exact hadd
  rw [updateQuantityServer_delete_tolerated hdel, apiCall_ok h]
  refine ⟨_, ?_, ?_, rfl⟩
  · show (apiCall net (Request.deleteCartItem itemId) w).2.log ++ _ = _
    rw [hlog, List.append_assoc]
    rfl
  · exact hcart

theorem updateQuantityServer_add_rejected {net : Net} (uid : String) {w : World}
    {itemId : Option String} {item : CartItem} {q : Int} {e : JsError}
    (hdel : (∃ d, net (w.log ++ [Request.deleteCartItem itemId]) = Response.ok d) ∨
      ∃ e, net (w.log ++ [Request.deleteCartItem itemId]) = Response.fail e ∧
        e.status = some 404)
    (hadd : net (w.log ++ [Request.deleteCartItem itemId, Request.addToCart item.product_id q])
      = Response.fail e) :
    ∃ w2, w2.log = w.log ++ [Request.deleteCartItem itemId, Request.addToCart item.product_id q] ∧
      w2.cart = w.cart ∧
      updateQuantityServer net uid itemId item q w = Tried.thrown e w2 := by
  have hlog := apiCall_log net (Request.deleteCartItem itemId) w
  have hcart := apiCall_cart net (Request.deleteCartItem itemId) w
  have h : net ((apiCall net (Request.deleteCartItem itemId) w).2.log ++
      [Request.addToCart item.product_id q]) = Response.fail e := by
    rw [hlog, List.append_assoc]
    exact hadd
  rw [updateQuantityServer_delete_tolerated hdel, apiCall_fail h]
  refine ⟨_, ?_, ?_, rfl⟩
  · rw [responseInterceptor_log]
    show (apiCall net (Request.deleteCartItem itemId) w).2.log ++ _ = _
    rw [hlog, List.append_assoc]
    rfl
  · rw [responseInterceptor_cart]
    exact hcart

/-- C12 (as stated) fails in two ways.  When the reload's `GET /products/cart` is rejected
after a successful delete and add, `loadCart` falls back to the cache: a product fetch follows
the three requests and the cart is the cached one.  And with two items sharing an id the mode
is taken from the first: for the second item below, which has `id != product_id`, no request
is issued at all. -/
theorem updateQuantity_server_mode_reload_may_fall_back :
    ((updateQuantity cartDown "u1" (sampleItem "c1" "p1" 2).id 1
        { cart := [sampleItem "c1" "p1" 2]
          storage := [("cart_cache_u1",
            StoreVal.array [some { product_id := some "p1", quantity := some 2 }])] }).log
        = [Request.deleteCartItem (some "c1"), Request.addToCart (some "p1") 3, Request.getCart,
           Request.getProduct (some "p1")] ∧
      (updateQuantity cartDown "u1" (sampleItem "c1" "p1" 2).id 1
        { cart := [sampleItem "c1" "p1" 2]
          storage := [("cart_cache_u1",
            StoreVal.array [some { product_id := some "p1", quantity := some 2 }])] }).cart.map
        (fun i => (i.id, i.quantity)) = [(some "p1", 2)]) ∧
    (sampleItem "a" "b" 1 ∈ [sampleItem "a" "a" 1, sampleItem "a" "b" 1] ∧
      (sampleItem "a" "b" 1).id ≠ (sampleItem "a" "b" 1).product_id ∧
      (updateQuantity stocked "u1" (sampleItem "a" "b" 1).id 1
        { cart := [sampleItem "a" "a" 1, sampleItem "a" "b" 1] }).log = []) := by
  decide

/-- C12 (amended): for every item that is the first item of the cart with its id (the item
`cart.find` returns) and has `id != product_id`, and every delta with
`newQuantity = item.quantity + delta >= 1`: if the delete call succeeds or fails with status
404, the add call succeeds, and the `GET /products/cart` of the reload succeeds with a body
whose mapping does not throw (no `null` in `items`), then the requests issued are, in this
order, the DELETE, the POST `/products/cart/add` with `{product_id: item.product_id,
quantity: newQuantity}` and the GET, and the final cart is the mapping of the GET response. -/
theorem updateQuantity_server_mode_success (net : Net) (uid : String) (w : World)
    (item : CartItem) (change : Int) (data : Option Body) (items : List CartItem)
    (hfind : w.cart.find? (fun i => i.id = item.id) = some item)
    (hmode : item.id ≠ item.product_id) (hq : 1 ≤ item.quantity + change)
    (hdel : (∃ d, net (w.log ++ [Request.deleteCartItem item.id]) = Response.ok d) ∨
      ∃ e, net (w.log ++ [Request.deleteCartItem item.id]) = Response.fail e ∧
        e.status = some 404)
    (hadd : ∃ d, net (w.log ++ [Request.deleteCartItem item.id,
      Request.addToCart item.product_id (item.quantity + change)]) = Response.ok d)
    (hget : net (w.log ++ [Request.deleteCartItem item.id,
      Request.addToCart item.product_id (item.quantity + change), Request.getCart])
      = Response.ok data)
    (hmap : serverCart data = Except.ok items) :
    (updateQuantity net uid item.id change w).log
      = w.log ++ [Request.deleteCartItem item.id,
          Request.addToCart item.product_id (item.quantity + change), Request.getCart] ∧
    (updateQuantity net uid item.id change w).cart = items := by
  obtain ⟨d, hd⟩ := hadd
  obtain ⟨w2, hlog, _, hrun⟩ := updateQuantityServer_added uid hdel hd
  have hresp : net (w2.log ++ [Request.getCart]) = Response.ok data := by
    rw [hlog, List.append_assoc]
    exact hget
  rw [updateQuantity_server_outcome hfind hmode hq, hrun]
  show ((loadCart net uid w2).toast _).log = _ ∧ ((loadCart net uid w2).toast _).cart = _
  rw [loadCart_synced hresp hmap]
  refine ⟨?_, rfl⟩
  show w2.log ++ [Request.getCart] = _
  rw [hlog, List.append_assoc]
  rfl

/-- Witness of C12: one server item goes from 2 to 3 on a server that accepts everything. -/
theorem updateQuantity_server_mode_success_witness :
    (updateQuantity stocked "u1" (sampleItem "c1" "p1" 2).id 1
      { cart := [sampleItem "c1" "p1" 2] }).log
      = [] ++ [Request.deleteCartItem (sampleItem "c1" "p1" 2).id,
          Request.addToCart (sampleItem "c1" "p1" 2).product_id
            ((sampleItem "c1" "p1" 2).quantity + 1), Request.getCart] ∧
    (updateQuantity stocked "u1" (sampleItem "c1" "p1" 2).id 1
      { cart := [sampleItem "c1" "p1" 2] }).cart
      = [{ id := some "c1", product_id := some "p1", title := "Lamp", category := "",
           image := "", price := 30, quantity := 2 }] :=
  updateQuantity_server_mode_success stocked "u1" { cart := [sampleItem "c1" "p1" 2] }
    (sampleItem "c1" "p1" 2) 1 _ _ (by decide) (by decide) (by decide)
    (Or.inl ⟨_, rfl⟩) ⟨_, rfl⟩ rfl rfl

/-- C13: in server mode (the item `cart.find` returns has `id != product_id`, and the new
quantity is at least 1) a failing update ends with a reload.  If the delete call is rejected
with a status other than 404 (or without a response), the handler returns the state
`loadCart` produces from a state in which only the DELETE has been issued and the cart is the
old one: the requests are the DELETE, the reload's GET and product fetches of the reload, and
no add.  If the delete is tolerated and the add call is rejected, it returns the state
`loadCart` produces after the DELETE and the POST. -/
theorem updateQuantity_server_mode_failure (net : Net) (uid : String) (w : World)
    (item : CartItem) (change : Int)
    (hfind : w.cart.find? (fun i => i.id = item.id) = some item)
    (hmode : item.id ≠ item.product_id) (hq : 1 ≤ item.quantity + change) :
    (∀ e, net (w.log ++ [Request.deleteCartItem item.id]) = Response.fail e →
      e.status ≠ some 404 →
      ∃ w1 fetches,
        updateQuantity net uid item.id change w = loadCart net uid w1 ∧
        w1.cart = w.cart ∧ w1.log = w.log ++ [Request.deleteCartItem item.id] ∧
        (updateQuantity net uid item.id change w).log
          = w.log ++ Request.deleteCartItem item.id :: Request.getCart :: fetches ∧
        ∀ r ∈ fetches, r.isProductFetch = true) ∧
    (∀ e,
      ((∃ d, net (w.log ++ [Request.deleteCartItem item.id]) = Response.ok d) ∨
        ∃ e1, net (w.log ++ [Request.deleteCartItem item.id]) = Response.fail e1 ∧
          e1.status = some 404) →
      net (w.log ++ [Request.deleteCartItem item.id,
        Request.addToCart item.product_id (item.quantity + change)]) = Response.fail e →
      ∃ w1 fetches,
        updateQuantity net uid item.id change w = loadCart net uid w1 ∧
        w1.cart = w.cart ∧
        w1.log = w.log ++ [Request.deleteCartItem item.id,
          Request.addToCart item.product_id (item.quantity + change)] ∧
        (updateQuantity net uid item.id change w).log
          = w.log ++ Request.deleteCartItem item.id ::
              Request.addToCart item.product_id (item.quantity + change) ::
              Request.getCart :: fetches ∧
        ∀ r ∈ fetches, r.isProductFetch = true) := by
  constructor
  · intro e hdel hstatus
    rw [updateQuantity_server_outcome hfind hmode hq,
      updateQuantityServer_delete_rejected hdel hstatus]
    obtain ⟨fetches, hlog, hall⟩ := loadCart_log net uid
      ((responseInterceptor e { w with log := w.log ++ [Request.deleteCartItem item.id] }).toast
        (Toast.error (errorMsgOf e "Failed to update quantity")))
    refine ⟨_, fetches, rfl, ?_, ?_, ?_, hall⟩
    · show (responseInterceptor e _).cart = _
      rw [responseInterceptor_cart]
    · show (responseInterceptor e _).log = _
      rw [responseInterceptor_log]
    · show (loadCart net uid _).log = _
      rw [hlog]
      show (responseInterceptor e _).log ++ _ = _
      rw [responseInterceptor_log]
      simp
  · intro e hdel hadd
    obtain ⟨w2, hlog2, hcart2, hrun⟩ := updateQuantityServer_add_rejected uid hdel hadd
    rw [updateQuantity_server_outcome hfind hmode hq, hrun]
    obtain ⟨fetches, hlog, hall⟩ := loadCart_log net uid
      (w2.toast (Toast.error (errorMsgOf e "Failed to update quantity")))
    refine ⟨_, fetches, rfl, hcart2, hlog2, ?_, hall⟩
    show (loadCart net uid _).log = _
    rw [hlog]
    show w2.log ++ _ = _
    rw [hlog2]
    simp

/-- Witness of C13: the server is unreachable, so the delete is rejected without a status. -/
theorem updateQuantity_server_mode_failure_witness :
    ∃ w1 fetches,
      updateQuantity offline "u1" (sampleItem "c1" "p1" 2).id 1
        { cart := [sampleItem "c1" "p1" 2] } = loadCart offline "u1" w1 ∧
      w1.cart = [sampleItem "c1" "p1" 2] ∧
      w1.log = [] ++ [Request.deleteCartItem (sampleItem "c1" "p1" 2).id] ∧
      (updateQuantity offline "u1" (sampleItem "c1" "p1" 2).id 1
        { cart := [sampleItem "c1" "p1" 2] }).log
        = [] ++ Request.deleteCartItem (sampleItem "c1" "p1" 2).id :: Request.getCart :: fetches ∧
      ∀ r ∈ fetches, r.isProductFetch = true :=
  (updateQuantity_server_mode_failure offline "u1" { cart := [sampleItem "c1" "p1" 2] }
    (sampleItem "c1" "p1" 2) 1 (by decide) (by decide) (by decide)).1
    { message := "Network Error" } rfl (by decide)

/-! ### C14 and C15: `removeItem` in fallback mode, and the mode of a server item -/

theorem removeItem_local_done {net : Net} {uid : String} {w : World} {item : CartItem}
    {cached next : List (Option CacheEntry)}
    (hfind : w.cart.find? (fun i => i.id = item.id) = some item)
    (hmode : item.id = item.product_id)
    (hcache : parseCache w.storage (cacheKey uid) = Parsed.array cached)
    (hfilter : filterOutProduct item.product_id cached = Except.ok next) :
    removeItem net uid item.id w =
      ({ w with
          storage := w.storage.setItem (cacheKey uid) (StoreVal.array next)
          cart := w.cart.filter (fun (i : CartItem) => i.id != item.id) }
        : World).toast (Toast.success "Item removed from cart") := by
  simp only [removeItem, hfind, if_pos hmode, removeItemLocal, hcache, hfilter]

/-- C14 (as stated) fails in two ways.  With a cache that is not JSON, or that holds a
`null`, the fallback branch throws and the `catch` block reloads the cart, so a request is
issued.  With two items sharing an id the mode is taken from the first: the second item below
has `id = product_id`, yet a DELETE is issued. -/
theorem removeItem_fallback_not_always_local :
    ((sampleItem "p1" "p1" 2).id = (sampleItem "p1" "p1" 2).product_id ∧
      (removeItem offline "u1" (sampleItem "p1" "p1" 2).id
        { cart := [sampleItem "p1" "p1" 2]
          storage := [("cart_cache_u1", StoreVal.text "<html>")] }).log = [Request.getCart] ∧
      (removeItem offline "u1" (sampleItem "p1" "p1" 2).id
        { cart := [sampleItem "p1" "p1" 2]
          storage := [("cart_cache_u1", StoreVal.array
            [none, some { product_id := some "p1", quantity := some 2 }])] }).log
        = [Request.getCart, Request.getProduct (some "p1")]) ∧
    (sampleItem "a" "a" 1 ∈ [sampleItem "a" "b" 1, sampleItem "a" "a" 1] ∧
      (sampleItem "a" "a" 1).id = (sampleItem "a" "a" 1).product_id ∧
      (removeItem offline "u1" (sampleItem "a" "a" 1).id
        { cart := [sampleItem "a" "b" 1, sampleItem "a" "a" 1] }).log
        = [Request.deleteCartItem (some "a"), Request.getCart]) := by
  decide

/-- C14 (amended): for every item that is the first item of the cart with its id (the item
`cart.find` returns) and has `id = product_id`, if the fallback cache of the user is absent or
an array without `null` elements, then `removeItem(item.id)` issues no request; the cache
becomes the old array with exactly the entries of that product id removed (others unchanged,
order kept); the cart becomes the old cart with exactly the items of that id removed (others
unchanged, order kept), and no item with that id remains in it. -/
theorem removeItem_fallback_mode (net : Net) (uid : String) (w : World) (item : CartItem)
    (entries : List CacheEntry)
    (hfind : w.cart.find? (fun i => i.id = item.id) = some item)
    (hmode : item.id = item.product_id)
    (hcache : parseCache w.storage (cacheKey uid) = Parsed.array (entries.map some)) :
    (removeItem net uid item.id w).log = w.log ∧
    (removeItem net uid item.id w).storage.getItem (cacheKey uid)
      = some (StoreVal.array
          ((entries.filter (fun c => c.product_id != item.product_id)).map some)) ∧
    (removeItem net uid item.id w).cart
      = w.cart.filter (fun (i : CartItem) => i.id != item.id) ∧
    ∀ i ∈ (removeItem net uid item.id w).cart, i.id ≠ item.id := by
  rw [removeItem_local_done hfind hmode hcache
    (filterOutProduct_of_no_null item.product_id entries)]
  refine ⟨rfl, Storage.getItem_setItem_self _ _ _, rfl, ?_⟩
  intro i hi
  have h : i ∈ w.cart.filter (fun (i : CartItem) => i.id != item.id) := hi
  simpa using (List.mem_filter.mp h).2

/-- Witness of C14: the cart and the cache hold `p1` and `p2`, and `p1` is removed. -/
theorem removeItem_fallback_mode_witness :
    (removeItem offline "u1" (sampleItem "p1" "p1" 2).id
      { cart := [sampleItem "p1" "p1" 2, sampleItem "p2" "p2" 1]
        storage := [("cart_cache_u1", StoreVal.array
          ([{ product_id := some "p1", quantity := some 2 },
            { product_id := some "p2", quantity := some 1 }].map some))] }).log = [] ∧
    (removeItem offline "u1" (sampleItem "p1" "p1" 2).id
      { cart := [sampleItem "p1" "p1" 2, sampleItem "p2" "p2" 1]
        storage := [("cart_cache_u1", StoreVal.array
          ([{ product_id := some "p1", quantity := some 2 },
            { product_id := some "p2", quantity := some 1 }].map some))] }).cart
      = [sampleItem "p2" "p2" 1] :=
  ⟨(removeItem_fallback_mode offline "u1"
      { cart := [sampleItem "p1" "p1" 2, sampleItem "p2" "p2" 1]
        storage := [("cart_cache_u1", StoreVal.array
          ([{ product_id := some "p1", quantity := some 2 },
            { product_id := some "p2", quantity := some 1 }].map some))] }
      (sampleItem "p1" "p1" 2)
      [{ product_id := some "p1", quantity := some 2 },
       { product_id := some "p2", quantity := some 1 }]
      (by decide) (by decide) (by decide)).1,
    by decide⟩

theorem parseCache_removeItem_self (st : Storage) (key : String) :
    parseCache (st.removeItem key) key = Parsed.array [] := by
  simp only [parseCache, Storage.getItem_removeItem_self]

/-- C15 (as stated) fails when the server returns two entries sharing an id: the mode is
taken from the first entry with that id.  The second entry below has its id equal to its
product id, yet `removeItem` on it issues a DELETE (and reloads). -/
theorem server_item_shared_id_runs_in_server_mode :
    (loadCart sharedIds "u1" {}).cart.map (fun i => (i.id, i.product_id))
      = [(some "a", some "b"), (some "a", some "a")] ∧
    (removeItem sharedIds "u1" (some "a") (loadCart sharedIds "u1" {})).log
      = [Request.getCart, Request.deleteCartItem (some "a"), Request.getCart] := by
  decide

/-- C15 (amended): the mode depends only on `item.id = item.product_id`.  After a successful
server load (the request succeeds and the mapping does not throw), for an entry of the
loaded cart that is the first with its id and whose id equals its product id, `removeItem`
and `updateQuantity` (with a new quantity of at least 1) issue no request at all, so no DELETE
and no POST reaches the server, while the cart changes: the items of that id are removed,
respectively get the new quantity. -/
theorem server_item_with_product_id_runs_locally (net : Net) (uid : String) (w : World)
    (data : Option Body) (items : List CartItem) (item : CartItem)
    (hresp : net (w.log ++ [Request.getCart]) = Response.ok data)
    (hmap : serverCart data = Except.ok items)
    (hfind : items.find? (fun i => i.id = item.id) = some item)
    (hmode : item.id = item.product_id) :
    (loadCart net uid w).cart = items ∧
    (removeItem net uid item.id (loadCart net uid w)).log = w.log ++ [Request.getCart] ∧
    (removeItem net uid item.id (loadCart net uid w)).cart
      = items.filter (fun (i : CartItem) => i.id != item.id) ∧
    ∀ change : Int, 1 ≤ item.quantity + change →
      (updateQuantity net uid item.id change (loadCart net uid w)).log
        = w.log ++ [Request.getCart] ∧
      (updateQuantity net uid item.id change (loadCart net uid w)).cart
        = items.map (fun (i : CartItem) =>
            if i.id = item.id then { i with quantity := item.quantity + change } else i) := by
  rw [loadCart_synced hresp hmap]
  have hcache : parseCache (w.storage.removeItem (cacheKey uid)) (cacheKey uid)
      = Parsed.array [] := parseCache_removeItem_self _ _
  have hfilter : filterOutProduct item.product_id [] = Except.ok [] := rfl
  have hsearch : findIndexByProduct item.product_id [] = Except.ok none := rfl
  refine ⟨rfl, ?_, ?_, ?_⟩
  · rw [removeItem_local_done hfind hmode hcache hfilter]
    rfl
  · rw [removeItem_local_done hfind hmode hcache hfilter]
    rfl
  · intro change hq
    rw [updateQuantity_local_unmatched hfind hmode hq hcache hsearch]
    exact ⟨rfl, rfl⟩

/-- Witness of C15: the server returns one entry whose id `p1` is the id of its product. -/
theorem server_item_with_product_id_runs_locally_witness :
    (removeItem idIsProductId "u1" (some "p1") (loadCart idIsProductId "u1" {})).log
      = [] ++ [Request.getCart] ∧
    (removeItem idIsProductId "u1" (some "p1") (loadCart idIsProductId "u1" {})).cart = [] :=
  ⟨(server_item_with_product_id_runs_locally idIsProductId "u1" {} _
      [{ id := some "p1", product_id := some "p1", title := "Lamp", category := "",
         image := "", price := 0, quantity := 2 }]
      { id := some "p1", product_id := some "p1", title := "Lamp", category := "",
        image := "", price := 0, quantity := 2 } rfl rfl (by decide) (by decide)).2.1,
    by decide⟩

/-! ### C16: the mapping of a successful server load -/

theorem mapServerItems_of_all_present (l : List ServerItem) :
    mapServerItems (l.map some) = Except.ok (l.map mapServerItem) := by
  induction l with
  | nil => rfl
  | cons i rest ih => simp only [List.map_cons, mapServerItems, ih]

theorem mapServerItem_fields (l : List ServerItem) :
    List.Forall₂ (fun (c : CartItem) (i : ServerItem) =>
        c.id = i.id ∧
        c.product_id = jsOr (i.product.bind (fun p => p.id)) i.product_id ∧
        c.title = orDefault (i.product.bind (fun p => p.title)) "Product" ∧
        c.category = orDefault (i.product.bind (fun p => p.category)) "" ∧
        c.image = orDefault ((i.product.bind (fun p => p.images)).bind List.head?) "" ∧
        c.price = (i.product.bind (fun p => p.price)).getD 0 ∧
        c.quantity = i.quantity.getD 1)
      (l.map mapServerItem) l := by
  induction l with
  | nil => exact List.Forall₂.nil
  | cons i rest ih => exact List.Forall₂.cons ⟨rfl, rfl, rfl, rfl, rfl, rfl, rfl⟩ ih

/-- C16 (as stated) fails when `response.items` is a list that contains `null`: the mapping
throws, the `catch` block runs, and the cart is rebuilt from the cache (here the cache is
absent and the cart is empty although `items` has one element). -/
theorem loadCart_null_entry_is_not_mapped :
    nullEntry ([] ++ [Request.getCart]) = Response.ok (some { items := some [none] }) ∧
    (loadCart nullEntry "u1" { cart := [sampleItem "c9" "p9" 1] }).cart = [] ∧
    (loadCart nullEntry "u1" { cart := [sampleItem "c9" "p9" 1] }).toasts.length = 1 := by
  decide

/-- C16 (amended): when the `GET /products/cart` of `loadCart` succeeds, the cart is replaced
by the mapping of the response, whatever it was before.  If `response.items` is a list
without `null` elements, the cart has the same length and order and item `k` has
`id = items[k].id`, `product_id` the nested product id when that is non-empty and the entry's
`product_id` otherwise, title, category and first image of the nested product with defaults
`"Product"`, `""`, `""` for an absent or empty value, price of the nested product with default
0 when absent, and `quantity = items[k].quantity` with default 1 when absent.  If
`response.items` is not a list, the cart is empty. -/
theorem loadCart_maps_server_items (net : Net) (uid : String) (w : World) (data : Option Body)
    (hresp : net (w.log ++ [Request.getCart]) = Response.ok data) :
    (∀ l : List ServerItem, data.bind (fun b => b.items) = some (l.map some) →
      (loadCart net uid w).cart.length = l.length ∧
      List.Forall₂ (fun (c : CartItem) (i : ServerItem) =>
          c.id = i.id ∧
          c.product_id = jsOr (i.product.bind (fun p => p.id)) i.product_id ∧
          c.title = orDefault (i.product.bind (fun p => p.title)) "Product" ∧
          c.category = orDefault (i.product.bind (fun p => p.category)) "" ∧
          c.image = orDefault ((i.product.bind (fun p => p.images)).bind List.head?) "" ∧
          c.price = (i.product.bind (fun p => p.price)).getD 0 ∧
          c.quantity = i.quantity.getD 1)
        (loadCart net uid w).cart l) ∧
    (data.bind (fun b => b.items) = none → (loadCart net uid w).cart = []) := by
  constructor
  · intro l hl
    have hmap : serverCart data = Except.ok (l.map mapServerItem) := by
      simp only [serverCart, hl, mapServerItems_of_all_present]
    rw [loadCart_synced hresp hmap]
    exact ⟨List.length_map _ _, mapServerItem_fields l⟩
  · intro hnone
    have hmap : serverCart data = Except.ok [] := by
      simp only [serverCart, hnone]
    rw [loadCart_synced hresp hmap]

/-- Witness of C16: the server returns one entry with a nested product. -/
theorem loadCart_maps_server_items_witness :
    (loadCart stocked "u1" { cart := [sampleItem "c9" "p9" 1] }).cart
      = [{ id := some "c1", product_id := some "p1", title := "Lamp", category := "",
           image := "", price := 30, quantity := 2 }] ∧
    (loadCart stocked "u1" { cart := [sampleItem "c9" "p9" 1] }).cart.length
      = [({ id := some "c1"
            product := some { id := some "p1", title := some "Lamp", price := some 30 }
            quantity := some 2 } : ServerItem)].length :=
  ⟨by decide,
    ((loadCart_maps_server_items stocked "u1" { cart := [sampleItem "c9" "p9" 1] } _ rfl).1
      [{ id := some "c1"
         product := some { id := some "p1", title := some "Lamp", price := some 30 }
         quantity := some 2 }] rfl).1⟩

/-! ### C17: the handlers always complete -/

theorem loadCart_loading (net : Net) (uid : String) (w : World) :
    (loadCart net uid w).loading = false := by
  unfold loadCart
  rfl

theorem handleCheckout_processing (net : Net) (w : World) (hcart : w.cart ≠ []) :
    (handleCheckout net w).processing = false := by
  have hlen : ¬ w.cart.length = 0 := fun h => hcart (List.length_eq_zero.mp h)
  unfold handleCheckout
  rw [if_neg hlen]
  rfl

theorem loadCartCatch_done (net : Net) (uid : String) (error : JsError) (w : World) :
    loadCartCatch net uid error w = Tried.done (loadCartFallback net uid error w) := by
  unfold loadCartCatch rebuildFromCache loadCartFallback
  cases hp : parseCache w.storage (cacheKey uid) with
  | throws => rfl
  | nonArray => rfl
  | array entries =>
    cases entries with
    | nil => rfl
    | cons c cs => rfl

theorem loadCartRun_done (net : Net) (uid : String) (w : World) :
    loadCartRun net uid w = Tried.done (loadCart net uid w) := by
  unfold loadCartRun loadCartTry loadCart
  dsimp only
  generalize apiCall net Request.getCart (w.setLoading true) = res
  obtain ⟨resp, w1⟩ := res
  cases resp with
  | ok data =>
    dsimp only
    cases hmap : serverCart data with
    | ok items => rfl
    | error e =>
      dsimp only [Tried.catching]
      rw [loadCartCatch_done]
      rfl
  | fail e =>
    dsimp only [Tried.catching]
    rw [loadCartCatch_done]
    rfl

theorem updateQuantityServerRun_eq (net : Net) (uid : String) (itemId : Option String)
    (item : CartItem) (newQuantity : Int) (w : World) :
    updateQuantityServerRun net uid itemId item newQuantity w
      = updateQuantityServer net uid itemId item newQuantity w := by
  have hadd : ∀ w1 : World,
      (awaitRequest net (Request.addToCart item.product_id newQuantity) w1).andThen
        (fun w2 => (loadCartRun net uid w2).andThen
          (fun w3 => Tried.done (w3.toast (Toast.success "Quantity updated"))))
      = (match apiCall net (Request.addToCart item.product_id newQuantity) w1 with
        | (Response.fail e, w2) => Tried.thrown e w2
        | (Response.ok _, w2) =>
          Tried.done ((loadCart net uid w2).toast (Toast.success "Quantity updated"))) := by
    intro w1
    unfold awaitRequest
    generalize apiCall net (Request.addToCart item.product_id newQuantity) w1 = res
    obtain ⟨resp, w2⟩ := res
    cases resp with
    | ok d =>
      dsimp only [Tried.andThen]
      rw [loadCartRun_done]
    | fail e => rfl
  unfold updateQuantityServerRun updateQuantityServer
  dsimp only
  unfold awaitRequest
  generalize apiCall net (Request.deleteCartItem itemId) w = res
  obtain ⟨resp, w1⟩ := res
  cases resp with
  | ok d =>
    dsimp only [Tried.catching, Tried.andThen]
    exact hadd w1
  | fail e =>
    dsimp only [Tried.catching]
    by_cases hstatus : (e.status != some 404) = true
    · rw [if_pos hstatus, if_pos hstatus]
      rfl
    · rw [if_neg hstatus, if_neg hstatus]
      dsimp only [Tried.andThen]
      exact hadd w1

theorem removeItemServerRun_eq (net : Net) (uid : String) (itemId : Option String)
    (w : World) :
    removeItemServerRun net uid itemId w = removeItemServer net uid itemId w := by
  unfold removeItemServerRun removeItemServer awaitRequest
  generalize apiCall net (Request.deleteCartItem itemId) w = res
  obtain ⟨resp, w1⟩ := res
  cases resp with
  | ok d =>
    dsimp only [Tried.andThen]
    rw [loadCartRun_done]
  | fail e => rfl

theorem updateQuantityRun_done (net : Net) (uid : String) (itemId : Option String)
    (change : Int) (w : World) :
    updateQuantityRun net uid itemId change w
      = Tried.done (updateQuantity net uid itemId change w) := by
  unfold updateQuantityRun updateQuantity
  cases w.cart.find? (fun i => i.id = itemId) with
  | none => rfl
  | some item =>
    dsimp only
    split
    · rfl
    · rw [updateQuantityServerRun_eq]
      generalize (if item.id = item.product_id
          then updateQuantityLocal uid itemId item (item.quantity + change) w
          else updateQuantityServer net uid itemId item (item.quantity + change) w) = r
      cases r with
      | done w1 => rfl
      | thrown e w1 =>
        dsimp only [Tried.catching]
        rw [loadCartRun_done]

theorem removeItemRun_done (net : Net) (uid : String) (itemId : Option String) (w : World) :
    removeItemRun net uid itemId w = Tried.done (removeItem net uid itemId w) := by
  unfold removeItemRun removeItem
  cases w.cart.find? (fun i => i.id = itemId) with
  | none => rfl
  | some item =>
    dsimp only
    rw [removeItemServerRun_eq]
    generalize (if item.id = item.product_id then removeItemLocal uid itemId item w
        else removeItemServer net uid itemId w) = r
    cases r with
    | done w1 => rfl
    | thrown e w1 =>
      dsimp only [Tried.catching]
      rw [loadCartRun_done]

theorem handleCheckoutRun_done (net : Net) (w : World) :
    handleCheckoutRun net w = Tried.done (handleCheckout net w) := by
  unfold handleCheckoutRun handleCheckout handleCheckoutTry
  split
  · rfl
  · dsimp only
    generalize apiCall net (Request.createSession
      (w.cart.map (fun (item : CartItem) => (item.product_id, item.quantity))) "product")
      (w.setProcessing true) = res
    obtain ⟨resp, w1⟩ := res
    cases resp with
    | ok data =>
      dsimp only
      cases jsOr (data.bind (fun d => d.url)) (data.bind (fun d => d.checkout_url)) with
      | none => rfl
      | some target =>
        dsimp only
        split <;> rfl
    | fail e => rfl

/-- C17: for every network, every content of local storage and every argument, each of
`loadCart`, `updateQuantity`, `removeItem` and `handleCheckout`, run with the exceptions its
statements can throw (a rejected request, `JSON.parse` of the cache, an array method on a
cache that is not an array, a property read on `null`, the missing checkout URL), ends
normally: no exception leaves the handler, and the state it ends in is the one the handler
function gives.  `loadCart` ends with `loading = false` and `handleCheckout` on a non-empty
cart with `processing = false`. -/
theorem handlers_always_complete (net : Net) (uid : String) (w : World) :
    (∃ w1, loadCartRun net uid w = Tried.done w1 ∧ w1 = loadCart net uid w ∧
      w1.loading = false) ∧
    (∀ (itemId : Option String) (change : Int),
      ∃ w1, updateQuantityRun net uid itemId change w = Tried.done w1 ∧
        w1 = updateQuantity net uid itemId change w) ∧
    (∀ itemId : Option String,
      ∃ w1, removeItemRun net uid itemId w = Tried.done w1 ∧
        w1 = removeItem net uid itemId w) ∧
    (∃ w1, handleCheckoutRun net w = Tried.done w1 ∧ w1 = handleCheckout net w ∧
      (w.cart ≠ [] → w1.processing = false)) :=
  ⟨⟨_, loadCartRun_done net uid w, rfl, loadCart_loading net uid w⟩,
    fun itemId change => ⟨_, updateQuantityRun_done net uid itemId change w, rfl⟩,
    fun itemId => ⟨_, removeItemRun_done net uid itemId w, rfl⟩,
    ⟨_, handleCheckoutRun_done net w, rfl, handleCheckout_processing net w⟩⟩

/-- Witness of C17: the server is unreachable and the cache is not JSON; the exception of
`JSON.parse` in the fallback branch of `updateQuantity` is caught, the reload's own
exceptions are caught, and the handler ends normally with an empty cart and two toasts. -/
theorem handlers_always_complete_witness :
    (updateQuantityLocal "u1" (some "p1") (sampleItem "p1" "p1" 2) 3
        { cart := [sampleItem "p1" "p1" 2], loading := false
          storage := [("cart_cache_u1", StoreVal.text "<html>")] }
      = Tried.thrown jsonSyntaxError
        { cart := [sampleItem "p1" "p1" 2], loading := false
          storage := [("cart_cache_u1", StoreVal.text "<html>")] }) ∧
    updateQuantityRun offline "u1" (some "p1") 1
        { cart := [sampleItem "p1" "p1" 2], loading := false
          storage := [("cart_cache_u1", StoreVal.text "<html>")] }
      = Tried.done
        { cart := [], loading := false
          storage := [("cart_cache_u1", StoreVal.text "<html>")]
          log := [Request.getCart]
          toasts := [Toast.error (ErrMsg.text "Unexpected token in JSON"),
            Toast.error (ErrMsg.text "Network Error")] } ∧
    ∃ w1, handleCheckoutRun offline
        { cart := [sampleItem "p1" "p1" 2]
          storage := [("cart_cache_u1", StoreVal.text "<html>")] } = Tried.done w1 ∧
      w1.processing = false :=
  ⟨by decide, by decide,
    match (handlers_always_complete offline "u1"
        { cart := [sampleItem "p1" "p1" 2]
          storage := [("cart_cache_u1", StoreVal.text "<html>")] }).2.2.2 with
    | ⟨w1, hrun, _, hflag⟩ => ⟨w1, hrun, hflag (by decide)⟩⟩

/-! ### C20: the fallback path without a usable cache -/

theorem loadCartFallback_without_entries {net : Net} {uid : String} {error : JsError}
    {w : World}
    (h : parseCache w.storage (cacheKey uid) = Parsed.array [] ∨
      parseCache w.storage (cacheKey uid) = Parsed.nonArray ∨
      parseCache w.storage (cacheKey uid) = Parsed.throws) :
    loadCartFallback net uid error w =
      { w with
        toasts := w.toasts ++ [Toast.error (errorMsgOf error "Failed to load cart")]
        cart := [] } := by
  rcases h with h | h | h <;> simp only [loadCartFallback, h] <;> rfl

/-- C20: when the cart request is rejected and the fallback cache of the user is absent, the
empty array, JSON that is not an array, or a string that is not JSON, then after `loadCart`
the cart is empty, the only request issued is the cart request (no product fetch), one error
toast with the message of the failure is shown, and `loading = false`. -/
theorem loadCart_without_usable_cache (net : Net) (uid : String) (w : World) (e : JsError)
    (hresp : net (w.log ++ [Request.getCart]) = Response.fail e)
    (hcache : w.storage.getItem (cacheKey uid) = none ∨
      w.storage.getItem (cacheKey uid) = some (StoreVal.array []) ∨
      w.storage.getItem (cacheKey uid) = some StoreVal.nonArray ∨
      ∃ s, w.storage.getItem (cacheKey uid) = some (StoreVal.text s)) :
    (loadCart net uid w).cart = [] ∧
    (loadCart net uid w).log = w.log ++ [Request.getCart] ∧
    (loadCart net uid w).toasts
      = w.toasts ++ [Toast.error (errorMsgOf e "Failed to load cart")] ∧
    (loadCart net uid w).loading = false := by
  have hparse : parseCache (responseInterceptor e
        { w with loading := true, log := w.log ++ [Request.getCart] }).storage (cacheKey uid)
        = Parsed.array [] ∨
      parseCache (responseInterceptor e
        { w with loading := true, log := w.log ++ [Request.getCart] }).storage (cacheKey uid)
        = Parsed.nonArray ∨
      parseCache (responseInterceptor e
        { w with loading := true, log := w.log ++ [Request.getCart] }).storage (cacheKey uid)
        = Parsed.throws := by
    have hget := responseInterceptor_getItem_cache e
      { w with loading := true, log := w.log ++ [Request.getCart] } uid
    have hget1 : (responseInterceptor e
        { w with loading := true, log := w.log ++ [Request.getCart] }).storage.getItem
        (cacheKey uid) = w.storage.getItem (cacheKey uid) := hget
    unfold parseCache
    rw [hget1]
    rcases hcache with h | h | h | ⟨s, h⟩
    · rw [h]
      exact Or.inl rfl
    · rw [h]
      exact Or.inl rfl
    · rw [h]
      exact Or.inr (Or.inl rfl)
    · rw [h]
      by_cases hs : s = ""
      · simp [hs]
      · simp [hs]
  rw [loadCart_rejected hresp, loadCartFallback_without_entries hparse]
  refine ⟨rfl, ?_, ?_, rfl⟩
  · show (responseInterceptor e _).log = _
    rw [responseInterceptor_log]
  · show (responseInterceptor e _).toasts ++ _ = _
    rw [responseInterceptor_toasts]

/-- Witness of C20: the server is unreachable and the cache is not JSON. -/
theorem loadCart_without_usable_cache_witness :
    (loadCart offline "u1"
      { storage := [("cart_cache_u1", StoreVal.text "<html>")] }).cart = [] ∧
    (loadCart offline "u1"
      { storage := [("cart_cache_u1", StoreVal.text "<html>")] }).log
      = [] ++ [Request.getCart] :=
  ⟨(loadCart_without_usable_cache offline "u1"
      { storage := [("cart_cache_u1", StoreVal.text "<html>")] }
      { message := "Network Error" } rfl
      (Or.inr (Or.inr (Or.inr ⟨"<html>", by decide⟩)))).1,
    (loadCart_without_usable_cache offline "u1"
      { storage := [("cart_cache_u1", StoreVal.text "<html>")] }
      { message := "Network Error" } rfl
      (Or.inr (Or.inr (Or.inr ⟨"<html>", by decide⟩)))).2.1⟩

/-! ### C18: the keys of local storage an operation leaves alone -/

theorem cacheKey_injective {u v : String} (h : cacheKey u = cacheKey v) : u = v := by
  unfold cacheKey at h
  have hdata := congrArg String.data h
  simp only [String.data_append] at hdata
  exact String.ext (List.append_cancel_left hdata)

theorem responseInterceptor_getItem_other (e : JsError) (w : World) {key : String}
    (hk1 : "token" ≠ key) (hk2 : "user" ≠ key) :
    (responseInterceptor e w).storage.getItem key = w.storage.getItem key := by
  unfold responseInterceptor
  split
  · show ((w.storage.removeItem "token").removeItem "user").getItem key = _
    rw [Storage.getItem_removeItem_ne _ hk2, Storage.getItem_removeItem_ne _ hk1]
  · rfl

theorem apiCall_getItem_other (net : Net) (r : Request) (w : World) {key : String}
    (hk1 : "token" ≠ key) (hk2 : "user" ≠ key) :
    (apiCall net r w).2.storage.getItem key = w.storage.getItem key := by
  cases h : net (w.log ++ [r]) with
  | ok d => rw [apiCall_ok h]
  | fail e =>
    rw [apiCall_fail h]
    exact responseInterceptor_getItem_other e _ hk1 hk2

theorem fetchAllCached_getItem_other (net : Net) {key : String}
    (hk1 : "token" ≠ key) (hk2 : "user" ≠ key) :
    ∀ (entries : List (Option CacheEntry)) (w : World),
      (fetchAllCached net entries w).2.storage.getItem key = w.storage.getItem key := by
  intro entries
  induction entries with
  | nil => intro w; rfl
  | cons c rest ih =>
    intro w
    simp only [fetchAllCached]
    rw [ih]
    cases c with
    | none => rfl
    | some c =>
      have h := apiCall_getItem_other net (Request.getProduct c.product_id) w hk1 hk2
      simp only [fetchCached]
      generalize apiCall net (Request.getProduct c.product_id) w = res at h
      obtain ⟨resp, w1⟩ := res
      cases resp <;> exact h

theorem loadCartFallback_getItem_other (net : Net) (uid : String) (error : JsError)
    (w : World) {key : String} (hk1 : "token" ≠ key) (hk2 : "user" ≠ key) :
    (loadCartFallback net uid error w).storage.getItem key = w.storage.getItem key := by
  unfold loadCartFallback
  cases hp : parseCache w.storage (cacheKey uid) with
  | throws => rfl
  | nonArray => rfl
  | array entries =>
    cases entries with
    | nil => rfl
    | cons c cs => exact fetchAllCached_getItem_other net hk1 hk2 (c :: cs) w

theorem loadCart_getItem_other (net : Net) (uid : String) (w : World) {key : String}
    (hk1 : "token" ≠ key) (hk2 : "user" ≠ key) (hk3 : cacheKey uid ≠ key) :
    (loadCart net uid w).storage.getItem key = w.storage.getItem key := by
  cases hresp : net (w.log ++ [Request.getCart]) with
  | ok data =>
    cases hmap : serverCart data with
    | ok items =>
      rw [loadCart_synced hresp hmap]
      exact Storage.getItem_removeItem_ne _ hk3
    | error e =>
      rw [loadCart_mapping_throws hresp hmap]
      exact loadCartFallback_getItem_other net uid e _ hk1 hk2
  | fail e =>
    rw [loadCart_rejected hresp]
    show (loadCartFallback net uid e _).storage.getItem key = _
    rw [loadCartFallback_getItem_other net uid e _ hk1 hk2,
      responseInterceptor_getItem_other e _ hk1 hk2]

theorem updateQuantityLocal_getItem_other (uid : String) (itemId : Option String)
    (item : CartItem) (q : Int) (w : World) {key : String} (hk3 : cacheKey uid ≠ key) :
    (updateQuantityLocal uid itemId item q w).world.storage.getItem key
      = w.storage.getItem key := by
  unfold updateQuantityLocal
  split
  · rfl
  · rfl
  · split
    · rfl
    · exact Storage.getItem_setItem_ne _ _ hk3

theorem removeItemLocal_getItem_other (uid : String) (itemId : Option String)
    (item : CartItem) (w : World) {key : String} (hk3 : cacheKey uid ≠ key) :
    (removeItemLocal uid itemId item w).world.storage.getItem key = w.storage.getItem key := by
  unfold removeItemLocal
  split
  · rfl
  · rfl
  · split
    · rfl
    · exact Storage.getItem_setItem_ne _ _ hk3

theorem updateQuantityServer_getItem_other (net : Net) (uid : String)
    (itemId : Option String) (item : CartItem) (q : Int) (w : World) {key : String}
    (hk1 : "token" ≠ key) (hk2 : "user" ≠ key) (hk3 : cacheKey uid ≠ key) :
    (updateQuantityServer net uid itemId item q w).world.storage.getItem key
      = w.storage.getItem key := by
  have hadd : ∀ w1 : World, w1.storage.getItem key = w.storage.getItem key →
      (match apiCall net (Request.addToCart item.product_id q) w1 with
        | (Response.fail e, w2) => Tried.thrown e w2
        | (Response.ok _, w2) =>
          Tried.done ((loadCart net uid w2).toast (Toast.success "Quantity updated"))
        ).world.storage.getItem key = w.storage.getItem key := by
    intro w1 hw1
    have h := apiCall_getItem_other net (Request.addToCart item.product_id q) w1 hk1 hk2
    generalize apiCall net (Request.addToCart item.product_id q) w1 = res at h
    obtain ⟨resp, w2⟩ := res
    cases resp with
    | ok d =>
      show (loadCart net uid w2).storage.getItem key = _
      rw [loadCart_getItem_other net uid w2 hk1 hk2 hk3]
      exact h.trans hw1
    | fail e => exact h.trans hw1
  have hdel := apiCall_getItem_other net (Request.deleteCartItem itemId) w hk1 hk2
  unfold updateQuantityServer
  generalize apiCall net (Request.deleteCartItem itemId) w = res at hdel
  obtain ⟨resp, w1⟩ := res
  cases resp with
  | ok d => exact hadd w1 hdel
  | fail e =>
    dsimp only
    split
    · exact hdel
    · exact hadd w1 hdel

theorem removeItemServer_getItem_other (net : Net) (uid : String) (itemId : Option String)
    (w : World) {key : String}
    (hk1 : "token" ≠ key) (hk2 : "user" ≠ key) (hk3 : cacheKey uid ≠ key) :
    (removeItemServer net uid itemId w).world.storage.getItem key = w.storage.getItem key := by
  have hdel := apiCall_getItem_other net (Request.deleteCartItem itemId) w hk1 hk2
  unfold removeItemServer
  generalize apiCall net (Request.deleteCartItem itemId) w = res at hdel
  obtain ⟨resp, w1⟩ := res
  cases resp with
  | ok d =>
    show (loadCart net uid _).storage.getItem key = _
    rw [loadCart_getItem_other net uid _ hk1 hk2 hk3]
    exact hdel
  | fail e => exact hdel

theorem updateQuantity_getItem_other (net : Net) (uid : String) (itemId : Option String)
    (change : Int) (w : World) {key : String}
    (hk1 : "token" ≠ key) (hk2 : "user" ≠ key) (hk3 : cacheKey uid ≠ key) :
    (updateQuantity net uid itemId change w).storage.getItem key = w.storage.getItem key := by
  unfold updateQuantity
  cases w.cart.find? (fun i => i.id = itemId) with
  | none => rfl
  | some item =>
    dsimp only
    split
    · rfl
    · have hattempt : (if item.id = item.product_id
          then updateQuantityLocal uid itemId item (item.quantity + change) w
          else updateQuantityServer net uid itemId item (item.quantity + change) w
          ).world.storage.getItem key = w.storage.getItem key := by
        split
        · exact updateQuantityLocal_getItem_other uid itemId item _ w hk3
        · exact updateQuantityServer_getItem_other net uid itemId item _ w hk1 hk2 hk3
      generalize (if item.id = item.product_id
          then updateQuantityLocal uid itemId item (item.quantity + change) w
          else updateQuantityServer net uid itemId item (item.quantity + change) w) = r
        at hattempt
      cases r with
      | done w1 => exact hattempt
      | thrown e w1 =>
        show (loadCart net uid _).storage.getItem key = _
        rw [loadCart_getItem_other net uid _ hk1 hk2 hk3]
        exact hattempt

theorem removeItem_getItem_other (net : Net) (uid : String) (itemId : Option String)
    (w : World) {key : String}
    (hk1 : "token" ≠ key) (hk2 : "user" ≠ key) (hk3 : cacheKey uid ≠ key) :
    (removeItem net uid itemId w).storage.getItem key = w.storage.getItem key := by
  unfold removeItem
  cases w.cart.find? (fun i => i.id = itemId) with
  | none => rfl
  | some item =>
    dsimp only
    have hattempt : (if item.id = item.product_id then removeItemLocal uid itemId item w
        else removeItemServer net uid itemId w).world.storage.getItem key
        = w.storage.getItem key := by
      split
      · exact removeItemLocal_getItem_other uid itemId item w hk3
      · exact removeItemServer_getItem_other net uid itemId w hk1 hk2 hk3
    generalize (if item.id = item.product_id then removeItemLocal uid itemId item w
        else removeItemServer net uid itemId w) = r at hattempt
    cases r with
    | done w1 => exact hattempt
    | thrown e w1 =>
      show (loadCart net uid _).storage.getItem key = _
      rw [loadCart_getItem_other net uid _ hk1 hk2 hk3]
      exact hattempt

theorem recordInCache_getItem_other (uid : String) (pid : Option String) (q : Int)
    (st : Storage) {key : String} (hk3 : cacheKey uid ≠ key) :
    (recordInCache uid pid q st).getItem key = st.getItem key := by
  unfold recordInCache
  split
  · rfl
  · rfl
  · split
    · rfl
    · exact Storage.getItem_setItem_ne _ _ hk3
    · exact Storage.getItem_setItem_ne _ _ hk3

theorem productsPage_handleAddToCart_getItem_other (net : Net) (user : Option User)
    (productId : Option String) (w : World) {key : String}
    (hk1 : "token" ≠ key) (hk2 : "user" ≠ key)
    (hk3 : ∀ u, user = some u → cacheKey u.id ≠ key) :
    (ProductsPage.handleAddToCart net user productId w).storage.getItem key
      = w.storage.getItem key := by
  unfold ProductsPage.handleAddToCart
  cases user with
  | none => rfl
  | some u =>
    dsimp only
    split
    · rfl
    · have h := apiCall_getItem_other net (Request.addToCart productId 1) w hk1 hk2
      generalize apiCall net (Request.addToCart productId 1) w = res at h
      obtain ⟨resp, w1⟩ := res
      cases resp with
      | ok d =>
        show (recordInCache u.id productId 1 _).getItem key = _
        rw [recordInCache_getItem_other u.id productId 1 _ (hk3 u rfl)]
        exact h
      | fail e => exact h

theorem showAddToCartError_storage (e : JsError) (w : World) :
    (showAddToCartError e w).storage = w.storage := by
  unfold showAddToCartError
  split <;> rfl

theorem showAddToCartError_log (e : JsError) (w : World) :
    (showAddToCartError e w).log = w.log := by
  unfold showAddToCartError
  split <;> rfl

theorem productDetail_handleAddToCart_getItem_other (net : Net) (user : Option User)
    (product : DetailProduct) (quantity : Int) (w : World) {key : String}
    (hk1 : "token" ≠ key) (hk2 : "user" ≠ key)
    (hk3 : ∀ u, user = some u → cacheKey u.id ≠ key) :
    (ProductDetail.handleAddToCart net user product quantity w).storage.getItem key
      = w.storage.getItem key := by
  unfold ProductDetail.handleAddToCart
  cases user with
  | none => rfl
  | some u =>
    dsimp only
    split
    · rfl
    · split
      · rfl
      · have h := apiCall_getItem_other net
          (Request.addToCart (jsOr product.id product._id) quantity) w hk1 hk2
        generalize apiCall net (Request.addToCart (jsOr product.id product._id) quantity) w
          = res at h
        obtain ⟨resp, w1⟩ := res
        cases resp with
        | ok d =>
          show (recordInCache u.id _ quantity _).getItem key = _
          rw [recordInCache_getItem_other u.id _ quantity _ (hk3 u rfl)]
          exact h
        | fail e =>
          show (showAddToCartError e w1).storage.getItem key = _
          rw [showAddToCartError_storage]
          exact h

theorem KeptOrRemoved.same {key : String} {before after : Storage}
    (h : after.getItem key = before.getItem key) : KeptOrRemoved key before after :=
  Or.inl h

theorem KeptOrRemoved.followedBy {key : String} {before mid after : Storage}
    (h1 : KeptOrRemoved key before mid) (h2 : KeptOrRemoved key mid after) :
    KeptOrRemoved key before after := by
  rcases h2 with h2 | h2
  · rcases h1 with h1 | h1
    · exact Or.inl (h2.trans h1)
    · exact Or.inr (h2.trans h1)
  · exact Or.inr h2

theorem responseInterceptor_keptOrRemoved (e : JsError) (w : World) (key : String) :
    KeptOrRemoved key w.storage (responseInterceptor e w).storage := by
  unfold responseInterceptor
  split
  · show KeptOrRemoved key w.storage ((w.storage.removeItem "token").removeItem "user")
    by_cases hu : "user" = key
    · right
      rw [← hu]
      exact Storage.getItem_removeItem_self _ "user"
    · by_cases ht : "token" = key
      · right
        rw [Storage.getItem_removeItem_ne _ hu, ← ht]
        exact Storage.getItem_removeItem_self _ "token"
      · left
        rw [Storage.getItem_removeItem_ne _ hu, Storage.getItem_removeItem_ne _ ht]
  · exact Or.inl rfl

theorem apiCall_keptOrRemoved (net : Net) (r : Request) (w : World) (key : String) :
    KeptOrRemoved key w.storage (apiCall net r w).2.storage := by
  cases h : net (w.log ++ [r]) with
  | ok d =>
    rw [apiCall_ok h]
    exact Or.inl rfl
  | fail e =>
    rw [apiCall_fail h]
    exact responseInterceptor_keptOrRemoved e _ key

theorem fetchAllCached_keptOrRemoved (net : Net) (key : String) :
    ∀ (entries : List (Option CacheEntry)) (w : World),
      KeptOrRemoved key w.storage (fetchAllCached net entries w).2.storage := by
  intro entries
  induction entries with
  | nil => intro w; exact Or.inl rfl
  | cons c rest ih =>
    intro w
    simp only [fetchAllCached]
    refine KeptOrRemoved.followedBy ?_ (ih _)
    cases c with
    | none => exact Or.inl rfl
    | some c =>
      have h := apiCall_keptOrRemoved net (Request.getProduct c.product_id) w key
      simp only [fetchCached]
      generalize apiCall net (Request.getProduct c.product_id) w = res at h
      obtain ⟨resp, w1⟩ := res
      cases resp <;> exact h

theorem loadCartFallback_keptOrRemoved (net : Net) (uid : String) (error : JsError)
    (w : World) (key : String) :
    KeptOrRemoved key w.storage (loadCartFallback net uid error w).storage := by
  unfold loadCartFallback
  cases hp : parseCache w.storage (cacheKey uid) with
  | throws => exact Or.inl rfl
  | nonArray => exact Or.inl rfl
  | array entries =>
    cases entries with
    | nil => exact Or.inl rfl
    | cons c cs => exact fetchAllCached_keptOrRemoved net key (c :: cs) w

theorem loadCart_keptOrRemoved (net : Net) (uid : String) (w : World) {key : String}
    (hk3 : cacheKey uid ≠ key) : KeptOrRemoved key w.storage (loadCart net uid w).storage := by
  cases hresp : net (w.log ++ [Request.getCart]) with
  | ok data =>
    cases hmap : serverCart data with
    | ok items =>
      rw [loadCart_synced hresp hmap]
      exact Or.inl (Storage.getItem_removeItem_ne _ hk3)
    | error e =>
      rw [loadCart_mapping_throws hresp hmap]
      exact loadCartFallback_keptOrRemoved net uid e _ key
  | fail e =>
    rw [loadCart_rejected hresp]
    have h1 : KeptOrRemoved key w.storage (responseInterceptor e
        { w with loading := true, log := w.log ++ [Request.getCart] }).storage :=
      responseInterceptor_keptOrRemoved e _ key
    exact KeptOrRemoved.followedBy h1 (loadCartFallback_keptOrRemoved net uid e _ key)

theorem updateQuantityServer_keptOrRemoved (net : Net) (uid : String)
    (itemId : Option String) (item : CartItem) (q : Int) (w : World) {key : String}
    (hk3 : cacheKey uid ≠ key) :
    KeptOrRemoved key w.storage (updateQuantityServer net uid itemId item q w).world.storage := by
  have hadd : ∀ w1 : World, KeptOrRemoved key w.storage w1.storage →
      KeptOrRemoved key w.storage
        (match apiCall net (Request.addToCart item.product_id q) w1 with
        | (Response.fail e, w2) => Tried.thrown e w2
        | (Response.ok _, w2) =>
          Tried.done ((loadCart net uid w2).toast (Toast.success "Quantity updated"))
        ).world.storage := by
    intro w1 hw1
    have h := apiCall_keptOrRemoved net (Request.addToCart item.product_id q) w1 key
    generalize apiCall net (Request.addToCart item.product_id q) w1 = res at h
    obtain ⟨resp, w2⟩ := res
    cases resp with
    | ok d =>
      show KeptOrRemoved key w.storage (loadCart net uid w2).storage
      exact (hw1.followedBy h).followedBy (loadCart_keptOrRemoved net uid w2 hk3)
    | fail e => exact hw1.followedBy h
  have hdel := apiCall_keptOrRemoved net (Request.deleteCartItem itemId) w key
  unfold updateQuantityServer
  generalize apiCall net (Request.deleteCartItem itemId) w = res at hdel
  obtain ⟨resp, w1⟩ := res
  cases resp with
  | ok d => exact hadd w1 hdel
  | fail e =>
    dsimp only
    split
    · exact hdel
    · exact hadd w1 hdel

theorem removeItemServer_keptOrRemoved (net : Net) (uid : String) (itemId : Option String)
    (w : World) {key : String} (hk3 : cacheKey uid ≠ key) :
    KeptOrRemoved key w.storage (removeItemServer net uid itemId w).world.storage := by
  have hdel := apiCall_keptOrRemoved net (Request.deleteCartItem itemId) w key
  unfold removeItemServer
  generalize apiCall net (Request.deleteCartItem itemId) w = res at hdel
  obtain ⟨resp, w1⟩ := res
  cases resp with
  | ok d =>
    show KeptOrRemoved key w.storage (loadCart net uid _).storage
    exact KeptOrRemoved.followedBy hdel (loadCart_keptOrRemoved net uid _ hk3)
  | fail e => exact hdel

theorem updateQuantity_keptOrRemoved (net : Net) (uid : String) (itemId : Option String)
    (change : Int) (w : World) {key : String} (hk3 : cacheKey uid ≠ key) :
    KeptOrRemoved key w.storage (updateQuantity net uid itemId change w).storage := by
  unfold updateQuantity
  cases w.cart.find? (fun i => i.id = itemId) with
  | none => exact Or.inl rfl
  | some item =>
    dsimp only
    split
    · exact Or.inl rfl
    · have hattempt : KeptOrRemoved key w.storage (if item.id = item.product_id
          then updateQuantityLocal uid itemId item (item.quantity + change) w
          else updateQuantityServer net uid itemId item (item.quantity + change) w
          ).world.storage := by
        split
        · exact Or.inl (updateQuantityLocal_getItem_other uid itemId item _ w hk3)
        · exact updateQuantityServer_keptOrRemoved net uid itemId item _ w hk3
      generalize (if item.id = item.product_id
          then updateQuantityLocal uid itemId item (item.quantity + change) w
          else updateQuantityServer net uid itemId item (item.quantity + change) w) = r
        at hattempt
      cases r with
      | done w1 => exact hattempt
      | thrown e w1 =>
        show KeptOrRemoved key w.storage (loadCart net uid _).storage
        exact KeptOrRemoved.followedBy hattempt (loadCart_keptOrRemoved net uid _ hk3)

theorem removeItem_keptOrRemoved (net : Net) (uid : String) (itemId : Option String)
    (w : World) {key : String} (hk3 : cacheKey uid ≠ key) :
    KeptOrRemoved key w.storage (removeItem net uid itemId w).storage := by
  unfold removeItem
  cases w.cart.find? (fun i => i.id = itemId) with
  | none => exact Or.inl rfl
  | some item =>
    dsimp only
    have hattempt : KeptOrRemoved key w.storage (if item.id = item.product_id
        then removeItemLocal uid itemId item w
        else removeItemServer net uid itemId w).world.storage := by
      split
      · exact Or.inl (removeItemLocal_getItem_other uid itemId item w hk3)
      · exact removeItemServer_keptOrRemoved net uid itemId w hk3
    generalize (if item.id = item.product_id then removeItemLocal uid itemId item w
        else removeItemServer net uid itemId w) = r at hattempt
    cases r with
    | done w1 => exact hattempt
    | thrown e w1 =>
      show KeptOrRemoved key w.storage (loadCart net uid _).storage
      exact KeptOrRemoved.followedBy hattempt (loadCart_keptOrRemoved net uid _ hk3)

theorem productsPage_handleAddToCart_keptOrRemoved (net : Net) (u : User)
    (productId : Option String) (w : World) {key : String} (hk3 : cacheKey u.id ≠ key) :
    KeptOrRemoved key w.storage
      (ProductsPage.handleAddToCart net (some u) productId w).storage := by
  unfold ProductsPage.handleAddToCart
  dsimp only
  split
  · exact Or.inl rfl
  · have h := apiCall_keptOrRemoved net (Request.addToCart productId 1) w key
    generalize apiCall net (Request.addToCart productId 1) w = res at h
    obtain ⟨resp, w1⟩ := res
    cases resp with
    | ok d =>
      refine KeptOrRemoved.followedBy h (Or.inl ?_)
      show (recordInCache u.id productId 1 _).getItem key = _
      rw [recordInCache_getItem_other u.id productId 1 _ hk3]
      rfl
    | fail e => exact h

theorem productDetail_handleAddToCart_keptOrRemoved (net : Net) (u : User)
    (product : DetailProduct) (quantity : Int) (w : World) {key : String}
    (hk3 : cacheKey u.id ≠ key) :
    KeptOrRemoved key w.storage
      (ProductDetail.handleAddToCart net (some u) product quantity w).storage := by
  unfold ProductDetail.handleAddToCart
  dsimp only
  split
  · exact Or.inl rfl
  · split
    · exact Or.inl rfl
    · have h := apiCall_keptOrRemoved net
        (Request.addToCart (jsOr product.id product._id) quantity) w key
      generalize apiCall net (Request.addToCart (jsOr product.id product._id) quantity) w
        = res at h
      obtain ⟨resp, w1⟩ := res
      cases resp with
      | ok d =>
        refine KeptOrRemoved.followedBy h (Or.inl ?_)
        show (recordInCache u.id _ quantity _).getItem key = _
        rw [recordInCache_getItem_other u.id _ quantity _ hk3]
        rfl
      | fail e =>
        refine KeptOrRemoved.followedBy h (Or.inl ?_)
        show (showAddToCartError e w1).storage.getItem key = _
        rw [showAddToCartError_storage]

/-- C18 (as stated) fails for the keys `token` and `user`: the cart operations write other
keys than `cart_cache_{u.id}`.  When the cart request of `loadCart` is rejected with status
401, the response interceptor of `api.js` removes both keys; the same happens to the add
request of the products page and to the delete request of `removeItem`. -/
theorem cart_operation_removes_token_on_401 :
    (loadCart unauthorized buyer.id
      { storage := [("token", StoreVal.text "t"), ("user", StoreVal.nonArray),
          ("cart_cache_u1", StoreVal.array [])] }).storage
      = [("cart_cache_u1", StoreVal.array [])] ∧
    ("token" ≠ cacheKey buyer.id ∧ "user" ≠ cacheKey buyer.id) ∧
    (ProductsPage.handleAddToCart unauthorized (some buyer) (some "p1")
      { storage := [("token", StoreVal.text "t"), ("user", StoreVal.nonArray)] }).storage
      = [] ∧
    (removeItem unauthorized buyer.id (some "c1")
      { cart := [sampleItem "c1" "p1" 2]
        storage := [("token", StoreVal.text "t"), ("user", StoreVal.nonArray)] }).storage
      = [] := by
  decide

/-- C18 (amended): the fallback cache is scoped per user.  Every operation performed for the
user `u` (`loadCart`, `updateQuantity`, `removeItem` and both `handleAddToCart`) leaves the
value of every key of local storage other than `cart_cache_{u.id}` as it was, except that
the keys `token` and `user` may be removed: each of them has the value it had or is absent
afterwards.  In particular, for every other user id `v` the value under `cart_cache_{v}` is
unchanged. -/
theorem cache_scoped_per_user (net : Net) (u : User) (w : World) :
    (∀ key : String, key ≠ cacheKey u.id → key ≠ "token" → key ≠ "user" →
      KeyUntouched net u w key) ∧
    (∀ v : String, v ≠ u.id → KeyUntouched net u w (cacheKey v)) ∧
    KeyKeptOrRemoved net u w "token" ∧ KeyKeptOrRemoved net u w "user" := by
  have hkept : ∀ key : String, cacheKey u.id ≠ key → KeyKeptOrRemoved net u w key := by
    intro key hk3
    exact ⟨loadCart_keptOrRemoved net u.id w hk3,
      fun itemId change => updateQuantity_keptOrRemoved net u.id itemId change w hk3,
      fun itemId => removeItem_keptOrRemoved net u.id itemId w hk3,
      fun productId => productsPage_handleAddToCart_keptOrRemoved net u productId w hk3,
      fun product quantity =>
        productDetail_handleAddToCart_keptOrRemoved net u product quantity w hk3⟩
  have hgeneral : ∀ key : String, cacheKey u.id ≠ key → "token" ≠ key → "user" ≠ key →
      KeyUntouched net u w key := by
    intro key hk3 hk1 hk2
    exact ⟨loadCart_getItem_other net u.id w hk1 hk2 hk3,
      fun itemId change => updateQuantity_getItem_other net u.id itemId change w hk1 hk2 hk3,
      fun itemId => removeItem_getItem_other net u.id itemId w hk1 hk2 hk3,
      fun productId => productsPage_handleAddToCart_getItem_other net (some u) productId w
        hk1 hk2 (fun u1 hu => by cases hu; exact hk3),
      fun product quantity => productDetail_handleAddToCart_getItem_other net (some u) product
        quantity w hk1 hk2 (fun u1 hu => by cases hu; exact hk3)⟩
  refine ⟨?_, ?_, hkept "token" (fun h => cacheKey_ne_token u.id h.symm),
    hkept "user" (fun h => cacheKey_ne_user u.id h.symm)⟩
  · intro key h3 h1 h2
    exact hgeneral key (fun h => h3 h.symm) (fun h => h1 h.symm) (fun h => h2 h.symm)
  · intro v hv
    exact hgeneral (cacheKey v) (fun h => hv (cacheKey_injective h).symm)
      (cacheKey_ne_token v) (cacheKey_ne_user v)

/-- Witness of C18: the caches of `u1` and `u2` are both present and `u1` reloads the cart
from a server that answers; the cache of `u1` is cleared, the cache of `u2` is still there. -/
theorem cache_scoped_per_user_witness :
    KeyUntouched stocked buyer
      { storage := [("cart_cache_u1", StoreVal.array [some { product_id := some "p1" }]),
                    ("cart_cache_u2", StoreVal.array [some { product_id := some "p7" }])] }
      (cacheKey "u2") ∧
    (loadCart stocked "u1"
      { storage := [("cart_cache_u1", StoreVal.array [some { product_id := some "p1" }]),
                    ("cart_cache_u2", StoreVal.array [some { product_id := some "p7" }])]
      }).storage = [("cart_cache_u2", StoreVal.array [some { product_id := some "p7" }])] :=
  ⟨(cache_scoped_per_user stocked buyer
      { storage := [("cart_cache_u1", StoreVal.array [some { product_id := some "p1" }]),
                    ("cart_cache_u2", StoreVal.array [some { product_id := some "p7" }])] }).2.1
      "u2" (by decide),
    by decide⟩

/-! ### C19: what the add-to-cart handlers record in the cache -/

theorem findIndexByProduct_null_first (pid : Option String) (pre : List CacheEntry)
    (post : List (Option CacheEntry)) (hpre : ∀ d ∈ pre, d.product_id ≠ pid) :
    findIndexByProduct pid (pre.map some ++ none :: post)
      = Except.error (nullPropertyError "product_id") := by
  induction pre with
  | nil => rfl
  | cons d rest ih =>
    have hd : ¬ d.product_id = pid := hpre d (List.mem_cons_self _ _)
    have ih1 := ih (fun x hx => hpre x (List.mem_cons_of_mem _ hx))
    show findIndexByProduct pid (some d :: (rest.map some ++ none :: post)) = _
    rw [findIndexByProduct, if_neg hd, ih1]

theorem recordInCache_records (uid : String) (pid : Option String) (q : Int) (st : Storage) :
    RecordsAdd uid pid q st (recordInCache uid pid q st) := by
  refine ⟨?_, ?_, ?_, ?_, ?_⟩
  · intro entries hparse hno
    simp only [recordInCache, hparse, findIndexByProduct_no_match pid entries hno]
    rw [Storage.getItem_setItem_self]
    simp
  · intro pre c post hparse hc hpre
    have hadd := addQuantityAt_first_match q (pre.map some) c post
    rw [List.length_map] at hadd
    simp only [recordInCache, hparse, findIndexByProduct_first_match pid pre c post hc hpre]
    rw [Storage.getItem_setItem_self, hadd]
  · intro pre post hparse hpre
    simp only [recordInCache, hparse, findIndexByProduct_null_first pid pre post hpre]
  · intro hparse
    simp only [recordInCache, hparse]
  · intro hparse
    simp only [recordInCache, hparse]

theorem exceedsStock_eq_false {quantity : Int} {stock : Stock}
    (hcount : ∀ n, stock = Stock.count n → quantity ≤ n)
    (hnull : stock = Stock.null → quantity ≤ 0) : exceedsStock quantity stock = false := by
  cases stock with
  | missing => rfl
  | null =>
    have := hnull rfl
    simp only [exceedsStock, decide_eq_false_iff_not]
    omega
  | count n =>
    have := hcount n rfl
    simp only [exceedsStock, decide_eq_false_iff_not]
    omega

theorem productsPage_handleAddToCart_added {net : Net} {u : User} {productId : Option String}
    {w : World} {d : Option Body} (hrole : u.role = "buyer")
    (hadd : net (w.log ++ [Request.addToCart productId 1]) = Response.ok d) :
    (ProductsPage.handleAddToCart net (some u) productId w).storage
      = recordInCache u.id productId 1 w.storage := by
  have hb : (u.role != "buyer") = false := by simp [hrole]
  simp only [ProductsPage.handleAddToCart, hb, apiCall_ok hadd]
  rfl

theorem productDetail_handleAddToCart_added {net : Net} {u : User} {product : DetailProduct}
    {quantity : Int} {w : World} {d : Option Body} (hrole : u.role = "buyer")
    (hstock : exceedsStock quantity product.stock = false)
    (hadd : net (w.log ++ [Request.addToCart (jsOr product.id product._id) quantity])
      = Response.ok d) :
    (ProductDetail.handleAddToCart net (some u) product quantity w).storage
      = recordInCache u.id (jsOr product.id product._id) quantity w.storage := by
  have hb : (u.role != "buyer") = false := by simp [hrole]
  simp only [ProductDetail.handleAddToCart, hb, hstock, apiCall_ok hadd]
  rfl

theorem productsPage_handleAddToCart_rejected {net : Net} {u : User}
    {productId : Option String} {w : World} {e : JsError} (hrole : u.role = "buyer")
    (hadd : net (w.log ++ [Request.addToCart productId 1]) = Response.fail e) :
    (ProductsPage.handleAddToCart net (some u) productId w).storage.getItem (cacheKey u.id)
      = w.storage.getItem (cacheKey u.id) := by
  have hb : (u.role != "buyer") = false := by simp [hrole]
  simp only [ProductsPage.handleAddToCart, hb, apiCall_fail hadd]
  exact responseInterceptor_getItem_cache e _ u.id

theorem productDetail_handleAddToCart_rejected {net : Net} {u : User}
    {product : DetailProduct} {quantity : Int} {w : World} {e : JsError}
    (hadd : net (w.log ++ [Request.addToCart (jsOr product.id product._id) quantity])
      = Response.fail e) :
    (ProductDetail.handleAddToCart net (some u) product quantity w).storage.getItem
      (cacheKey u.id) = w.storage.getItem (cacheKey u.id) := by
  unfold ProductDetail.handleAddToCart
  dsimp only
  split
  · rfl
  · split
    · rfl
    · rw [apiCall_fail hadd]
      show (showAddToCartError e _).storage.getItem (cacheKey u.id) = _
      rw [showAddToCartError_storage]
      exact responseInterceptor_getItem_cache e _ u.id

theorem handleAddToCart_not_buyer (net : Net) (u : User) (w : World) (hrole : u.role ≠ "buyer") :
    (∀ productId : Option String,
      (ProductsPage.handleAddToCart net (some u) productId w).storage = w.storage ∧
      (ProductsPage.handleAddToCart net (some u) productId w).log = w.log) ∧
    (∀ (product : DetailProduct) (quantity : Int),
      (ProductDetail.handleAddToCart net (some u) product quantity w).storage = w.storage ∧
      (ProductDetail.handleAddToCart net (some u) product quantity w).log = w.log) := by
  have hb : (u.role != "buyer") = true := by simp [hrole]
  constructor
  · intro productId
    simp only [ProductsPage.handleAddToCart, hb, if_true]
    exact ⟨rfl, rfl⟩
  · intro product quantity
    simp only [ProductDetail.handleAddToCart, hb, if_true]
    exact ⟨rfl, rfl⟩

theorem productDetail_handleAddToCart_refused (net : Net) (u : User) (w : World)
    (product : DetailProduct) (quantity : Int) (hrole : u.role = "buyer")
    (hexceeds : exceedsStock quantity product.stock = true) :
    ProductDetail.handleAddToCart net (some u) product quantity w
      = w.toast (Toast.error (ErrMsg.text "Quantity exceeds available stock")) := by
  have hb : (u.role != "buyer") = false := by simp [hrole]
  simp only [ProductDetail.handleAddToCart, hb, hexceeds, if_true, Bool.false_eq_true, if_false]

/-- C19 (as stated) fails in two ways.  When the cache is not JSON the empty `catch` swallows
the error: the add succeeded (request issued, success toast) and the cache is as it was, with
no entry for the product.  And an existing entry of quantity 0 counts as 1: after adding one
unit it holds 2. -/
theorem add_to_cart_not_always_recorded :
    ((ProductsPage.handleAddToCart stocked (some buyer) (some "p1")
        { storage := [("cart_cache_u1", StoreVal.text "<html>")] }).log
        = [Request.addToCart (some "p1") 1] ∧
      (ProductsPage.handleAddToCart stocked (some buyer) (some "p1")
        { storage := [("cart_cache_u1", StoreVal.text "<html>")] }).toasts
        = [Toast.success "Added to cart!"] ∧
      (ProductsPage.handleAddToCart stocked (some buyer) (some "p1")
        { storage := [("cart_cache_u1", StoreVal.text "<html>")] }).storage
        = [("cart_cache_u1", StoreVal.text "<html>")]) ∧
    (ProductsPage.handleAddToCart stocked (some buyer) (some "p1")
      { storage := [("cart_cache_u1",
          StoreVal.array [some { product_id := some "p1", quantity := some 0 }])] }).storage
      = [("cart_cache_u1",
          StoreVal.array [some { product_id := some "p1", quantity := some 2 }])] := by
  decide

/-- C19 (amended): the cache records an add only when the server add succeeded.  After a
successful add by a buyer of `q` units of product `p` (`q = 1` on the products page; on the
detail page the selected quantity, which must not exceed the stock: a numeric stock `n`
needs `q <= n`, a `null` stock `q <= 0`, a missing stock nothing), local storage is related to
the one before by `RecordsAdd`: if the cache of the user is absent or an array in which no
`null` comes before the first entry for `p`, the first entry for `p` has `q` more than
before, an absent or zero quantity counting as 1, or a new entry
`{product_id: p, quantity: q}` is appended when there is none, and every other entry is
unchanged; if the cache is an array with a `null` before any entry for `p`, or is not JSON, or
is not an array, local storage is left as it is.  When the add request is rejected the cache
is unchanged; when the user is missing or not a buyer, or the quantity exceeds the stock on
the detail page, local storage is unchanged and no request is issued. -/
theorem add_to_cart_recorded_in_cache (net : Net) (u : User) (w : World) :
    (∀ productId : Option String,
      (u.role = "buyer" →
        (∃ d, net (w.log ++ [Request.addToCart productId 1]) = Response.ok d) →
        RecordsAdd u.id productId 1 w.storage
          (ProductsPage.handleAddToCart net (some u) productId w).storage) ∧
      (u.role = "buyer" →
        (∃ e, net (w.log ++ [Request.addToCart productId 1]) = Response.fail e) →
        (ProductsPage.handleAddToCart net (some u) productId w).storage.getItem (cacheKey u.id)
          = w.storage.getItem (cacheKey u.id)) ∧
      (u.role ≠ "buyer" →
        (ProductsPage.handleAddToCart net (some u) productId w).storage = w.storage ∧
        (ProductsPage.handleAddToCart net (some u) productId w).log = w.log) ∧
      (ProductsPage.handleAddToCart net none productId w).storage = w.storage ∧
      (ProductsPage.handleAddToCart net none productId w).log = w.log) ∧
    (∀ (product : DetailProduct) (quantity : Int),
      (u.role = "buyer" → (∀ n, product.stock = Stock.count n → quantity ≤ n) →
        (product.stock = Stock.null → quantity ≤ 0) →
        (∃ d, net (w.log ++ [Request.addToCart (jsOr product.id product._id) quantity])
          = Response.ok d) →
        RecordsAdd u.id (jsOr product.id product._id) quantity w.storage
          (ProductDetail.handleAddToCart net (some u) product quantity w).storage) ∧
      ((∃ e, net (w.log ++ [Request.addToCart (jsOr product.id product._id) quantity])
          = Response.fail e) →
        (ProductDetail.handleAddToCart net (some u) product quantity w).storage.getItem
          (cacheKey u.id) = w.storage.getItem (cacheKey u.id)) ∧
      (u.role ≠ "buyer" →
        (ProductDetail.handleAddToCart net (some u) product quantity w).storage = w.storage ∧
        (ProductDetail.handleAddToCart net (some u) product quantity w).log = w.log) ∧
      (u.role = "buyer" →
        ((∃ n, product.stock = Stock.count n ∧ n < quantity) ∨
          (product.stock = Stock.null ∧ 0 < quantity)) →
        (ProductDetail.handleAddToCart net (some u) product quantity w).storage = w.storage ∧
        (ProductDetail.handleAddToCart net (some u) product quantity w).log = w.log) ∧
      (ProductDetail.handleAddToCart net none product quantity w).storage = w.storage ∧
      (ProductDetail.handleAddToCart net none product quantity w).log = w.log) := by
  constructor
  · intro productId
    refine ⟨fun hrole hadd => ?_, fun hrole hadd => ?_, fun hrole => ?_, rfl, rfl⟩
    · obtain ⟨d, hd⟩ := hadd
      rw [productsPage_handleAddToCart_added hrole hd]
      exact recordInCache_records u.id productId 1 w.storage
    · obtain ⟨e, he⟩ := hadd
      exact productsPage_handleAddToCart_rejected hrole he
    · exact (handleAddToCart_not_buyer net u w hrole).1 productId
  · intro product quantity
    refine ⟨fun hrole hcount hnull hadd => ?_, fun hadd => ?_, fun hrole => ?_,
      fun hrole hexceeds => ?_, rfl, rfl⟩
    · obtain ⟨d, hd⟩ := hadd
      rw [productDetail_handleAddToCart_added hrole (exceedsStock_eq_false hcount hnull) hd]
      exact recordInCache_records u.id _ quantity w.storage
    · obtain ⟨e, he⟩ := hadd
      exact productDetail_handleAddToCart_rejected he
    · exact (handleAddToCart_not_buyer net u w hrole).2 product quantity
    · have hex : exceedsStock quantity product.stock = true := by
        rcases hexceeds with ⟨n, hn, hlt⟩ | ⟨hn, hlt⟩
        · rw [hn]
          exact decide_eq_true hlt
        · rw [hn]
          exact decide_eq_true hlt
      rw [productDetail_handleAddToCart_refused net u w product quantity hrole hex]
      exact ⟨rfl, rfl⟩

/-- Witness of C19: a buyer adds `p2` from the products page while the cache holds `p1`; and
with a cache that has a `null` first, three units added on the detail page leave local
storage as it was. -/
theorem add_to_cart_recorded_in_cache_witness :
    (ProductsPage.handleAddToCart stocked (some buyer) (some "p2")
      { storage := [("cart_cache_u1", StoreVal.array
          [some { product_id := some "p1", quantity := some 2 }])] }).storage.getItem
      (cacheKey buyer.id)
      = some (StoreVal.array
          ((([{ product_id := some "p1", quantity := some 2 }] : List CacheEntry) ++
            [({ product_id := some "p2", quantity := some 1 } : CacheEntry)]).map some)) ∧
    (ProductDetail.handleAddToCart stocked (some buyer)
      { id := some "p2", stock := Stock.count 5 } 3
      { storage := [("cart_cache_u1", StoreVal.array
          [none, some { product_id := some "p2", quantity := some 2 }])] }).storage
      = [("cart_cache_u1", StoreVal.array
          [none, some { product_id := some "p2", quantity := some 2 }])] :=
  ⟨(((add_to_cart_recorded_in_cache stocked buyer
      { storage := [("cart_cache_u1", StoreVal.array
          [some { product_id := some "p1", quantity := some 2 }])] }).1
      (some "p2")).1 (by decide) ⟨_, rfl⟩).1
    ([{ product_id := some "p1", quantity := some 2 }] : List CacheEntry)
    (by decide) (by decide),
    (((add_to_cart_recorded_in_cache stocked buyer
      { storage := [("cart_cache_u1", StoreVal.array
          [none, some { product_id := some "p2", quantity := some 2 }])] }).2
      { id := some "p2", stock := Stock.count 5 } 3).1 (by decide)
      (by intro n hn; cases hn; decide) (by intro hn; cases hn) ⟨_, rfl⟩).2.2.1
      ([] : List CacheEntry) [some { product_id := some "p2", quantity := some 2 }]
      (by decide) (by intro d hd; cases hd)⟩

/-! ### C21: the sorted proposals -/

theorem scoreOrZero_eq_scoreBySpec (p : Proposal) : scoreOrZero p = scoreBySpec p := by
  unfold scoreOrZero scoreBySpec
  cases h : p.ai_match_score with
  | none => rfl
  | some score =>
    by_cases hz : score = 0
    · simp [hz]
    · simp [hz]

theorem sortsBefore_total (a b : Proposal) : sortsBefore a b ∨ sortsBefore b a := by
  unfold sortsBefore compareProposals
  omega

theorem sortsBefore_trans (a b c : Proposal) (hab : sortsBefore a b) (hbc : sortsBefore b c) :
    sortsBefore a c := by
  unfold sortsBefore compareProposals at *
  omega

theorem Arrays.read_append_left (heap : Arrays) (arr : List Proposal) {ref : Nat}
    (h : ref < heap.length) : Arrays.read (heap ++ [arr]) ref = Arrays.read heap ref := by
  unfold Arrays.read
  rw [List.getD_eq_getElem?_getD, List.getD_eq_getElem?_getD, List.getElem?_append_left h]

theorem Arrays.read_append_new (heap : Arrays) (arr : List Proposal) :
    Arrays.read (heap ++ [arr]) heap.length = arr := by
  unfold Arrays.read
  rw [List.getD_eq_getElem?_getD, List.getElem?_append_right (Nat.le_refl _)]
  simp

theorem Arrays.read_set_self (heap : Arrays) (arr : List Proposal) {ref : Nat}
    (h : ref < heap.length) : Arrays.read (heap.set ref arr) ref = arr := by
  unfold Arrays.read
  rw [List.getD_eq_getElem?_getD, List.getElem?_set_self h]
  rfl

theorem Arrays.read_set_ne (heap : Arrays) (arr : List Proposal) {ref other : Nat}
    (h : ref ≠ other) : Arrays.read (heap.set ref arr) other = Arrays.read heap other := by
  unfold Arrays.read
  rw [List.getD_eq_getElem?_getD, List.getD_eq_getElem?_getD, List.getElem?_set_ne h]

theorem sortedProposals_eq (proposals : Nat) (heap : Arrays) :
    sortedProposals proposals heap
      = (heap.length,
          (heap ++ [heap.read proposals]).set heap.length
            ((heap.read proposals).insertionSort sortsBefore)) := by
  unfold sortedProposals spread arraySort
  dsimp only
  rw [Arrays.read_append_new]

/-- C21: for the state array `proposals`, the array `sortedProposals` holds a permutation of
its elements in which the score, a missing `ai_match_score` counting as 0, of an element is
at least the score of every later element; it is another array than `proposals`, and
`proposals`, like every array that existed before, has the elements it had. -/
theorem sortedProposals_sorted_permutation (proposals : Nat) (heap : Arrays)
    (hstate : proposals < heap.length) :
    List.Perm ((sortedProposals proposals heap).2.read (sortedProposals proposals heap).1)
      (heap.read proposals) ∧
    List.Pairwise (fun a b => scoreBySpec b ≤ scoreBySpec a)
      ((sortedProposals proposals heap).2.read (sortedProposals proposals heap).1) ∧
    (sortedProposals proposals heap).1 ≠ proposals ∧
    (sortedProposals proposals heap).2.read proposals = heap.read proposals ∧
    (∀ ref, ref < heap.length →
      (sortedProposals proposals heap).2.read ref = heap.read ref) := by
  have hlen : heap.length < (heap ++ [heap.read proposals]).length := by simp
  have hresult : (sortedProposals proposals heap).2.read (sortedProposals proposals heap).1
      = (heap.read proposals).insertionSort sortsBefore := by
    rw [sortedProposals_eq]
    exact Arrays.read_set_self _ _ hlen
  have hframe : ∀ ref, ref < heap.length →
      (sortedProposals proposals heap).2.read ref = heap.read ref := by
    intro ref href
    rw [sortedProposals_eq]
    show Arrays.read ((heap ++ [heap.read proposals]).set heap.length _) ref = _
    rw [Arrays.read_set_ne _ _ (Nat.ne_of_gt href), Arrays.read_append_left _ _ href]
  refine ⟨?_, ?_, ?_, hframe proposals hstate, hframe⟩
  · rw [hresult]
    exact List.perm_insertionSort sortsBefore _
  · rw [hresult]
    have hsorted : List.Sorted sortsBefore ((heap.read proposals).insertionSort sortsBefore) :=
      @List.sorted_insertionSort Proposal sortsBefore _ ⟨sortsBefore_total⟩ ⟨sortsBefore_trans⟩
        (heap.read proposals)
    refine List.Pairwise.imp ?_ hsorted
    intro a b hab
    unfold sortsBefore compareProposals at hab
    rw [scoreOrZero_eq_scoreBySpec, scoreOrZero_eq_scoreBySpec] at hab
    omega
  · rw [sortedProposals_eq]
    exact Nat.ne_of_gt hstate

/-- Witness of C21: proposals with scores 10, none, 90, 10 are shown in the order 90, 10, 10,
none, the two of score 10 in their original order, and the state array is as it was. -/
theorem sortedProposals_sorted_permutation_witness :
    ((sortedProposals 0 [fourProposals]).2.read (sortedProposals 0 [fourProposals]).1).map
        (fun p => (p.id, p.ai_match_score))
      = [(some "c", some 90), (some "a", some 10), (some "d", some 10), (some "b", none)] ∧
    (sortedProposals 0 [fourProposals]).1 = 1 ∧
    (sortedProposals 0 [fourProposals]).2.read 0 = Arrays.read [fourProposals] 0 ∧
    List.Pairwise (fun a b => scoreBySpec b ≤ scoreBySpec a)
      ((sortedProposals 0 [fourProposals]).2.read (sortedProposals 0 [fourProposals]).1) :=
  ⟨by decide, by decide,
    (sortedProposals_sorted_permutation 0 [fourProposals] (by decide)).2.2.2.1,
    (sortedProposals_sorted_permutation 0 [fourProposals] (by decide)).2.1⟩

/-! ### C22: `handleAddImage` -/

theorem jsTrim_of_whitespace (s : String) (h : ∀ c ∈ s.data, isJsWhitespace c = true) :
    jsTrim s = "" := by
  unfold jsTrim
  have hdrop : s.data.dropWhile isJsWhitespace = [] := List.dropWhile_eq_nil_iff.mpr h
  rw [hdrop]
  rfl

theorem handleAddImage_accepted (f : AddProductForm) (hne : jsTrim f.imageUrl ≠ "")
    (hstart : jsStartsWith (jsTrim f.imageUrl) "http://" = true ∨
      jsStartsWith (jsTrim f.imageUrl) "https://" = true ∨
      jsStartsWith (jsTrim f.imageUrl) "/" = true) :
    handleAddImage f =
      { f with
        images := f.images ++ [jsTrim f.imageUrl]
        imageUrl := ""
        toasts := f.toasts ++ [Toast.success "Image added!"] } := by
  unfold handleAddImage
  have hb : (jsTrim f.imageUrl != "") = true := by simpa using hne
  have hv : (jsStartsWith (jsTrim f.imageUrl) "http://" ||
      jsStartsWith (jsTrim f.imageUrl) "https://" ||
      jsStartsWith (jsTrim f.imageUrl) "/") = true := by
    rcases hstart with h | h | h <;> simp [h]
  simp only [hb, hv, if_true, Bool.not_true, Bool.false_eq_true, if_false]

theorem handleAddImage_refused (f : AddProductForm)
    (h : ¬ (jsTrim f.imageUrl ≠ "" ∧
      (jsStartsWith (jsTrim f.imageUrl) "http://" = true ∨
        jsStartsWith (jsTrim f.imageUrl) "https://" = true ∨
        jsStartsWith (jsTrim f.imageUrl) "/" = true))) :
    (handleAddImage f).images = f.images ∧ (handleAddImage f).imageUrl = f.imageUrl := by
  unfold handleAddImage
  by_cases hne : jsTrim f.imageUrl = ""
  · have hb : (jsTrim f.imageUrl != "") = false := by simp [hne]
    simp only [hb, Bool.false_eq_true, if_false, and_self]
  · have hb : (jsTrim f.imageUrl != "") = true := by simpa using hne
    have hv : (jsStartsWith (jsTrim f.imageUrl) "http://" ||
        jsStartsWith (jsTrim f.imageUrl) "https://" ||
        jsStartsWith (jsTrim f.imageUrl) "/") = false := by
      cases h1 : jsStartsWith (jsTrim f.imageUrl) "http://"
      · cases h2 : jsStartsWith (jsTrim f.imageUrl) "https://"
        · cases h3 : jsStartsWith (jsTrim f.imageUrl) "/"
          · rfl
          · exact absurd ⟨hne, Or.inr (Or.inr h3)⟩ h
        · exact absurd ⟨hne, Or.inr (Or.inl h2)⟩ h
      · exact absurd ⟨hne, Or.inl h1⟩ h
    simp only [hb, hv, if_true, Bool.not_false, and_self]

/-- C22: `handleAddImage` makes the image list the old list followed by the trimmed input
exactly when the trimmed input is non-empty and starts with "http://", "https://" or "/";
in every other case the image list is the old one, in particular for an input that is empty
or consists of white space only. -/
theorem handleAddImage_validates_url (f : AddProductForm) :
    ((handleAddImage f).images = f.images ++ [jsTrim f.imageUrl] ↔
      (jsTrim f.imageUrl ≠ "" ∧
        (jsStartsWith (jsTrim f.imageUrl) "http://" = true ∨
          jsStartsWith (jsTrim f.imageUrl) "https://" = true ∨
          jsStartsWith (jsTrim f.imageUrl) "/" = true))) ∧
    (¬ (jsTrim f.imageUrl ≠ "" ∧
        (jsStartsWith (jsTrim f.imageUrl) "http://" = true ∨
          jsStartsWith (jsTrim f.imageUrl) "https://" = true ∨
          jsStartsWith (jsTrim f.imageUrl) "/" = true)) →
      (handleAddImage f).images = f.images) ∧
    ((f.imageUrl = "" ∨ ∀ c ∈ f.imageUrl.data, isJsWhitespace c = true) →
      (handleAddImage f).images = f.images) := by
  refine ⟨⟨?_, ?_⟩, ?_, ?_⟩
  · intro himages
    by_contra hnot
    have hsame := (handleAddImage_refused f hnot).1
    rw [hsame] at himages
    have hlen := congrArg List.length himages
    simp at hlen
  · intro hacc
    rw [handleAddImage_accepted f hacc.1 hacc.2]
  · intro hnot
    exact (handleAddImage_refused f hnot).1
  · intro hblank
    have htrim : jsTrim f.imageUrl = "" := by
      rcases hblank with hempty | hws
      · rw [hempty]; rfl
      · exact jsTrim_of_whitespace f.imageUrl hws
    exact (handleAddImage_refused f (fun hacc => hacc.1 htrim)).1

theorem handleAddImage_validates_url_witness :
    (handleAddImage { images := ["/a.png"], imageUrl := "  https://x.io/b.png \n" }).images
        = ["/a.png", "https://x.io/b.png"] ∧
      (handleAddImage { images := ["/a.png"], imageUrl := "ftp://x.io/b.png" }).images
        = ["/a.png"] ∧
      (handleAddImage { images := ["/a.png"], imageUrl := " \t " }).images = ["/a.png"] :=
  ⟨((handleAddImage_validates_url
      { images := ["/a.png"], imageUrl := "  https://x.io/b.png \n" }).1).2
      ⟨by decide, Or.inr (Or.inl (by decide))⟩,
    (handleAddImage_validates_url { images := ["/a.png"], imageUrl := "ftp://x.io/b.png" }).2.1
      (by decide),
    (handleAddImage_validates_url { images := ["/a.png"], imageUrl := " \t " }).2.2
      (Or.inr (by decide))⟩

/-! ### C23: the response interceptor -/

/-- C23: when a request is rejected with error `e`, the caller still sees the rejection with
`e` itself.  If the status of `e` is 401 the interceptor leaves local storage without a
"token" and without a "user" entry, every other key as it was, and assigns "/login" to the
location; for any other status, or no response at all, the interceptor changes nothing, so
local storage is the one before the request. -/
theorem responseInterceptor_on_rejection (net : Net) (r : Request) (w : World) (e : JsError)
    (hnet : net (w.log ++ [r]) = Response.fail e) :
    (apiCall net r w).1 = Response.fail e ∧
    (e.status = some 401 →
      (responseInterceptor e w).storage.getItem "token" = none ∧
      (responseInterceptor e w).storage.getItem "user" = none ∧
      (∀ key : String, key ≠ "token" → key ≠ "user" →
        (responseInterceptor e w).storage.getItem key = w.storage.getItem key) ∧
      (responseInterceptor e w).redirects = w.redirects ++ ["/login"] ∧
      (apiCall net r w).2.storage = (w.storage.removeItem "token").removeItem "user" ∧
      (apiCall net r w).2.redirects = w.redirects ++ ["/login"]) ∧
    (e.status ≠ some 401 →
      responseInterceptor e w = w ∧
      (apiCall net r w).2.storage = w.storage ∧
      (apiCall net r w).2.redirects = w.redirects) := by
  refine ⟨?_, ?_, ?_⟩
  · rw [apiCall_fail hnet]
  · intro hstatus
    have hw : ∀ w0 : World, responseInterceptor e w0 =
        { w0 with
          storage := (w0.storage.removeItem "token").removeItem "user"
          redirects := w0.redirects ++ ["/login"] } := by
      intro w0
      unfold responseInterceptor
      rw [if_pos hstatus]
    refine ⟨?_, ?_, ?_, ?_, ?_, ?_⟩
    · rw [hw]
      show ((w.storage.removeItem "token").removeItem "user").getItem "token" = none
      rw [Storage.getItem_removeItem_ne _ (by decide), Storage.getItem_removeItem_self]
    · rw [hw]
      exact Storage.getItem_removeItem_self _ "user"
    · intro key htoken huser
      rw [hw]
      show ((w.storage.removeItem "token").removeItem "user").getItem key = _
      rw [Storage.getItem_removeItem_ne _ (Ne.symm huser),
        Storage.getItem_removeItem_ne _ (Ne.symm htoken)]
    · rw [hw]
    · rw [apiCall_fail hnet, hw]
    · rw [apiCall_fail hnet, hw]
  · intro hstatus
    have hw : ∀ w0 : World, responseInterceptor e w0 = w0 := by
      intro w0
      unfold responseInterceptor
      rw [if_neg hstatus]
    refine ⟨hw w, ?_, ?_⟩
    · rw [apiCall_fail hnet, hw]
    · rw [apiCall_fail hnet, hw]

theorem responseInterceptor_on_rejection_witness :
    (apiCall (fun _ => Response.fail { status := some 401 }) Request.getCart
        { storage := [("token", StoreVal.text "t"), ("user", StoreVal.nonArray),
            ("cart_cache_u1", StoreVal.array [])] }).2.storage
      = [("cart_cache_u1", StoreVal.array [])] ∧
    (apiCall (fun _ => Response.fail { status := some 500 }) Request.getCart
        { storage := [("token", StoreVal.text "t"), ("user", StoreVal.nonArray)] }).2.storage
      = [("token", StoreVal.text "t"), ("user", StoreVal.nonArray)] :=
  ⟨((responseInterceptor_on_rejection (fun _ => Response.fail { status := some 401 })
      Request.getCart
      { storage := [("token", StoreVal.text "t"), ("user", StoreVal.nonArray),
          ("cart_cache_u1", StoreVal.array [])] } { status := some 401 } rfl).2.1 rfl).2.2.2.2.1,
    ((responseInterceptor_on_rejection (fun _ => Response.fail { status := some 500 })
      Request.getCart
      { storage := [("token", StoreVal.text "t"), ("user", StoreVal.nonArray)] }
      { status := some 500 } rfl).2.2 (by decide)).2.1⟩

/-! ### C24: a quantity above the stock on the detail page -/

/-- C24: on the detail page, when the selected quantity is greater than the stock of the
product, `handleAddToCart` issues no request and leaves local storage, the fallback cache
included, as it was, whoever the user is; for a buyer the only effect is the error toast
"Quantity exceeds available stock". -/
theorem productDetail_handleAddToCart_exceeds_stock (net : Net) (user : Option User)
    (product : DetailProduct) (quantity stock : Int) (w : World)
    (hstock : product.stock = Stock.count stock) (hexceeds : stock < quantity) :
    (ProductDetail.handleAddToCart net user product quantity w).log = w.log ∧
    (ProductDetail.handleAddToCart net user product quantity w).storage = w.storage ∧
    (∀ u : User, user = some u →
      (ProductDetail.handleAddToCart net user product quantity w).storage.getItem (cacheKey u.id)
        = w.storage.getItem (cacheKey u.id)) ∧
    (∀ u : User, user = some u → u.role = "buyer" →
      ProductDetail.handleAddToCart net user product quantity w
        = w.toast (Toast.error (ErrMsg.text "Quantity exceeds available stock"))) := by
  have hbuyer : ∀ u : User, u.role = "buyer" →
      ProductDetail.handleAddToCart net (some u) product quantity w
        = w.toast (Toast.error (ErrMsg.text "Quantity exceeds available stock")) := by
    intro u hrole
    have hd : exceedsStock quantity product.stock = true := by
      rw [hstock]
      exact decide_eq_true hexceeds
    exact productDetail_handleAddToCart_refused net u w product quantity hrole hd
  have hboth : (ProductDetail.handleAddToCart net user product quantity w).log = w.log ∧
      (ProductDetail.handleAddToCart net user product quantity w).storage = w.storage := by
    cases user with
    | none => exact ⟨rfl, rfl⟩
    | some u =>
      by_cases hrole : u.role = "buyer"
      · rw [hbuyer u hrole]
        exact ⟨rfl, rfl⟩
      · have h := ((handleAddToCart_not_buyer net u w hrole).2 product quantity)
        exact ⟨h.2, h.1⟩
  refine ⟨hboth.1, hboth.2, ?_, ?_⟩
  · intro u _
    rw [hboth.2]
  · intro u hu hrole
    rw [hu]
    exact hbuyer u hrole

theorem productDetail_handleAddToCart_exceeds_stock_witness :
    (ProductDetail.handleAddToCart stocked (some buyer) { id := some "p1", stock := Stock.count 3 } 4
        { storage := [("cart_cache_u1",
            StoreVal.array [some { product_id := some "p1", quantity := some 2 }])] }).log = [] ∧
      (ProductDetail.handleAddToCart stocked (some buyer) { id := some "p1", stock := Stock.count 3 } 4
        { storage := [("cart_cache_u1",
            StoreVal.array [some { product_id := some "p1", quantity := some 2 }])] }).storage
        = [("cart_cache_u1",
            StoreVal.array [some { product_id := some "p1", quantity := some 2 }])] :=
  ⟨(productDetail_handleAddToCart_exceeds_stock stocked (some buyer)
      { id := some "p1", stock := Stock.count 3 } 4 3
      { storage := [("cart_cache_u1",
          StoreVal.array [some { product_id := some "p1", quantity := some 2 }])] }
      rfl (by decide)).1,
    (productDetail_handleAddToCart_exceeds_stock stocked (some buyer)
      { id := some "p1", stock := Stock.count 3 } 4 3
      { storage := [("cart_cache_u1",
          StoreVal.array [some { product_id := some "p1", quantity := some 2 }])] }
      rfl (by decide)).2.1⟩

/-! ### C25: a server-mode update whose add is refused -/

theorem updateQuantityServer_add_rejected_state {net : Net} (uid : String) {w : World}
    {itemId : Option String} {item : CartItem} {q : Int} {e : JsError}
    (hdel : (∃ d, net (w.log ++ [Request.deleteCartItem itemId]) = Response.ok d) ∨
      ∃ e, net (w.log ++ [Request.deleteCartItem itemId]) = Response.fail e ∧
        e.status = some 404)
    (hadd : net (w.log ++ [Request.deleteCartItem itemId, Request.addToCart item.product_id q])
      = Response.fail e) :
    ∃ w2, w2.log = w.log ++ [Request.deleteCartItem itemId, Request.addToCart item.product_id q] ∧
      w2.cart = w.cart ∧ w2.toasts = w.toasts ∧
      w2.storage.getItem (cacheKey uid) = w.storage.getItem (cacheKey uid) ∧
      updateQuantityServer net uid itemId item q w = Tried.thrown e w2 := by
  have hlog := apiCall_log net (Request.deleteCartItem itemId) w
  have hcart := apiCall_cart net (Request.deleteCartItem itemId) w
  have hcache := apiCall_getItem_cache net (Request.deleteCartItem itemId) w uid
  have htoasts : (apiCall net (Request.deleteCartItem itemId) w).2.toasts = w.toasts := by
    cases hd : net (w.log ++ [Request.deleteCartItem itemId]) with
    | ok d => rw [apiCall_ok hd]
    | fail e1 => rw [apiCall_fail hd, responseInterceptor_toasts]
  have h : net ((apiCall net (Request.deleteCartItem itemId) w).2.log ++
      [Request.addToCart item.product_id q]) = Response.fail e := by
    rw [hlog, List.append_assoc]
    exact hadd
  rw [updateQuantityServer_delete_tolerated hdel, apiCall_fail h]
  refine ⟨_, ?_, ?_, ?_, ?_, rfl⟩
  · rw [responseInterceptor_log]
    show (apiCall net (Request.deleteCartItem itemId) w).2.log ++ _ = _
    rw [hlog, List.append_assoc]
    rfl
  · rw [responseInterceptor_cart]
    exact hcart
  · rw [responseInterceptor_toasts]
    exact htoasts
  · rw [responseInterceptor_getItem_cache]
    exact hcache

/-- C25 (as stated) fails when the reload cannot reach the server either: the delete
succeeds, the add is rejected and no second add is issued, but the reload's cart request is
rejected too, so the cart is rebuilt from the fallback cache, which holds the product: the
cart shown still contains two units of product `p1`. -/
theorem updateQuantity_server_mode_item_shown_from_cache :
    ((sampleItem "c1" "p1" 2).id ≠ (sampleItem "c1" "p1" 2).product_id ∧
      deleteOnly ([] ++ [Request.deleteCartItem (some "c1")]) = Response.ok none ∧
      deleteOnly ([] ++ [Request.deleteCartItem (some "c1"), Request.addToCart (some "p1") 3])
        = Response.fail { message := "Network Error" }) ∧
    (updateQuantity deleteOnly "u1" (sampleItem "c1" "p1" 2).id 1
      { cart := [sampleItem "c1" "p1" 2]
        storage := [("cart_cache_u1",
          StoreVal.array [some { product_id := some "p1", quantity := some 2 }])] }).log
      = [Request.deleteCartItem (some "c1"), Request.addToCart (some "p1") 3, Request.getCart,
         Request.getProduct (some "p1")] ∧
    (updateQuantity deleteOnly "u1" (sampleItem "c1" "p1" 2).id 1
      { cart := [sampleItem "c1" "p1" 2]
        storage := [("cart_cache_u1",
          StoreVal.array [some { product_id := some "p1", quantity := some 2 }])] }).cart.map
      (fun i => (i.product_id, i.title, i.quantity)) = [(some "p1", "Lamp", 2)] := by
  decide

/-- C25 (amended): in server mode (the item `cart.find` returns has `id != product_id`, new
quantity at least 1), when the delete call succeeds and the add call that follows is
rejected with error `e`: the requests issued are the DELETE, one POST
`/products/cart/add`, the GET of the reload and product fetches of the fallback path only, so
no second add; the toast shown before the reload is the error toast of `e`.  If the
reload's GET succeeds, no product fetch follows and the cart is the mapping of the server's
answer, whatever the cart was: when the server no longer lists an entry with the deleted id,
the cart has no item with that id, though the item was in the cart and only its quantity was
to change.  If the reload's GET is rejected and the cache of the user holds an array, the
cart is rebuilt from the cache. -/
theorem updateQuantity_server_mode_not_atomic (net : Net) (uid : String) (w : World)
    (item : CartItem) (change : Int) (e : JsError)
    (hfind : w.cart.find? (fun i => i.id = item.id) = some item)
    (hmode : item.id ≠ item.product_id) (hq : 1 ≤ item.quantity + change)
    (hdel : ∃ d, net (w.log ++ [Request.deleteCartItem item.id]) = Response.ok d)
    (hadd : net (w.log ++ [Request.deleteCartItem item.id,
      Request.addToCart item.product_id (item.quantity + change)]) = Response.fail e) :
    item ∈ w.cart ∧
    (∃ fetches,
      (updateQuantity net uid item.id change w).log
        = w.log ++ Request.deleteCartItem item.id ::
            Request.addToCart item.product_id (item.quantity + change) ::
            Request.getCart :: fetches ∧
      ∀ r ∈ fetches, r.isProductFetch = true) ∧
    (∀ data items, net (w.log ++ [Request.deleteCartItem item.id,
      Request.addToCart item.product_id (item.quantity + change), Request.getCart])
        = Response.ok data →
      serverCart data = Except.ok items →
      (updateQuantity net uid item.id change w).log
        = w.log ++ [Request.deleteCartItem item.id,
            Request.addToCart item.product_id (item.quantity + change), Request.getCart] ∧
      (updateQuantity net uid item.id change w).cart = items ∧
      (updateQuantity net uid item.id change w).toasts
        = w.toasts ++ [Toast.error (errorMsgOf e "Failed to update quantity")] ∧
      ((∀ i ∈ items, i.id ≠ item.id) →
        ∀ i ∈ (updateQuantity net uid item.id change w).cart, i.id ≠ item.id)) ∧
    (∀ e2 entries, net (w.log ++ [Request.deleteCartItem item.id,
      Request.addToCart item.product_id (item.quantity + change), Request.getCart])
        = Response.fail e2 →
      w.storage.getItem (cacheKey uid) = some (StoreVal.array entries) →
      (updateQuantity net uid item.id change w).cart
        = fallbackCart net (w.log ++ [Request.deleteCartItem item.id,
            Request.addToCart item.product_id (item.quantity + change), Request.getCart])
            entries) := by
  obtain ⟨w2, hlog2, _, htoasts2, hcache2, hrun⟩ :=
    updateQuantityServer_add_rejected_state uid (Or.inl hdel) hadd
  have hout : updateQuantity net uid item.id change w
      = loadCart net uid (w2.toast (Toast.error (errorMsgOf e "Failed to update quantity"))) := by
    rw [updateQuantity_server_outcome hfind hmode hq, hrun]
  have hlogW : (w2.toast (Toast.error (errorMsgOf e "Failed to update quantity"))).log ++
      [Request.getCart] = w.log ++ [Request.deleteCartItem item.id,
        Request.addToCart item.product_id (item.quantity + change), Request.getCart] := by
    show w2.log ++ _ = _
    rw [hlog2, List.append_assoc]
    rfl
  refine ⟨List.mem_of_find?_eq_some hfind, ?_, ?_, ?_⟩
  · obtain ⟨fetches, hlog, hall⟩ := loadCart_log net uid
      (w2.toast (Toast.error (errorMsgOf e "Failed to update quantity")))
    refine ⟨fetches, ?_, hall⟩
    rw [hout, hlog]
    show w2.log ++ _ = _
    rw [hlog2]
    simp
  · intro data items hresp hmap
    rw [← hlogW] at hresp
    have hsynced := @loadCart_synced net uid _ data items hresp hmap
    have hcart : (updateQuantity net uid item.id change w).cart = items := by
      rw [hout, hsynced]
    refine ⟨?_, hcart, ?_, ?_⟩
    · rw [hout, hsynced]
      exact hlogW
    · rw [hout, hsynced]
      show w2.toasts ++ _ = _
      rw [htoasts2]
    · intro hgone
      rw [hcart]
      exact hgone
  · intro e2 entries hresp hcache
    rw [← hlogW] at hresp
    rw [hout, loadCart_rejected_cart hresp (hcache2.trans hcache), hlogW]

/-- Witness of C25: the only entry of the server cart is deleted and the add is refused; the
reloaded cart is empty. -/
theorem updateQuantity_server_mode_not_atomic_witness :
    sampleItem "c1" "p1" 2 ∈ [sampleItem "c1" "p1" 2] ∧
    (updateQuantity outOfStock "u1" (sampleItem "c1" "p1" 2).id 1
        { cart := [sampleItem "c1" "p1" 2] }).log
      = [] ++ [Request.deleteCartItem (sampleItem "c1" "p1" 2).id,
          Request.addToCart (sampleItem "c1" "p1" 2).product_id
            ((sampleItem "c1" "p1" 2).quantity + 1), Request.getCart] ∧
    (updateQuantity outOfStock "u1" (sampleItem "c1" "p1" 2).id 1
        { cart := [sampleItem "c1" "p1" 2] }).cart = [] :=
  ⟨(updateQuantity_server_mode_not_atomic outOfStock "u1" { cart := [sampleItem "c1" "p1" 2] }
      (sampleItem "c1" "p1" 2) 1
      { status := some 400, detail := Detail.str "Insufficient stock",
        message := "Request failed with status code 400" }
      (by decide) (by decide) (by decide) ⟨_, rfl⟩ rfl).1,
    ((updateQuantity_server_mode_not_atomic outOfStock "u1"
      { cart := [sampleItem "c1" "p1" 2] } (sampleItem "c1" "p1" 2) 1
      { status := some 400, detail := Detail.str "Insufficient stock",
        message := "Request failed with status code 400" }
      (by decide) (by decide) (by decide) ⟨_, rfl⟩ rfl).2.2.1
      (some { items := some [] }) [] rfl rfl).1,
    ((updateQuantity_server_mode_not_atomic outOfStock "u1"
      { cart := [sampleItem "c1" "p1" 2] } (sampleItem "c1" "p1" 2) 1
      { status := some 400, detail := Detail.str "Insufficient stock",
        message := "Request failed with status code 400" }
      (by decide) (by decide) (by decide) ⟨_, rfl⟩ rfl).2.2.1
      (some { items := some [] }) [] rfl rfl).2.1⟩

/-! ### C26: the product ids of the cache stay distinct -/

theorem cachedProductIds_cons (x : Option CacheEntry) (rest : List (Option CacheEntry)) :
    cachedProductIds (x :: rest)
      = (match x with
        | some c => c.product_id :: cachedProductIds rest
        | none => cachedProductIds rest) := by
  cases x <;> rfl

theorem cachedProductIds_setQuantityAt (q : Int) :
    ∀ (k : Nat) (entries : List (Option CacheEntry)),
      cachedProductIds (setQuantityAt k q entries) = cachedProductIds entries := by
  intro k entries
  induction entries generalizing k with
  | nil => cases k <;> rfl
  | cons x rest ih =>
    cases k with
    | zero => cases x <;> rfl
    | succ k =>
      show cachedProductIds (x :: setQuantityAt k q rest) = _
      rw [cachedProductIds_cons, cachedProductIds_cons, ih k]

theorem cachedProductIds_addQuantityAt (q : Int) :
    ∀ (k : Nat) (entries : List (Option CacheEntry)),
      cachedProductIds (addQuantityAt k q entries) = cachedProductIds entries := by
  intro k entries
  induction entries generalizing k with
  | nil => cases k <;> rfl
  | cons x rest ih =>
    cases k with
    | zero => cases x <;> rfl
    | succ k =>
      show cachedProductIds (x :: addQuantityAt k q rest) = _
      rw [cachedProductIds_cons, cachedProductIds_cons, ih k]

theorem cachedProductIds_push (entries : List (Option CacheEntry)) (c : CacheEntry) :
    cachedProductIds (entries ++ [some c]) = cachedProductIds entries ++ [c.product_id] := by
  simp [cachedProductIds]

theorem findIndexByProduct_none_not_mem {pid : Option String} :
    ∀ entries : List (Option CacheEntry),
      findIndexByProduct pid entries = Except.ok none → pid ∉ cachedProductIds entries := by
  intro entries
  induction entries with
  | nil => intro _ h; cases h
  | cons x rest ih =>
    intro h
    cases x with
    | none => simp [findIndexByProduct] at h
    | some c =>
      unfold findIndexByProduct at h
      by_cases hc : c.product_id = pid
      · rw [if_pos hc] at h
        cases h
      · rw [if_neg hc] at h
        cases hr : findIndexByProduct pid rest with
        | error e => simp [hr] at h
        | ok idx =>
          cases idx with
          | some k => simp [hr] at h
          | none =>
            rw [cachedProductIds_cons]
            intro hmem
            rcases List.mem_cons.mp hmem with h1 | h1
            · exact hc h1.symm
            · exact ih hr h1

theorem filterOutProduct_sublist {pid : Option String} :
    ∀ (entries kept : List (Option CacheEntry)),
      filterOutProduct pid entries = Except.ok kept → List.Sublist kept entries := by
  intro entries
  induction entries with
  | nil =>
    intro kept h
    simp [filterOutProduct] at h
    subst h
    exact List.Sublist.refl _
  | cons y rest ih =>
    intro kept h
    cases y with
    | none => simp [filterOutProduct] at h
    | some c =>
      unfold filterOutProduct at h
      cases hr : filterOutProduct pid rest with
      | error e => simp [hr] at h
      | ok tail =>
        simp only [hr] at h
        cases h
        split
        · exact List.Sublist.cons₂ _ (ih tail hr)
        · exact List.Sublist.cons _ (ih tail hr)

theorem distinctProducts_of_parse {uid : String} {st : Storage}
    {cached : List (Option CacheEntry)} (h : DistinctProducts uid st)
    (hp : parseCache st (cacheKey uid) = Parsed.array cached) :
    (cachedProductIds cached).Nodup := by
  rcases parseCache_array_cases hp with hnil | hget
  · rw [hnil]
    exact List.nodup_nil
  · exact h cached hget

theorem distinctProducts_setItem (uid : String) (st : Storage)
    {entries : List (Option CacheEntry)} (hnew : (cachedProductIds entries).Nodup) :
    DistinctProducts uid (st.setItem (cacheKey uid) (StoreVal.array entries)) := by
  intro es hget
  rw [Storage.getItem_setItem_self] at hget
  cases hget
  exact hnew

theorem distinctProducts_of_getItem {uid : String} {st st1 : Storage}
    (h : DistinctProducts uid st)
    (heq : st1.getItem (cacheKey uid) = none ∨
      st1.getItem (cacheKey uid) = st.getItem (cacheKey uid)) :
    DistinctProducts uid st1 := by
  intro entries hget
  rcases heq with h1 | h1
  · rw [h1] at hget
    cases hget
  · rw [h1] at hget
    exact h entries hget

theorem recordInCache_distinct (uid : String) (pid : Option String) (q : Int) {st : Storage}
    (h : DistinctProducts uid st) : DistinctProducts uid (recordInCache uid pid q st) := by
  unfold recordInCache
  cases hp : parseCache st (cacheKey uid) with
  | throws => exact h
  | nonArray => exact h
  | array cached =>
    dsimp only
    have hold := distinctProducts_of_parse h hp
    cases hidx : findIndexByProduct pid cached with
    | error err => exact h
    | ok idx =>
      cases idx with
      | some k =>
        apply distinctProducts_setItem
        rw [cachedProductIds_addQuantityAt]
        exact hold
      | none =>
        apply distinctProducts_setItem
        rw [cachedProductIds_push]
        refine List.Nodup.append hold (List.nodup_singleton _) ?_
        intro x hx hx1
        rw [List.mem_singleton] at hx1
        subst hx1
        exact findIndexByProduct_none_not_mem cached hidx hx

theorem updateQuantityLocal_distinct (uid : String) (itemId : Option String) (item : CartItem)
    (q : Int) {w : World} (h : DistinctProducts uid w.storage) :
    DistinctProducts uid (updateQuantityLocal uid itemId item q w).world.storage := by
  unfold updateQuantityLocal
  cases hp : parseCache w.storage (cacheKey uid) with
  | throws => exact h
  | nonArray => exact h
  | array cached =>
    dsimp only
    have hold := distinctProducts_of_parse h hp
    cases hidx : findIndexByProduct item.product_id cached with
    | error err => exact h
    | ok idx =>
      show DistinctProducts uid (w.storage.setItem (cacheKey uid) _)
      apply distinctProducts_setItem
      cases idx with
      | some k =>
        show (cachedProductIds (setQuantityAt k q cached)).Nodup
        rw [cachedProductIds_setQuantityAt]
        exact hold
      | none => exact hold

theorem removeItemLocal_distinct (uid : String) (itemId : Option String) (item : CartItem)
    {w : World} (h : DistinctProducts uid w.storage) :
    DistinctProducts uid (removeItemLocal uid itemId item w).world.storage := by
  unfold removeItemLocal
  cases hp : parseCache w.storage (cacheKey uid) with
  | throws => exact h
  | nonArray => exact h
  | array cached =>
    dsimp only
    have hold := distinctProducts_of_parse h hp
    cases hf : filterOutProduct item.product_id cached with
    | error err => exact h
    | ok next =>
      show DistinctProducts uid (w.storage.setItem (cacheKey uid) _)
      apply distinctProducts_setItem
      have hsub := filterOutProduct_sublist cached next hf
      exact List.Nodup.sublist ((hsub.filterMap id).map _) hold

theorem updateQuantityServer_distinct (net : Net) (uid : String) (itemId : Option String)
    (item : CartItem) (q : Int) {w : World} (h : DistinctProducts uid w.storage) :
    DistinctProducts uid (updateQuantityServer net uid itemId item q w).world.storage := by
  have hadd : ∀ w1 : World, DistinctProducts uid w1.storage →
      DistinctProducts uid (match apiCall net (Request.addToCart item.product_id q) w1 with
        | (Response.fail e, w2) => Tried.thrown e w2
        | (Response.ok _, w2) =>
          Tried.done ((loadCart net uid w2).toast (Toast.success "Quantity updated"))
        ).world.storage := by
    intro w1 hw1
    have h2 : DistinctProducts uid
        (apiCall net (Request.addToCart item.product_id q) w1).2.storage :=
      distinctProducts_of_getItem hw1 (Or.inr (apiCall_getItem_cache net _ w1 uid))
    generalize apiCall net (Request.addToCart item.product_id q) w1 = res at h2
    obtain ⟨resp, w2⟩ := res
    cases resp with
    | ok d =>
      show DistinctProducts uid (loadCart net uid w2).storage
      exact distinctProducts_of_getItem h2 (loadCart_getItem_cache net uid w2)
    | fail e => exact h2
  have hdel : DistinctProducts uid (apiCall net (Request.deleteCartItem itemId) w).2.storage :=
    distinctProducts_of_getItem h (Or.inr (apiCall_getItem_cache net _ w uid))
  unfold updateQuantityServer
  generalize apiCall net (Request.deleteCartItem itemId) w = res at hdel
  obtain ⟨resp, w1⟩ := res
  cases resp with
  | ok d => exact hadd w1 hdel
  | fail e =>
    dsimp only
    split
    · exact hdel
    · exact hadd w1 hdel

theorem removeItemServer_distinct (net : Net) (uid : String) (itemId : Option String)
    {w : World} (h : DistinctProducts uid w.storage) :
    DistinctProducts uid (removeItemServer net uid itemId w).world.storage := by
  have hdel : DistinctProducts uid (apiCall net (Request.deleteCartItem itemId) w).2.storage :=
    distinctProducts_of_getItem h (Or.inr (apiCall_getItem_cache net _ w uid))
  unfold removeItemServer
  generalize apiCall net (Request.deleteCartItem itemId) w = res at hdel
  obtain ⟨resp, w1⟩ := res
  cases resp with
  | ok d =>
    show DistinctProducts uid (loadCart net uid _).storage
    exact distinctProducts_of_getItem hdel (loadCart_getItem_cache net uid _)
  | fail e => exact hdel

theorem updateQuantity_distinct (net : Net) (uid : String) (itemId : Option String)
    (change : Int) {w : World} (h : DistinctProducts uid w.storage) :
    DistinctProducts uid (updateQuantity net uid itemId change w).storage := by
  unfold updateQuantity
  cases w.cart.find? (fun i => i.id = itemId) with
  | none => exact h
  | some item =>
    dsimp only
    split
    · exact h
    · have hattempt : DistinctProducts uid (if item.id = item.product_id
          then updateQuantityLocal uid itemId item (item.quantity + change) w
          else updateQuantityServer net uid itemId item (item.quantity + change) w
          ).world.storage := by
        split
        · exact updateQuantityLocal_distinct uid itemId item _ h
        · exact updateQuantityServer_distinct net uid itemId item _ h
      generalize (if item.id = item.product_id
          then updateQuantityLocal uid itemId item (item.quantity + change) w
          else updateQuantityServer net uid itemId item (item.quantity + change) w) = r
        at hattempt
      cases r with
      | done w1 => exact hattempt
      | thrown e w1 =>
        show DistinctProducts uid (loadCart net uid _).storage
        exact distinctProducts_of_getItem hattempt (loadCart_getItem_cache net uid _)

theorem removeItem_distinct (net : Net) (uid : String) (itemId : Option String) {w : World}
    (h : DistinctProducts uid w.storage) :
    DistinctProducts uid (removeItem net uid itemId w).storage := by
  unfold removeItem
  cases w.cart.find? (fun i => i.id = itemId) with
  | none => exact h
  | some item =>
    dsimp only
    have hattempt : DistinctProducts uid (if item.id = item.product_id
        then removeItemLocal uid itemId item w
        else removeItemServer net uid itemId w).world.storage := by
      split
      · exact removeItemLocal_distinct uid itemId item h
      · exact removeItemServer_distinct net uid itemId h
    generalize (if item.id = item.product_id then removeItemLocal uid itemId item w
        else removeItemServer net uid itemId w) = r at hattempt
    cases r with
    | done w1 => exact hattempt
    | thrown e w1 =>
      show DistinctProducts uid (loadCart net uid _).storage
      exact distinctProducts_of_getItem hattempt (loadCart_getItem_cache net uid _)

theorem productsPage_handleAddToCart_distinct (net : Net) (u : User)
    (productId : Option String) {w : World} (h : DistinctProducts u.id w.storage) :
    DistinctProducts u.id (ProductsPage.handleAddToCart net (some u) productId w).storage := by
  unfold ProductsPage.handleAddToCart
  dsimp only
  split
  · exact h
  · have h2 : DistinctProducts u.id (apiCall net (Request.addToCart productId 1) w).2.storage :=
      distinctProducts_of_getItem h (Or.inr (apiCall_getItem_cache net _ w u.id))
    generalize apiCall net (Request.addToCart productId 1) w = res at h2
    obtain ⟨resp, w1⟩ := res
    cases resp with
    | ok d =>
      show DistinctProducts u.id (recordInCache u.id productId 1 _)
      exact recordInCache_distinct u.id productId 1 h2
    | fail e => exact h2

theorem productDetail_handleAddToCart_distinct (net : Net) (u : User)
    (product : DetailProduct) (quantity : Int) {w : World}
    (h : DistinctProducts u.id w.storage) :
    DistinctProducts u.id
      (ProductDetail.handleAddToCart net (some u) product quantity w).storage := by
  unfold ProductDetail.handleAddToCart
  dsimp only
  split
  · exact h
  · split
    · exact h
    · have h2 : DistinctProducts u.id (apiCall net
          (Request.addToCart (jsOr product.id product._id) quantity) w).2.storage :=
        distinctProducts_of_getItem h (Or.inr (apiCall_getItem_cache net _ w u.id))
      generalize apiCall net (Request.addToCart (jsOr product.id product._id) quantity) w
        = res at h2
      obtain ⟨resp, w1⟩ := res
      cases resp with
      | ok d =>
        show DistinctProducts u.id (recordInCache u.id _ quantity _)
        exact recordInCache_distinct u.id _ quantity h2
      | fail e =>
        show DistinctProducts u.id (showAddToCartError e w1).storage
        rw [showAddToCartError_storage]
        exact h2

/-- C26: if the product ids of the entries of the fallback cache of the user are pairwise
distinct, they are pairwise distinct after add-to-cart from the products list, after
add-to-cart from the product detail page, after `updateQuantity` and after `removeItem`,
whatever the arguments, the mode and the answers of the network. -/
theorem cache_product_ids_stay_distinct (net : Net) (u : User) (w : World)
    (h : DistinctProducts u.id w.storage) :
    (∀ productId : Option String,
      DistinctProducts u.id (ProductsPage.handleAddToCart net (some u) productId w).storage) ∧
    (∀ (product : DetailProduct) (quantity : Int),
      DistinctProducts u.id
        (ProductDetail.handleAddToCart net (some u) product quantity w).storage) ∧
    (∀ (itemId : Option String) (change : Int),
      DistinctProducts u.id (updateQuantity net u.id itemId change w).storage) ∧
    (∀ itemId : Option String,
      DistinctProducts u.id (removeItem net u.id itemId w).storage) :=
  ⟨fun productId => productsPage_handleAddToCart_distinct net u productId h,
    fun product quantity => productDetail_handleAddToCart_distinct net u product quantity h,
    fun itemId change => updateQuantity_distinct net u.id itemId change h,
    fun itemId => removeItem_distinct net u.id itemId h⟩

/-- Witness of C26: a cache with entries for `p1` and `p2`; a third product is added, and the
cached product ids are then `p1`, `p2`, `p3`. -/
theorem cache_product_ids_stay_distinct_witness :
    DistinctProducts buyer.id
      (ProductsPage.handleAddToCart stocked (some buyer) (some "p3")
        { storage := [("cart_cache_u1", StoreVal.array
            [some { product_id := some "p1", quantity := some 2 },
             some { product_id := some "p2", quantity := some 1 }])] }).storage ∧
    (ProductsPage.handleAddToCart stocked (some buyer) (some "p3")
        { storage := [("cart_cache_u1", StoreVal.array
            [some { product_id := some "p1", quantity := some 2 },
             some { product_id := some "p2", quantity := some 1 }])] }).storage.getItem
      (cacheKey buyer.id)
      = some (StoreVal.array
          [some { product_id := some "p1", quantity := some 2 },
           some { product_id := some "p2", quantity := some 1 },
           some { product_id := some "p3", quantity := some 1 }]) :=
  ⟨(cache_product_ids_stay_distinct stocked buyer
      { storage := [("cart_cache_u1", StoreVal.array
          [some { product_id := some "p1", quantity := some 2 },
           some { product_id := some "p2", quantity := some 1 }])] }
      (by
        intro entries hget
        have hentries : some (StoreVal.array
            [some { product_id := some "p1", quantity := some 2 },
             some { product_id := some "p2", quantity := some 1 }])
            = some (StoreVal.array entries) := hget
        cases hentries
        decide)).1 (some "p3"),
    by decide⟩

/-! ### C27 and C28: the total, and an update undone -/

theorem foldl_total (cart : List CartItem) :
    ∀ acc : Int, cart.foldl (fun sum item => sum + item.price * item.quantity) acc
      = acc + totalBySum cart := by
  induction cart with
  | nil => intro acc; simp [totalBySum]
  | cons x rest ih =>
    intro acc
    rw [List.foldl_cons, ih]
    simp only [totalBySum, List.map_cons, List.sum_cons]
    omega

theorem calculateTotal_eq_totalBySum (w : World) : calculateTotal w = totalBySum w.cart := by
  unfold calculateTotal
  rw [foldl_total]
  omega

theorem eq_of_nodup_ids {cart : List CartItem} {item i : CartItem}
    (hids : (cart.map (fun i => i.id)).Nodup) (hitem : item ∈ cart) (hi : i ∈ cart)
    (hid : i.id = item.id) : i = item :=
  List.inj_on_of_nodup_map hids hi hitem hid

theorem find_of_nodup_ids {cart : List CartItem} {item : CartItem}
    (hids : (cart.map (fun i => i.id)).Nodup) (hitem : item ∈ cart) :
    cart.find? (fun i => i.id = item.id) = some item := by
  cases hfind : cart.find? (fun i => i.id = item.id) with
  | none =>
    have h := List.find?_eq_none.mp hfind item hitem
    simp at h
  | some found =>
    have hmem := List.mem_of_find?_eq_some hfind
    have hid : found.id = item.id := by simpa using List.find?_some hfind
    rw [eq_of_nodup_ids hids hitem hmem hid]

theorem map_withQuantity_self {cart : List CartItem} {item : CartItem}
    (hids : (cart.map (fun i => i.id)).Nodup) (hitem : item ∈ cart) :
    cart.map (withQuantity item.id item.quantity) = cart := by
  have h : ∀ i ∈ cart, withQuantity item.id item.quantity i = id i := by
    intro i hi
    unfold withQuantity
    split
    · rename_i hid
      rw [eq_of_nodup_ids hids hitem hi hid]
      rfl
    · rfl
  rw [List.map_congr_left h, List.map_id]

theorem map_withQuantity_twice (itemId : Option String) (q1 q2 : Int) (cart : List CartItem) :
    (cart.map (withQuantity itemId q1)).map (withQuantity itemId q2)
      = cart.map (withQuantity itemId q2) := by
  rw [List.map_map]
  apply List.map_congr_left
  intro i _
  simp only [Function.comp, withQuantity]
  by_cases hid : i.id = itemId
  · simp [hid]
  · simp [hid]

theorem map_withQuantity_ids (itemId : Option String) (q : Int) (cart : List CartItem) :
    (cart.map (withQuantity itemId q)).map (fun i => i.id) = cart.map (fun i => i.id) := by
  rw [List.map_map]
  apply List.map_congr_left
  intro i _
  simp only [Function.comp, withQuantity]
  split <;> rfl

theorem totalBySum_withQuantity {item : CartItem} (q : Int) :
    ∀ cart : List CartItem, (cart.map (fun i => i.id)).Nodup → item ∈ cart →
      totalBySum (cart.map (withQuantity item.id q))
        = totalBySum cart + (q - item.quantity) * item.price := by
  intro cart
  induction cart with
  | nil => intro _ h; cases h
  | cons x rest ih =>
    intro hids hitem
    have hids1 : x.id ∉ rest.map (fun i => i.id) ∧ (rest.map (fun i => i.id)).Nodup :=
      List.nodup_cons.mp hids
    by_cases hx : x.id = item.id
    · have hxi : x = item := eq_of_nodup_ids hids hitem (List.mem_cons_self _ _) hx
      have hrest : rest.map (withQuantity item.id q) = rest := by
        have h : ∀ i ∈ rest, withQuantity item.id q i = id i := by
          intro i hi
          unfold withQuantity
          split
          · rename_i hid
            exact absurd (List.mem_map.mpr ⟨i, hi, hid.trans hx.symm⟩) hids1.1
          · rfl
        rw [List.map_congr_left h, List.map_id]
      rw [List.map_cons, hrest]
      simp only [totalBySum, List.map_cons, List.sum_cons, withQuantity, if_pos hx]
      rw [hxi]
      ring
    · have hmem : item ∈ rest := by
        rcases List.mem_cons.mp hitem with h | h
        · exact absurd (congrArg (fun i => i.id) h).symm hx
        · exact h
      have hrec := ih hids1.2 hmem
      rw [List.map_cons]
      simp only [totalBySum, List.map_cons, List.sum_cons] at hrec ⊢
      rw [hrec]
      simp only [withQuantity, if_neg hx]
      ring

theorem parseCache_setItem_array (st : Storage) (key : String)
    (entries : List (Option CacheEntry)) :
    parseCache (st.setItem key (StoreVal.array entries)) key = Parsed.array entries :=
  parseCache_of_getItem_array (Storage.getItem_setItem_self st key _)

theorem findIndexByProduct_setQuantityAt (pid : Option String) (q : Int) :
    ∀ (k : Nat) (entries : List (Option CacheEntry)),
      findIndexByProduct pid (setQuantityAt k q entries) = findIndexByProduct pid entries := by
  intro k entries
  induction entries generalizing k with
  | nil => cases k <;> rfl
  | cons x rest ih =>
    cases k with
    | zero => cases x <;> rfl
    | succ k =>
      cases x with
      | none => rfl
      | some c =>
        show findIndexByProduct pid (some c :: setQuantityAt k q rest) = _
        simp only [findIndexByProduct, ih k]

theorem updateQuantity_local_searchable {net : Net} {uid : String} {w : World}
    {item : CartItem} {change : Int}
    (hfind : w.cart.find? (fun i => i.id = item.id) = some item)
    (hmode : item.id = item.product_id) (hq : 1 ≤ item.quantity + change)
    (hcache : CacheSearchable uid item.product_id w.storage) :
    (updateQuantity net uid item.id change w).cart
      = w.cart.map (withQuantity item.id (item.quantity + change)) ∧
    (updateQuantity net uid item.id change w).log = w.log ∧
    CacheSearchable uid item.product_id (updateQuantity net uid item.id change w).storage := by
  obtain ⟨cached, idx, hparse, hidx⟩ := hcache
  cases idx with
  | none =>
    rw [updateQuantity_local_unmatched hfind hmode hq hparse hidx]
    exact ⟨rfl, rfl, cached, none, parseCache_setItem_array _ _ _, hidx⟩
  | some k =>
    rw [updateQuantity_local_matched hfind hmode hq hparse hidx]
    refine ⟨rfl, rfl, _, some k, parseCache_setItem_array _ _ _, ?_⟩
    rw [findIndexByProduct_setQuantityAt]
    exact hidx

/-- C27 (as stated) fails when the cache of the user is not JSON: the cart has one item with
`id = product_id`, the ids are distinct and the new quantity is 3, but `JSON.parse` throws in
the fallback branch, the `catch` block reloads the cart, and with the server unreachable the
cart ends empty: the total goes from 60 to 0 instead of 90. -/
theorem updateQuantity_total_lost_on_reload :
    lamp.id = lamp.product_id ∧ ([lamp].map (fun i => i.id)).Nodup ∧ 1 ≤ lamp.quantity + 1 ∧
    calculateTotal
      { cart := [lamp], storage := [("cart_cache_u1", StoreVal.text "<html>")] } = 60 ∧
    calculateTotal (updateQuantity cartDown "u1" lamp.id 1
      { cart := [lamp], storage := [("cart_cache_u1", StoreVal.text "<html>")] }) = 0 := by
  decide

/-- C27 (amended): `calculateTotal` is the sum over the cart of price times quantity, 0 for
the empty cart; and for a cart with pairwise distinct ids, an item of it with
`id = product_id`, a delta with `item.quantity + delta >= 1`, and a cache of the user that is
absent or a JSON array with no `null` before the first entry of the product, the total after
`updateQuantity(item.id, delta)` is the total before plus `delta * item.price`. -/
theorem calculateTotal_sum_and_delta (net : Net) (uid : String) (w : World) (item : CartItem)
    (change : Int) :
    calculateTotal w = totalBySum w.cart ∧
    (w.cart = [] → calculateTotal w = 0) ∧
    ((w.cart.map (fun i => i.id)).Nodup → item ∈ w.cart → item.id = item.product_id →
      1 ≤ item.quantity + change → CacheSearchable uid item.product_id w.storage →
      calculateTotal (updateQuantity net uid item.id change w)
        = calculateTotal w + change * item.price) := by
  refine ⟨calculateTotal_eq_totalBySum w, ?_, ?_⟩
  · intro hempty
    rw [calculateTotal_eq_totalBySum, hempty]
    rfl
  · intro hids hitem hmode hq hcache
    have hrun := @updateQuantity_local_searchable net uid w item change
      (find_of_nodup_ids hids hitem) hmode hq hcache
    rw [calculateTotal_eq_totalBySum, calculateTotal_eq_totalBySum, hrun.1,
      totalBySum_withQuantity _ w.cart hids hitem]
    ring

/-- Witness of C27: the cart holds `p1` (price 30, two units) and `p2`; one more unit of `p1`
raises the total by 30. -/
theorem calculateTotal_sum_and_delta_witness :
    calculateTotal (updateQuantity offline "u1" lamp.id 1
      { cart := [lamp, sampleItem "p2" "p2" 1]
        storage := [("cart_cache_u1", StoreVal.array
          [some { product_id := some "p1", quantity := some 2 },
           some { product_id := some "p2", quantity := some 1 }])] })
      = calculateTotal
          { cart := [lamp, sampleItem "p2" "p2" 1]
            storage := [("cart_cache_u1", StoreVal.array
              [some { product_id := some "p1", quantity := some 2 },
               some { product_id := some "p2", quantity := some 1 }])] } + 1 * lamp.price :=
  (calculateTotal_sum_and_delta offline "u1"
    { cart := [lamp, sampleItem "p2" "p2" 1]
      storage := [("cart_cache_u1", StoreVal.array
        [some { product_id := some "p1", quantity := some 2 },
         some { product_id := some "p2", quantity := some 1 }])] } lamp 1).2.2
    (by decide) (by decide) (by decide) (by decide) ⟨_, _, rfl, rfl⟩

/-- C28 (as stated) fails in three ways.  With two items sharing an id, `cart.map` rewrites
both with the quantity computed from the first: quantities 5 and 1 end as 5 and 5.  An item
of quantity 0 goes to 1 and the decrement is then refused (`newQuantity < 1`): it ends at 1.
And with a cache that is not JSON the fallback branch throws and the cart is reloaded: with
the server unreachable the cart ends empty. -/
theorem updateQuantity_up_down_not_restored :
    ((sampleItem "a" "a" 1 ∈ [sampleItem "a" "a" 5, sampleItem "a" "a" 1] ∧
      (sampleItem "a" "a" 1).id = (sampleItem "a" "a" 1).product_id) ∧
      (updateQuantity offline "u1" (sampleItem "a" "a" 1).id (-1)
        (updateQuantity offline "u1" (sampleItem "a" "a" 1).id 1
          { cart := [sampleItem "a" "a" 5, sampleItem "a" "a" 1] })).cart.map
        (fun i => i.quantity) = [5, 5]) ∧
    ((updateQuantity offline "u1" (sampleItem "p1" "p1" 0).id (-1)
        (updateQuantity offline "u1" (sampleItem "p1" "p1" 0).id 1
          { cart := [sampleItem "p1" "p1" 0] })).cart.map
        (fun i => i.quantity) = [1]) ∧
    ((updateQuantity cartDown "u1" lamp.id (-1)
        (updateQuantity cartDown "u1" lamp.id 1
          { cart := [lamp], storage := [("cart_cache_u1", StoreVal.text "<html>")] })).cart
        = []) := by
  decide

/-- C28 (amended): for a cart with pairwise distinct ids, an item of it with
`id = product_id` and quantity at least 1, and a cache of the user that is absent or a JSON
array with no `null` before the first entry of the product, `updateQuantity(item.id, +1)`
followed by `updateQuantity(item.id, -1)` leaves the cart exactly as it was (same items,
same order, same quantities), and issues no request. -/
theorem updateQuantity_up_then_down_restores (net : Net) (uid : String) (w : World)
    (item : CartItem) (hids : (w.cart.map (fun i => i.id)).Nodup) (hitem : item ∈ w.cart)
    (hmode : item.id = item.product_id) (hq : 1 ≤ item.quantity)
    (hcache : CacheSearchable uid item.product_id w.storage) :
    (updateQuantity net uid item.id (-1) (updateQuantity net uid item.id 1 w)).cart = w.cart ∧
    (updateQuantity net uid item.id (-1) (updateQuantity net uid item.id 1 w)).log = w.log := by
  have hq1 : 1 ≤ item.quantity + 1 := by omega
  obtain ⟨hcart1, hlog1, hcache1⟩ := @updateQuantity_local_searchable net uid w item 1
    (find_of_nodup_ids hids hitem) hmode hq1 hcache
  have hids1 : ((updateQuantity net uid item.id 1 w).cart.map (fun i => i.id)).Nodup := by
    rw [hcart1, map_withQuantity_ids]
    exact hids
  have hitem1 : ({ item with quantity := item.quantity + 1 } : CartItem)
      ∈ (updateQuantity net uid item.id 1 w).cart := by
    rw [hcart1]
    refine List.mem_map.mpr ⟨item, hitem, ?_⟩
    simp [withQuantity]
  have hq2 : 1 ≤ ({ item with quantity := item.quantity + 1 } : CartItem).quantity + -1 := by
    show 1 ≤ item.quantity + 1 + -1
    omega
  have hstep2 := @updateQuantity_local_searchable net uid (updateQuantity net uid item.id 1 w)
    ({ item with quantity := item.quantity + 1 } : CartItem) (-1)
    (find_of_nodup_ids hids1 hitem1) hmode hq2 hcache1
  have hcart2 : (updateQuantity net uid item.id (-1) (updateQuantity net uid item.id 1 w)).cart
      = (updateQuantity net uid item.id 1 w).cart.map
          (withQuantity item.id (item.quantity + 1 + -1)) := hstep2.1
  have hlog2 : (updateQuantity net uid item.id (-1) (updateQuantity net uid item.id 1 w)).log
      = (updateQuantity net uid item.id 1 w).log := hstep2.2.1
  have hback : item.quantity + 1 + -1 = item.quantity := by omega
  constructor
  · rw [hcart2, hcart1, map_withQuantity_twice, hback, map_withQuantity_self hids hitem]
  · rw [hlog2, hlog1]

/-- Witness of C28: the cart holds `p1` and `p2` from the cache; `p1` goes from 2 to 3 and
back. -/
theorem updateQuantity_up_then_down_restores_witness :
    (updateQuantity offline "u1" lamp.id (-1) (updateQuantity offline "u1" lamp.id 1
      { cart := [lamp, sampleItem "p2" "p2" 1]
        storage := [("cart_cache_u1", StoreVal.array
          [some { product_id := some "p1", quantity := some 2 },
           some { product_id := some "p2", quantity := some 1 }])] })).cart
      = [lamp, sampleItem "p2" "p2" 1] :=
  (updateQuantity_up_then_down_restores offline "u1"
    { cart := [lamp, sampleItem "p2" "p2" 1]
      storage := [("cart_cache_u1", StoreVal.array
        [some { product_id := some "p1", quantity := some 2 },
         some { product_id := some "p2", quantity := some 1 }])] } lamp
    (by decide) (by decide) (by decide) (by decide) ⟨_, _, rfl, rfl⟩).1

/-! ### C29: the client-side filter -/

theorem filterProducts_eq_filter (toLowerCase : String → String) (s : ProductsState)
    (hcat : s.selectedCategory ≠ "") :
    (filterProducts toLowerCase s).filteredProducts
      = s.products.filter (keptBySpec toLowerCase s.searchTerm s.selectedCategory) := by
  have hc : (s.selectedCategory != "") = true := by simpa using hcat
  unfold filterProducts
  dsimp only
  rw [hc, Bool.true_and]
  by_cases hterm : s.searchTerm = ""
  · have ht : (s.searchTerm != "") = false := by simp [hterm]
    by_cases hall : s.selectedCategory = "All"
    · have ha : (s.selectedCategory != "All") = false := by simp [hall]
      simp only [ht, ha, Bool.false_eq_true, if_false]
      symm
      rw [List.filter_eq_self]
      intro p _
      simp [keptBySpec, hterm, hall]
    · have ha : (s.selectedCategory != "All") = true := by simpa using hall
      simp only [ht, ha, Bool.false_eq_true, if_false, if_true]
      apply List.filter_congr
      intro p _
      simp [keptBySpec, hterm, hall]
  · have ht : (s.searchTerm != "") = true := by simpa using hterm
    have hbt : (s.searchTerm == "") = false := by simpa using hterm
    by_cases hall : s.selectedCategory = "All"
    · have ha : (s.selectedCategory != "All") = false := by simp [hall]
      simp only [ht, ha, Bool.false_eq_true, if_false, if_true]
      apply List.filter_congr
      intro p _
      simp [keptBySpec, matchesSearch, hbt, hall]
    · have ha : (s.selectedCategory != "All") = true := by simpa using hall
      have hba : (s.selectedCategory == "All") = false := by simpa using hall
      simp only [ht, ha, if_true, List.filter_filter]
      apply List.filter_congr
      intro p _
      simp only [keptBySpec, matchesSearch, hbt, hba, Bool.false_or]
      exact Bool.and_comm _ _

/-- C29: with a selected category taken from the options of the page (so not the empty
string), `filterProducts` sets `filteredProducts` to the products, in their order and with
their multiplicity, whose title or description contains the search term after lower-casing
both (every product when the term is empty) and whose category is the selected one (every
product when "All" is selected); the result is a sub-list of `products`; `minPrice` and
`maxPrice` do not change it; filtering the result again with the same criteria gives the
same list; and `products` itself is left as it was. -/
theorem filterProducts_keeps_matching (toLowerCase : String → String) (s : ProductsState)
    (hcat : s.selectedCategory ≠ "") :
    List.Sublist (filterProducts toLowerCase s).filteredProducts s.products ∧
    (filterProducts toLowerCase s).filteredProducts
      = s.products.filter (keptBySpec toLowerCase s.searchTerm s.selectedCategory) ∧
    (∀ p : CatalogProduct, p ∈ (filterProducts toLowerCase s).filteredProducts ↔
      p ∈ s.products ∧
      (s.searchTerm = "" ∨
        (∃ title, p.title = some title ∧
          (toLowerCase s.searchTerm).data <:+: (toLowerCase title).data) ∨
        (∃ description, p.description = some description ∧
          (toLowerCase s.searchTerm).data <:+: (toLowerCase description).data)) ∧
      (s.selectedCategory = "All" ∨ p.category = some s.selectedCategory)) ∧
    (∀ lowest highest : String,
      (filterProducts toLowerCase { s with minPrice := lowest, maxPrice := highest }
        ).filteredProducts = (filterProducts toLowerCase s).filteredProducts) ∧
    (filterProducts toLowerCase
        { s with products := (filterProducts toLowerCase s).filteredProducts }).filteredProducts
      = (filterProducts toLowerCase s).filteredProducts ∧
    (filterProducts toLowerCase s).products = s.products := by
  have hfield : ∀ field : Option String, fieldIncludes toLowerCase field s.searchTerm = true ↔
      ∃ text, field = some text ∧
        (toLowerCase s.searchTerm).data <:+: (toLowerCase text).data := by
    intro field
    cases field with
    | none => simp [fieldIncludes]
    | some text => simp [fieldIncludes, jsIncludes]
  refine ⟨?_, filterProducts_eq_filter toLowerCase s hcat, ?_, ?_, ?_, rfl⟩
  · rw [filterProducts_eq_filter toLowerCase s hcat]
    exact List.filter_sublist _
  · intro p
    rw [filterProducts_eq_filter toLowerCase s hcat, List.mem_filter]
    apply and_congr_right
    intro _
    unfold keptBySpec
    rw [Bool.and_eq_true, Bool.or_eq_true, Bool.or_eq_true, Bool.or_eq_true, hfield, hfield]
    simp only [beq_iff_eq, or_assoc]
  · intro lowest highest
    rfl
  · have hagain := filterProducts_eq_filter toLowerCase
      { s with products := (filterProducts toLowerCase s).filteredProducts } hcat
    rw [hagain]
    show ((filterProducts toLowerCase s).filteredProducts).filter
        (keptBySpec toLowerCase s.searchTerm s.selectedCategory) = _
    rw [filterProducts_eq_filter toLowerCase s hcat, List.filter_filter]
    apply List.filter_congr
    intro p _
    simp

/-- Witness of C29: searching the catalogue for "LAMP" in "Home & Garden" keeps the first and
the third product. -/
theorem filterProducts_keeps_matching_witness :
    (filterProducts asciiLower
        { products := catalogue, searchTerm := "LAMP", selectedCategory := "Home & Garden",
          minPrice := "40" }).filteredProducts.map (fun p => p.id)
      = [some "p1", some "p3"] ∧
    List.Sublist
      (filterProducts asciiLower
        { products := catalogue, searchTerm := "LAMP", selectedCategory := "Home & Garden",
          minPrice := "40" }).filteredProducts catalogue :=
  ⟨by decide,
    (filterProducts_keeps_matching asciiLower
      { products := catalogue, searchTerm := "LAMP", selectedCategory := "Home & Garden",
        minPrice := "40" } (by decide)).1⟩

end NovaMarket
